import Mathlib

/-!
# Session synchronisation of libinfinity (`libinfinity/common/inf-session.c`)

A shallow embedding of the session state machine: the private session record
becomes a Lean structure, every C function becomes a Lean function of the same
name that passes the record explicitly, and every call into a collaborator
(connection manager, GObject signal machinery, reference counting) is
recorded, in program order, in a trace carried by the record.

Conventions.
* `guint` values are natural numbers reduced modulo `2 ^ 32` where the C code
  computes them.
* `g_assert` and `g_assert_not_reached` abort: `Except.error Fault.assertion`.
* `g_return_if_fail` and `g_return_val_if_fail` return without doing anything.
* A `gdouble` quotient `(gdouble)a / (gdouble)b` is kept as the pair of its
  operands.
-/

namespace Infinity

/-! ## C library -/

/-- The largest `unsigned long` (LP64). -/
def ULONG_MAX : Nat := 2 ^ 64 - 1

/-- Conversion of an unsigned value to `guint` (32 bits). -/
def guint (n : Nat) : Nat := n % 2 ^ 32

/-- Subtraction of two `guint` values, as C computes it. -/
def guint_sub (a b : Nat) : Nat := (a + 2 ^ 32 - b % 2 ^ 32) % 2 ^ 32

/-- The C locale `isspace`. -/
def c_isspace (c : Char) : Bool :=
  c.toNat == 32 || (9 ≤ c.toNat && c.toNat ≤ 13)

/-- Value of a character as a digit of `strtoul` (letters count from ten). -/
def c_digit_value (c : Char) : Option Nat :=
  if 48 ≤ c.toNat ∧ c.toNat ≤ 57 then some (c.toNat - 48)
  else if 97 ≤ c.toNat ∧ c.toNat ≤ 122 then some (c.toNat - 87)
  else if 65 ≤ c.toNat ∧ c.toNat ≤ 90 then some (c.toNat - 55)
  else none

/-- The digit loop of `strtoul`: consumes digits of the base, stops at the
first other character. The accumulator is unbounded; the caller clamps. -/
def strtoul_scan (base : Nat) : Nat → List Char → Nat
  | acc, [] => acc
  | acc, c :: cs =>
    match c_digit_value c with
    | some d => if d < base then strtoul_scan base (acc * base + d) cs else acc
    | none => acc

/-- Optional sign of `strtoul`. -/
def strtoul_sign (cs : List Char) : Bool × List Char :=
  match cs with
  | '-' :: rest => (true, rest)
  | '+' :: rest => (false, rest)
  | _ => (false, cs)

/-- Base selection of `strtoul`: with base 0 a leading `0x` selects 16, a
leading `0` selects 8, anything else 10; base 16 skips a leading `0x`. -/
def strtoul_radix (base : Nat) (cs : List Char) : Nat × List Char :=
  match base, cs with
  | 0, '0' :: 'x' :: rest => (16, rest)
  | 0, '0' :: 'X' :: rest => (16, rest)
  | 16, '0' :: 'x' :: rest => (16, rest)
  | 16, '0' :: 'X' :: rest => (16, rest)
  | 0, '0' :: rest => (8, '0' :: rest)
  | 0, rest => (10, rest)
  | b, rest => (b, rest)

/-- The C function `strtoul(nptr, NULL, base)`: skips white space, reads an
optional sign and the digits, saturates at `ULONG_MAX`, negates modulo
`ULONG_MAX + 1` after a minus sign, and yields 0 when there is no digit. -/
def strtoul (nptr : String) (base : Nat) : Nat :=
  let cs := nptr.data.dropWhile c_isspace
  let sign := strtoul_sign cs
  let pre := strtoul_radix base sign.2
  let v := strtoul_scan pre.1 0 pre.2
  if ULONG_MAX < v then ULONG_MAX
  else if sign.1 then (ULONG_MAX + 1 - v) % (ULONG_MAX + 1)
  else v

/-- The text written by `sprintf(buf, "%u", n)` for an `unsigned int`. -/
def sprintf_u (n : Nat) : String := String.mk (Nat.toDigits 10 (n % 2 ^ 32))

/-! ## libxml2 nodes -/

/-- An XML element: its name and its attributes in document order. -/
structure XmlNode where
  name : String
  properties : List (String × String)
deriving DecidableEq, Repr

/-- The libxml2 call `xmlNewNode(NULL, name)`. -/
def xmlNewNode (name : String) : XmlNode := ⟨name, []⟩

/-- The libxml2 call `xmlNewProp`: appends an attribute. -/
def xmlNewProp (node : XmlNode) (name value : String) : XmlNode :=
  { node with properties := node.properties ++ [(name, value)] }

/-- The libxml2 call `xmlGetProp`: value of the first attribute of that name. -/
def xmlGetProp (node : XmlNode) (name : String) : Option String :=
  (node.properties.find? (fun p => p.1 == name)).map (fun p => p.2)

/-- Modelled from the spec: `inf_xml_util_set_attribute` lives in
inf-xml-util.c, which is not part of the sources. It stores the attribute
under the name, replacing the value of an attribute that is already there. -/
def inf_xml_util_set_attribute (node : XmlNode) (name value : String) : XmlNode :=
  if node.properties.any (fun p => p.1 == name) then
    { node with
      properties := node.properties.map (fun p => if p.1 == name then (p.1, value) else p) }
  else xmlNewProp node name value

/-! ## Errors -/

/-- A GLib error: domain (the quark, by its string), code and message. -/
structure GError where
  domain : String
  code : Nat
  message : String
deriving DecidableEq, Repr

/-- The enumeration of synchronisation errors. -/
inductive InfSessionSyncError where
  | UNEXPECTED_NODE
  | ID_NOT_PRESENT
  | ID_IN_USE
  | NAME_NOT_PRESENT
  | NAME_IN_USE
  | CONNECTION_CLOSED
  | SENDER_CANCELLED
  | RECEIVER_CANCELLED
  | UNEXPECTED_BEGIN_OF_SYNC
  | NUM_MESSAGES_MISSING
  | UNEXPECTED_END_OF_SYNC
  | EXPECTED_BEGIN_OF_SYNC
  | EXPECTED_END_OF_SYNC
  | FAILED
deriving DecidableEq, Repr

/-- Modelled from the spec: the enumeration is declared in inf-session.h, which
is not part of the sources. The members are numbered from 0 in the order in
which `inf_session_sync_strerror` lists them. -/
def InfSessionSyncError.toCode : InfSessionSyncError → Nat
  | .UNEXPECTED_NODE => 0
  | .ID_NOT_PRESENT => 1
  | .ID_IN_USE => 2
  | .NAME_NOT_PRESENT => 3
  | .NAME_IN_USE => 4
  | .CONNECTION_CLOSED => 5
  | .SENDER_CANCELLED => 6
  | .RECEIVER_CANCELLED => 7
  | .UNEXPECTED_BEGIN_OF_SYNC => 8
  | .NUM_MESSAGES_MISSING => 9
  | .UNEXPECTED_END_OF_SYNC => 10
  | .EXPECTED_BEGIN_OF_SYNC => 11
  | .EXPECTED_END_OF_SYNC => 12
  | .FAILED => 13

/-- The quark `inf_session_sync_error_quark`, by its string. -/
def inf_session_sync_error_quark : String := "INF_SESSION_SYNC_ERROR"

/-- The message table `inf_session_sync_strerror`, on the numeric code. -/
def inf_session_sync_strerror (errcode : Nat) : String :=
  match errcode with
  | 0 => "Got unexpected XML node during synchronization"
  | 1 => "\x27id\x27 attribute in user message is missing"
  | 2 => "User ID is already in use"
  | 3 => "\x27name\x27 attribute in user message is missing"
  | 4 => "User Name is already in use"
  | 5 => "The connection was closed unexpectedly"
  | 6 => "The sender cancelled the synchronization"
  | 7 => "The receiver cancelled teh synchronization"
  | 8 => "Got begin-of-sync message, but synchronization is already in progress"
  | 9 => "begin-of-sync message does not contain the number of messages to expect"
  | 10 => "Got end-of-sync message, but synchronization is still in progress"
  | 11 => "Expected begin-of-sync message as first message during synchronization"
  | 12 => "Expected end-of-sync message as last message during synchronization"
  | 13 => "An unknown synchronization error has occured"
  | _ => "An error with unknown error code occured"

/-- The helper `inf_session_get_sync_error_message`. -/
def inf_session_get_sync_error_message (domain : String) (code : Nat) : String :=
  if domain = inf_session_sync_error_quark then inf_session_sync_strerror code
  else "An error with unknown error domain occured"

/-- The call `g_set_error(.., inf_session_sync_error_quark, code, "%s",
inf_session_sync_strerror(code))` that the session makes for each of its own
errors. -/
def sync_error (code : InfSessionSyncError) : GError :=
  ⟨inf_session_sync_error_quark, code.toCode, inf_session_sync_strerror code.toCode⟩

/-! ## Users and the user table -/

/-- Availability of a user. -/
inductive InfUserStatus where
  | AVAILABLE
  | UNAVAILABLE
deriving DecidableEq, Repr

/-- Modelled from the spec: `InfUser` is defined in inf-user.c, which is not
part of the sources. A user has a numeric id, a name and an availability. -/
structure InfUser where
  id : Nat
  name : String
  status : InfUserStatus
deriving DecidableEq, Repr

/-- A GLib value of one of the types the user codec handles; `unset` is the
zero-filled value before `g_value_init`. -/
inductive GValue where
  | unset
  | uint (v : Nat)
  | string (s : String)
  | status (s : InfUserStatus)
deriving DecidableEq, Repr

/-- A named construction parameter. -/
structure GParameter where
  name : String
  value : GValue
deriving DecidableEq, Repr

/-- The getter `g_value_get_uint`; 0 for a value of another type. -/
def g_value_get_uint : GValue → Nat
  | .uint v => v
  | _ => 0

/-- The getter `g_value_get_string`; NULL for a value of another type. -/
def g_value_get_string : GValue → Option String
  | .string s => some s
  | _ => none

/-- The getter `g_value_get_enum` at the type of user statuses; the member
numbered 0 for a value of another type. -/
def g_value_get_enum : GValue → InfUserStatus
  | .status s => s
  | _ => .AVAILABLE

/-- Modelled from the spec: the properties that `g_object_class_list_properties`
and `g_object_get_property` report for a user (inf-user.c is not part of the
sources): id, name and status. -/
def inf_user_get_properties (user : InfUser) : List GParameter :=
  [⟨"id", .uint user.id⟩, ⟨"name", .string user.name⟩, ⟨"status", .status user.status⟩]

/-- Modelled from the spec: the user constructor `g_object_newv(INF_TYPE_USER,
n_params, params)` (inf-user.c is not part of the sources). The properties id,
name and status are construct properties, like the properties of the text
user in inf-text-user.c. The constructor walks the parameters in order and
skips a parameter whose property an earlier parameter has set already (GLib
does not set a construct property twice); a property that no parameter names
keeps its default. The accumulator holds the user so far and the names set. -/
def inf_user_new (params : List GParameter) : InfUser :=
  (params.foldl
    (fun (acc : InfUser × List String) p =>
      if p.name ∈ acc.2 then acc
      else if p.name = "id" then
        ({ acc.1 with id := g_value_get_uint p.value }, p.name :: acc.2)
      else if p.name = "name" then
        ({ acc.1 with name := (g_value_get_string p.value).getD "" }, p.name :: acc.2)
      else if p.name = "status" then
        ({ acc.1 with status := g_value_get_enum p.value }, p.name :: acc.2)
      else acc)
    (⟨0, "", .UNAVAILABLE⟩, [])).1

/-- Modelled from the spec: the user table (inf-user-table.c is not part of
the sources) holds the users of a session; here in insertion order. -/
abbrev InfUserTable := List InfUser

/-- A pointer to a user object (`InfUser*`). The user table holds its users by
pointer: `held i` is the user object at position i of the table, `outside` a
user object that the table does not hold. Two pointers are equal when they
point to the same object, whatever the properties of the objects are. -/
inductive InfUserPtr where
  | held (index : Nat)
  | outside
deriving DecidableEq, Repr

/-- Modelled from the spec: `inf_user_table_lookup_user_by_id`; the pointer to
the first user of the table with the id, NULL when there is none. -/
def inf_user_table_lookup_user_by_id (table : InfUserTable) (id : Nat) : Option InfUserPtr :=
  (table.findIdx? (fun u => u.id == id)).map InfUserPtr.held

/-- Modelled from the spec: `inf_user_table_lookup_user_by_name`; the pointer
to the first user of the table with the name, NULL when there is none. A NULL
name finds nothing. -/
def inf_user_table_lookup_user_by_name (table : InfUserTable) (name : Option String) :
    Option InfUserPtr :=
  match name with
  | none => none
  | some n => (table.findIdx? (fun u => u.name == n)).map InfUserPtr.held

/-- Modelled from the spec: `inf_user_table_add_user`; a NULL user is refused. -/
def inf_user_table_add_user (table : InfUserTable) (user : Option InfUser) : InfUserTable :=
  match user with
  | none => table
  | some u => table ++ [u]

/-! ## Session state -/

/-- A connection, by its identity. -/
abbrev InfXmlConnection := Nat

/-- A connection manager group: its name and the connections that are
currently members. -/
structure InfConnectionManagerGroup where
  name : String
  connections : List InfXmlConnection
deriving DecidableEq, Repr

/-- Membership test `inf_connection_manager_group_has_connection`. -/
def inf_connection_manager_group_has_connection (group : InfConnectionManagerGroup)
    (conn : InfXmlConnection) : Bool :=
  group.connections.contains conn

/-- Status of a connection, as far as the session looks at it. -/
inductive InfXmlConnectionStatus where
  | CLOSED
  | CLOSING
  | OPEN
  | OPENING
deriving DecidableEq, Repr

/-- Top-level status of a session. -/
inductive InfSessionStatus where
  | SYNCHRONIZING
  | RUNNING
  | CLOSED
deriving DecidableEq, Repr

/-- Status of one synchronisation. -/
inductive InfSessionSyncStatus where
  | NONE
  | IN_PROGRESS
  | AWAITING_ACK
deriving DecidableEq, Repr

/-- The record `InfSessionSync` of one outgoing synchronisation. -/
structure InfSessionSync where
  group : InfConnectionManagerGroup
  conn : InfXmlConnection
  messages_total : Nat
  messages_sent : Nat
  status : InfSessionSyncStatus
deriving DecidableEq, Repr

/-- The signals of a session with their arguments. The `gdouble` argument of
synchronization-progress is kept as numerator and denominator. -/
inductive Signal where
  | close
  | synchronization_progress (conn : InfXmlConnection) (num den : Nat)
  | synchronization_complete (conn : InfXmlConnection)
  | synchronization_failed (conn : Option InfXmlConnection) (error : GError)
deriving DecidableEq, Repr

/-- What the session does to its collaborators, in program order. -/
inductive Effect where
  | send_to_connection (group : InfConnectionManagerGroup) (conn : InfXmlConnection)
      (xml : XmlNode)
  | clear_queue (group : InfConnectionManagerGroup) (conn : InfXmlConnection)
  | group_ref (group : InfConnectionManagerGroup)
  | group_unref (group : InfConnectionManagerGroup)
  | object_ref (conn : InfXmlConnection)
  | object_unref (conn : InfXmlConnection)
  | signal_connect (conn : InfXmlConnection)
  | signal_disconnect (conn : InfXmlConnection)
  | emit (signal : Signal)
  | notify (property : String)
deriving DecidableEq, Repr

/-- The record `InfSessionPrivate`. The two arms of the C union `shared` are
kept side by side (`sync_*` for SYNCHRONIZING, `run_syncs` for RUNNING); the
code only touches the arm that belongs to the current status. `trace` is the
log of effects. -/
structure InfSessionPrivate where
  user_table : InfUserTable
  status : InfSessionStatus
  subscription_group : Option InfConnectionManagerGroup
  sync_group : Option InfConnectionManagerGroup
  sync_conn : Option InfXmlConnection
  sync_messages_total : Nat
  sync_messages_received : Nat
  sync_closing : Bool
  run_syncs : List InfSessionSync
  trace : List Effect
deriving DecidableEq, Repr

/-- Why a run stops without a result. -/
inductive Fault where
  | assertion
  | fuel
deriving DecidableEq, Repr

/-- Results of code that can abort. -/
abbrev Exec := Except Fault

deriving instance DecidableEq for Except

/-- Appends an effect to the trace. -/
def InfSessionPrivate.log (priv : InfSessionPrivate) (e : Effect) : InfSessionPrivate :=
  { priv with trace := priv.trace ++ [e] }

/-- The user codec part of `InfSessionClass`. The virtual functions read the
session record. -/
structure InfSessionUserClass where
  get_xml_user_props : InfSessionPrivate → InfXmlConnection → XmlNode → List GParameter
  set_xml_user_props : InfSessionPrivate → List GParameter → XmlNode → XmlNode
  validate_user_props :
    InfSessionPrivate → List GParameter → Option InfUserPtr → Bool × Option GError
  user_new : Option (InfSessionPrivate → List GParameter → Option InfUser)

/-- The class `InfSessionClass`: the content virtual functions and the user
codec. A content processor reads the session record and hands back its
result, the error it set, and the user table it leaves behind. -/
structure InfSessionClass where
  to_xml_sync : InfSessionPrivate → List XmlNode
  process_xml_sync :
    InfSessionPrivate → InfXmlConnection → XmlNode → Bool × Option GError × InfUserTable
  process_xml_run :
    InfSessionPrivate → InfXmlConnection → XmlNode → Bool × Option GError × InfUserTable
  user : InfSessionUserClass

/-! ## Calls into the connection manager -/

/-- The call `inf_connection_manager_group_send_to_connection`; a NULL group
is refused by the callee. -/
def inf_connection_manager_group_send_to_connection (priv : InfSessionPrivate)
    (group : Option InfConnectionManagerGroup) (conn : InfXmlConnection) (xml : XmlNode) :
    InfSessionPrivate :=
  match group with
  | none => priv
  | some g => priv.log (.send_to_connection g conn xml)

/-- The call `inf_connection_manager_group_unref`; a NULL group is refused by
the callee. -/
def inf_connection_manager_group_unref (priv : InfSessionPrivate)
    (group : Option InfConnectionManagerGroup) : InfSessionPrivate :=
  match group with
  | none => priv
  | some g => priv.log (.group_unref g)

/-! ## Utility functions of inf-session.c -/

/-- The function `inf_session_find_sync_by_connection` (through
`inf_session_find_sync_item_by_connection`): the first record for the
connection, NULL when the session is not RUNNING. -/
def inf_session_find_sync_by_connection (priv : InfSessionPrivate)
    (conn : Option InfXmlConnection) : Option InfSessionSync :=
  if priv.status ≠ .RUNNING then none
  else priv.run_syncs.find? (fun s => some s.conn == conn)

/-- The function `inf_session_release_connection`. -/
def inf_session_release_connection (priv : InfSessionPrivate)
    (connection : InfXmlConnection) : Exec InfSessionPrivate := do
  let priv1 ←
    match priv.status with
    | .SYNCHRONIZING =>
      if priv.sync_conn ≠ some connection then throw Fault.assertion
      else if priv.sync_group = none then throw Fault.assertion
      else
        let p := inf_connection_manager_group_unref priv priv.sync_group
        pure { p with sync_conn := none, sync_group := none }
    | .RUNNING =>
      match inf_session_find_sync_by_connection priv (some connection) with
      | none => throw Fault.assertion
      | some sync =>
        let p := inf_connection_manager_group_unref priv (some sync.group)
        pure { p with run_syncs := p.run_syncs.eraseP (fun s => some s.conn == some connection) }
    | .CLOSED => throw Fault.assertion
  pure ((priv1.log (.signal_disconnect connection)).log (.object_unref connection))

/-- The function `inf_session_send_sync_error`. -/
def inf_session_send_sync_error (priv : InfSessionPrivate) (error : GError) :
    InfSessionPrivate :=
  if priv.status ≠ .SYNCHRONIZING then priv
  else
    match priv.sync_conn with
    | none => priv
    | some conn =>
      let node := xmlNewNode "sync-error"
      let node := xmlNewProp node "domain" error.domain
      let node := xmlNewProp node "code" (sprintf_u error.code)
      inf_connection_manager_group_send_to_connection priv priv.sync_group conn node

/-! ## Default signal handlers -/

/-- The public function `inf_session_close`, given the signal emitter. -/
def inf_session_close_with (emit : Signal → InfSessionPrivate → Exec InfSessionPrivate)
    (priv : InfSessionPrivate) : Exec InfSessionPrivate :=
  emit .close priv

/-- The loop `while(priv->shared.run.syncs != NULL)` of the close handler. The
first argument bounds the number of iterations. -/
def inf_session_close_handler_loop
    (emit : Signal → InfSessionPrivate → Exec InfSessionPrivate) (error : GError) :
    Nat → InfSessionPrivate → Exec InfSessionPrivate
  | 0, priv =>
    match priv.run_syncs with
    | [] => pure priv
    | _ :: _ => throw Fault.fuel
  | n + 1, priv =>
    match priv.run_syncs with
    | [] => pure priv
    | sync :: _ => do
      let priv1 :=
        if sync.status = .IN_PROGRESS then
          inf_connection_manager_group_send_to_connection
            (priv.log (.clear_queue sync.group sync.conn))
            (some sync.group) sync.conn (xmlNewNode "sync-cancel")
        else priv
      let priv2 ← emit (.synchronization_failed (some sync.conn) error) priv1
      inf_session_close_handler_loop emit error n priv2

/-- The default handler `inf_session_close_handler`. -/
def inf_session_close_handler (emit : Signal → InfSessionPrivate → Exec InfSessionPrivate)
    (priv : InfSessionPrivate) : Exec InfSessionPrivate := do
  let error := sync_error .RECEIVER_CANCELLED
  let priv1 ←
    match priv.status with
    | .SYNCHRONIZING => do
      let p ←
        if priv.sync_closing = false then
          let p0 := { priv with sync_closing := true }
          let p1 := inf_session_send_sync_error p0 error
          emit (.synchronization_failed p1.sync_conn error) p1
        else pure priv
      pure (inf_connection_manager_group_unref p p.sync_group)
    | .RUNNING => inf_session_close_handler_loop emit error priv.run_syncs.length priv
    | .CLOSED => throw Fault.assertion
  let priv2 :=
    match priv1.subscription_group with
    | none => priv1
    | some g =>
      ({ (inf_connection_manager_group_unref priv1 (some g)) with
          subscription_group := none }).log (.notify "subscription-group")
  pure ({ priv2 with status := .CLOSED }.log (.notify "status"))

/-- The default handler `inf_session_synchronization_complete_handler`. -/
def inf_session_synchronization_complete_handler (priv : InfSessionPrivate)
    (connection : InfXmlConnection) : Exec InfSessionPrivate :=
  match priv.status with
  | .SYNCHRONIZING =>
    if some connection ≠ priv.sync_conn then throw Fault.assertion
    else do
      let p ← inf_session_release_connection priv connection
      pure ({ p with status := .RUNNING, run_syncs := [] }.log (.notify "status"))
  | .RUNNING =>
    if inf_session_find_sync_by_connection priv (some connection) = none then
      throw Fault.assertion
    else inf_session_release_connection priv connection
  | .CLOSED => throw Fault.assertion

/-- The default handler `inf_session_synchronization_failed_handler`. -/
def inf_session_synchronization_failed_handler
    (emit : Signal → InfSessionPrivate → Exec InfSessionPrivate)
    (priv : InfSessionPrivate) (connection : Option InfXmlConnection) (_error : GError) :
    Exec InfSessionPrivate :=
  match priv.status with
  | .SYNCHRONIZING =>
    if connection ≠ priv.sync_conn then throw Fault.assertion
    else if priv.sync_closing = false then
      inf_session_close_with emit { priv with sync_closing := true }
    else pure priv
  | .RUNNING =>
    match connection with
    | none => throw Fault.assertion
    | some c =>
      if inf_session_find_sync_by_connection priv (some c) = none then throw Fault.assertion
      else inf_session_release_connection priv c
  | .CLOSED => throw Fault.assertion

/-- Emission of a signal: the emission is recorded and the default handler of
the class runs (no other handler is connected). A handler may emit again; the
first argument bounds the nesting. -/
def signal_emission : Nat → Signal → InfSessionPrivate → Exec InfSessionPrivate
  | 0, _, _ => throw Fault.fuel
  | d + 1, sig, priv =>
    let p := priv.log (.emit sig)
    match sig with
    | .close => inf_session_close_handler (signal_emission d) p
    | .synchronization_progress _ _ _ => pure p
    | .synchronization_complete c => inf_session_synchronization_complete_handler p c
    | .synchronization_failed c e =>
      inf_session_synchronization_failed_handler (signal_emission d) p c e

/-- The call `g_signal_emit` on a session. The handlers nest at most twice
below the emission (close inside synchronization-failed or the reverse, cut
by the closing flag), so three levels never run out. -/
def g_signal_emit (sig : Signal) (priv : InfSessionPrivate) : Exec InfSessionPrivate :=
  signal_emission 3 sig priv

/-- The public function `inf_session_close`. -/
def inf_session_close (priv : InfSessionPrivate) : Exec InfSessionPrivate :=
  g_signal_emit .close priv

/-! ## User properties -/

/-- The public function `inf_session_lookup_user_property`. -/
def inf_session_lookup_user_property (params : List GParameter) (name : String) :
    Option GParameter :=
  params.find? (fun p => p.name == name)

/-- The public function `inf_session_get_user_property`: the array afterwards
and the index of the parameter it returns. A new parameter has a zero-filled
value. -/
def inf_session_get_user_property (array : List GParameter) (name : String) :
    List GParameter × Nat :=
  match array.findIdx? (fun p => p.name == name) with
  | some i => (array, i)
  | none => (array ++ [⟨name, .unset⟩], array.length)

/-- The calls `g_value_init` and `g_value_set_*` on the parameter at an index. -/
def g_value_init_set (array : List GParameter) (i : Nat) (v : GValue) : List GParameter :=
  array.modify (fun p => { p with value := v }) i

/-- The default `get_xml_user_props`, `inf_session_get_xml_user_props_impl`. -/
def inf_session_get_xml_user_props_impl (_priv : InfSessionPrivate)
    (_conn : InfXmlConnection) (xml : XmlNode) : List GParameter :=
  let array : List GParameter := []
  let name := xmlGetProp xml "name"
  let id := xmlGetProp xml "id"
  let status := xmlGetProp xml "status"
  let array :=
    match id with
    | none => array
    | some v =>
      let r := inf_session_get_user_property array "id"
      g_value_init_set r.1 r.2 (.uint (guint (strtoul v 10)))
  let array :=
    match name with
    | none => array
    | some v =>
      let r := inf_session_get_user_property array "name"
      g_value_init_set r.1 r.2 (.string v)
  let array :=
    match status with
    | none => array
    | some v =>
      let r := inf_session_get_user_property array "status"
      if v = "available" then g_value_init_set r.1 r.2 (.status .AVAILABLE)
      else g_value_init_set r.1 r.2 (.status .UNAVAILABLE)
  array

/-- The default `set_xml_user_props`, `inf_session_set_xml_user_props_impl`. -/
def inf_session_set_xml_user_props_impl (_priv : InfSessionPrivate)
    (params : List GParameter) (xml : XmlNode) : XmlNode :=
  params.foldl
    (fun node p =>
      if p.name = "id" then xmlNewProp node "id" (sprintf_u (g_value_get_uint p.value))
      else if p.name = "name" then
        xmlNewProp node "name" ((g_value_get_string p.value).getD "")
      else if p.name = "status" then
        match g_value_get_enum p.value with
        | .AVAILABLE => inf_xml_util_set_attribute node "status" "available"
        | .UNAVAILABLE => inf_xml_util_set_attribute node "status" "unavailable"
      else node)
    xml

/-- The default `validate_user_props`, `inf_session_validate_user_props_impl`.
The user found in the table and `exclude` are compared as pointers. -/
def inf_session_validate_user_props_impl (priv : InfSessionPrivate)
    (params : List GParameter) (exclude : Option InfUserPtr) : Bool × Option GError :=
  match inf_session_lookup_user_property params "id" with
  | none => (false, some (sync_error .ID_NOT_PRESENT))
  | some parameter =>
    let id := g_value_get_uint parameter.value
    let user := inf_user_table_lookup_user_by_id priv.user_table id
    if user ≠ none ∧ user ≠ exclude then (false, some (sync_error .ID_IN_USE))
    else
      match inf_session_lookup_user_property params "name" with
      | none => (false, some (sync_error .NAME_NOT_PRESENT))
      | some parameter =>
        let name := g_value_get_string parameter.value
        let user := inf_user_table_lookup_user_by_name priv.user_table name
        if user ≠ none ∧ user ≠ exclude then (false, some (sync_error .NAME_IN_USE))
        else (true, none)

/-- The public function `inf_session_user_to_xml`. -/
def inf_session_user_to_xml (klass : InfSessionUserClass) (priv : InfSessionPrivate)
    (user : InfUser) (xml : XmlNode) : XmlNode :=
  klass.set_xml_user_props priv (inf_user_get_properties user) xml

/-- The public function `inf_session_add_user`: the user it returns, the error
it sets, and the session afterwards. -/
def inf_session_add_user (klass : InfSessionUserClass) (priv : InfSessionPrivate)
    (params : List GParameter) : Option InfUser × Option GError × InfSessionPrivate :=
  match klass.user_new with
  | none => (none, none, priv)
  | some user_new =>
    let result := klass.validate_user_props priv params none
    if result.1 = true then
      let user := user_new priv params
      (user, result.2,
        { priv with user_table := inf_user_table_add_user priv.user_table user })
    else (none, result.2, priv)

/-! ## Content virtual functions of the base class -/

/-- The default `to_xml_sync`, `inf_session_to_xml_sync_impl`: the children it
adds to the container, one sync-user per user of the table. -/
def inf_session_to_xml_sync_impl (klass : InfSessionUserClass) (priv : InfSessionPrivate) :
    List XmlNode :=
  priv.user_table.map (fun user => inf_session_user_to_xml klass priv user (xmlNewNode "sync-user"))

/-- The default `process_xml_sync`, `inf_session_process_xml_sync_impl`. -/
def inf_session_process_xml_sync_impl (klass : InfSessionUserClass)
    (priv : InfSessionPrivate) (connection : InfXmlConnection) (xml : XmlNode) :
    Bool × Option GError × InfUserTable :=
  if priv.status ≠ .SYNCHRONIZING then (false, none, priv.user_table)
  else if some connection ≠ priv.sync_conn then (false, none, priv.user_table)
  else if xml.name = "sync-user" then
    let user_props := klass.get_xml_user_props priv connection xml
    let r := inf_session_add_user klass priv user_props
    match r.1 with
    | none => (false, r.2.1, r.2.2.user_table)
    | some _ => (true, r.2.1, r.2.2.user_table)
  else (false, some (sync_error .UNEXPECTED_NODE), priv.user_table)

/-- The default `process_xml_run`, `inf_session_process_xml_run_impl`. -/
def inf_session_process_xml_run_impl (priv : InfSessionPrivate)
    (_connection : InfXmlConnection) (xml : XmlNode) : Bool × Option GError × InfUserTable :=
  (false, some ⟨"INF_SESSION_ERROR", 0, "Received unhandled XML message \x27" ++ xml.name ++ "\x27"⟩,
    priv.user_table)

/-- The class as `inf_session_class_init` fills it in; `user_new` is NULL in
the base class and set by subclasses. -/
def inf_session_class_init
    (user_new : Option (InfSessionPrivate → List GParameter → Option InfUser)) :
    InfSessionClass :=
  let user : InfSessionUserClass :=
    { get_xml_user_props := inf_session_get_xml_user_props_impl
      set_xml_user_props := inf_session_set_xml_user_props_impl
      validate_user_props := inf_session_validate_user_props_impl
      user_new := user_new }
  { to_xml_sync := inf_session_to_xml_sync_impl user
    process_xml_sync := inf_session_process_xml_sync_impl user
    process_xml_run := inf_session_process_xml_run_impl
    user := user }

/-! ## InfNetObject implementation -/

/-- The function `inf_session_handle_received_sync_message`: its result, the
error it sets, and the session afterwards. -/
def inf_session_handle_received_sync_message (klass : InfSessionClass)
    (priv : InfSessionPrivate) (connection : InfXmlConnection) (node : XmlNode) :
    Exec (Bool × Option GError × InfSessionPrivate) :=
  if priv.status ≠ .SYNCHRONIZING then throw Fault.assertion
  else if node.name = "sync-cancel" then do
    let local_error := sync_error .SENDER_CANCELLED
    let p ← g_signal_emit (.synchronization_failed (some connection) local_error) priv
    pure (false, none, p)
  else if node.name = "sync-begin" then
    if priv.sync_messages_total > 0 then
      pure (false, some (sync_error .UNEXPECTED_BEGIN_OF_SYNC), priv)
    else
      match xmlGetProp node "num-messages" with
      | none => pure (false, some (sync_error .NUM_MESSAGES_MISSING), priv)
      | some num_messages => do
        let total := guint ((2 + strtoul num_messages 0) % (ULONG_MAX + 1))
        let p := { priv with sync_messages_total := total, sync_messages_received := 1 }
        let p ← g_signal_emit (.synchronization_progress connection 1 p.sync_messages_total) p
        pure (true, none, p)
  else if node.name = "sync-end" then
    let p := { priv with sync_messages_received := guint (priv.sync_messages_received + 1) }
    if p.sync_messages_received ≠ p.sync_messages_total then
      pure (false, some (sync_error .UNEXPECTED_END_OF_SYNC), p)
    else do
      let xml_reply := xmlNewNode "sync-ack"
      let p := inf_connection_manager_group_send_to_connection p p.sync_group connection xml_reply
      let p ← g_signal_emit (.synchronization_complete connection) p
      pure (true, none, p)
  else
    if priv.sync_messages_received = 0 then
      pure (false, some (sync_error .EXPECTED_BEGIN_OF_SYNC), priv)
    else if priv.sync_messages_received = guint_sub priv.sync_messages_total 1 then
      pure (false, some (sync_error .EXPECTED_END_OF_SYNC), priv)
    else
      let r := klass.process_xml_sync priv connection node
      let p := { priv with user_table := r.2.2 }
      if r.1 = false then pure (false, r.2.1, p)
      else do
        let p := { p with sync_messages_received := guint (p.sync_messages_received + 1) }
        let p ← g_signal_emit
          (.synchronization_progress connection p.sync_messages_received p.sync_messages_total) p
        pure (true, none, p)

/-- Replaces the first record for the connection. -/
def update_sync (syncs : List InfSessionSync) (conn : InfXmlConnection)
    (f : InfSessionSync → InfSessionSync) : List InfSessionSync :=
  match syncs with
  | [] => []
  | s :: rest => if s.conn = conn then f s :: rest else s :: update_sync rest conn f

/-- The callback `inf_session_net_object_sent`. -/
def inf_session_net_object_sent (priv : InfSessionPrivate) (connection : InfXmlConnection)
    (_node : XmlNode) : Exec InfSessionPrivate :=
  if priv.status = .RUNNING then
    match inf_session_find_sync_by_connection priv (some connection) with
    | none => pure priv
    | some sync =>
      if ¬ (sync.messages_sent < sync.messages_total) then throw Fault.assertion
      else
        let sent := guint (sync.messages_sent + 1)
        let p := { priv with
          run_syncs := update_sync priv.run_syncs connection
            (fun s => { s with messages_sent := sent }) }
        g_signal_emit (.synchronization_progress connection sent sync.messages_total) p
  else pure priv

/-- The callback `inf_session_net_object_enqueued`. -/
def inf_session_net_object_enqueued (priv : InfSessionPrivate) (connection : InfXmlConnection)
    (node : XmlNode) : Exec InfSessionPrivate :=
  if node.name = "sync-end" then
    match inf_session_find_sync_by_connection priv (some connection) with
    | none => throw Fault.assertion
    | some sync =>
      if sync.status ≠ .IN_PROGRESS then throw Fault.assertion
      else
        pure { priv with
          run_syncs := update_sync priv.run_syncs connection
            (fun s => { s with status := .AWAITING_ACK }) }
  else pure priv

/-- The callback `inf_session_net_object_received`: its result, the error it
sets, and the session afterwards. -/
def inf_session_net_object_received (klass : InfSessionClass) (priv : InfSessionPrivate)
    (connection : InfXmlConnection) (node : XmlNode) :
    Exec (Bool × Option GError × InfSessionPrivate) :=
  match priv.status with
  | .SYNCHRONIZING =>
    if some connection ≠ priv.sync_conn then throw Fault.assertion
    else do
      let r ← inf_session_handle_received_sync_message klass priv connection node
      match r.1, r.2.1 with
      | false, some local_error => do
        let p := inf_session_send_sync_error r.2.2 local_error
        let p ← g_signal_emit (.synchronization_failed (some connection) local_error) p
        pure (false, none, p)
      | _, _ => pure (false, none, r.2.2)
  | .RUNNING =>
    match inf_session_find_sync_by_connection priv (some connection) with
    | some sync =>
      if node.name = "sync-error" then do
        let p := priv.log (.clear_queue sync.group connection)
        let domain_attr := xmlGetProp node "domain"
        let code_attr := xmlGetProp node "code"
        let local_error : GError :=
          match domain_attr, code_attr with
          | some domain, some c =>
            let code := guint (strtoul c 0)
            ⟨domain, code, inf_session_get_sync_error_message domain code⟩
          | _, _ => sync_error .FAILED
        let p ← g_signal_emit (.synchronization_failed (some connection) local_error) p
        pure (false, none, p)
      else if node.name = "sync-ack" then
        if sync.status = .AWAITING_ACK then do
          let p ← g_signal_emit (.synchronization_complete connection) priv
          pure (false, none, p)
        else pure (false, none, priv)
      else pure (false, none, priv)
    | none =>
      let r := klass.process_xml_run priv connection node
      pure (r.1, r.2.1, { priv with user_table := r.2.2 })
  | .CLOSED => throw Fault.assertion

/-- The signal handler `inf_session_connection_notify_status_cb`, called with
the status that the connection now has. -/
def inf_session_connection_notify_status_cb (priv : InfSessionPrivate)
    (connection : InfXmlConnection) (status : InfXmlConnectionStatus) :
    Exec InfSessionPrivate :=
  if status = .CLOSED ∨ status = .CLOSING then
    let error := sync_error .CONNECTION_CLOSED
    match priv.status with
    | .SYNCHRONIZING =>
      if some connection ≠ priv.sync_conn then throw Fault.assertion
      else g_signal_emit (.synchronization_failed (some connection) error) priv
    | .RUNNING =>
      if inf_session_find_sync_by_connection priv (some connection) = none then
        throw Fault.assertion
      else g_signal_emit (.synchronization_failed (some connection) error) priv
    | .CLOSED => throw Fault.assertion
  else pure priv

/-! ## Public API -/

/-- The public function `inf_session_synchronize_to`. -/
def inf_session_synchronize_to (klass : InfSessionClass) (priv : InfSessionPrivate)
    (group : InfConnectionManagerGroup) (connection : InfXmlConnection) :
    Exec InfSessionPrivate :=
  if priv.status ≠ .RUNNING then pure priv
  else if inf_session_find_sync_by_connection priv (some connection) ≠ none then pure priv
  else
    let sync : InfSessionSync :=
      { group := group, conn := connection, messages_sent := 0, messages_total := 2,
        status := .IN_PROGRESS }
    let p := priv.log (.object_ref connection)
    let p := { p with run_syncs := sync :: p.run_syncs }
    let p := p.log (.signal_connect connection)
    let p := p.log (.group_ref group)
    if inf_connection_manager_group_has_connection group connection = false then
      throw Fault.assertion
    else
      let messages := klass.to_xml_sync p
      let total := messages.foldl (fun t _ => guint (t + 1)) sync.messages_total
      let p := { p with
        run_syncs := update_sync p.run_syncs connection
          (fun s => { s with messages_total := total }) }
      let num_messages_buf := sprintf_u (guint_sub total 2)
      let xml := xmlNewProp (xmlNewNode "sync-begin") "num-messages" num_messages_buf
      let p := inf_connection_manager_group_send_to_connection p (some group) connection xml
      let p := messages.foldl
        (fun q xml => inf_connection_manager_group_send_to_connection q (some group) connection xml)
        p
      let p := inf_connection_manager_group_send_to_connection p (some group) connection
        (xmlNewNode "sync-end")
      pure p

/-- The public function `inf_session_get_synchronization_status`. -/
def inf_session_get_synchronization_status (priv : InfSessionPrivate)
    (connection : InfXmlConnection) : InfSessionSyncStatus :=
  match priv.status with
  | .SYNCHRONIZING =>
    if some connection = priv.sync_conn then .IN_PROGRESS else .NONE
  | .RUNNING =>
    match inf_session_find_sync_by_connection priv (some connection) with
    | none => .NONE
    | some sync => sync.status
  | .CLOSED => .NONE

/-- The public function `inf_session_get_synchronization_progress`: the
operands of the quotient it returns; `(0, 1)` stands for the literal 0.0. -/
def inf_session_get_synchronization_progress (priv : InfSessionPrivate)
    (connection : InfXmlConnection) : Exec (Nat × Nat) :=
  if inf_session_get_synchronization_status priv connection = .NONE then pure (0, 1)
  else
    match priv.status with
    | .SYNCHRONIZING =>
      if some connection ≠ priv.sync_conn then throw Fault.assertion
      else pure (priv.sync_messages_received, priv.sync_messages_total)
    | .RUNNING =>
      match inf_session_find_sync_by_connection priv (some connection) with
      | none => throw Fault.assertion
      | some sync => pure (sync.messages_sent, sync.messages_total)
    | .CLOSED => throw Fault.assertion

/-! ## Vocabulary of the statements -/

/-- Trace of the close handler releasing the subscription group, if one is set. -/
def subscription_release (sub : Option InfConnectionManagerGroup) : List Effect :=
  match sub with
  | none => []
  | some g => [.group_unref g, .notify "subscription-group"]

/-- The sync-error frame that `inf_session_send_sync_error` builds for an error. -/
def sync_error_frame (e : GError) : XmlNode :=
  ⟨"sync-error", [("domain", e.domain), ("code", sprintf_u e.code)]⟩

/-- Whether an effect enqueues a frame. -/
def Effect.isSend : Effect → Bool
  | .send_to_connection _ _ _ => true
  | _ => false

/-- The frames that a trace enqueues, with their group and connection. -/
def frames_sent (trace : List Effect) :
    List (InfConnectionManagerGroup × InfXmlConnection × XmlNode) :=
  trace.filterMap (fun e =>
    match e with
    | .send_to_connection g c xml => some (g, c, xml)
    | _ => none)

/-- The signals that a trace emits. -/
def signals_emitted (trace : List Effect) : List Signal :=
  trace.filterMap (fun e =>
    match e with
    | .emit s => some s
    | _ => none)

/-- Modelled from the spec: the transport delivers the frames of one direction
in submission order; each one reaches `inf_session_net_object_received`. -/
def deliver (klass : InfSessionClass) (conn : InfXmlConnection) :
    InfSessionPrivate → List XmlNode → Exec InfSessionPrivate
  | p, [] => pure p
  | p, x :: xs => do
    let r ← inf_session_net_object_received klass p conn x
    deliver klass conn r.2.2 xs

/-- Modelled from the spec: the transport reports each frame it has put on the
wire through `inf_session_net_object_enqueued`, in submission order. -/
def enqueue_all (conn : InfXmlConnection) :
    InfSessionPrivate → List XmlNode → Exec InfSessionPrivate
  | p, [] => pure p
  | p, x :: xs => do
    let q ← inf_session_net_object_enqueued p conn x
    enqueue_all conn q xs

/-- A frame that is none of sync-cancel, sync-begin and sync-end. -/
def is_content_frame (node : XmlNode) : Prop :=
  node.name ≠ "sync-cancel" ∧ node.name ≠ "sync-begin" ∧ node.name ≠ "sync-end"

instance (node : XmlNode) : Decidable (is_content_frame node) := by
  unfold is_content_frame
  infer_instance

/-! ## Example data -/

/-- A synchronisation group with the single peer 7. -/
def example_group : InfConnectionManagerGroup := ⟨"sync", [7]⟩

/-- The base class with a user constructor that builds the user from the
decoded properties. -/
def example_class : InfSessionClass :=
  inf_session_class_init (some (fun _ params => some (inf_user_new params)))

/-- A fresh session that synchronises from peer 7: empty user table, no begin
frame received. -/
def example_fresh : InfSessionPrivate :=
  { user_table := [], status := .SYNCHRONIZING, subscription_group := none,
    sync_group := some example_group, sync_conn := some 7, sync_messages_total := 0,
    sync_messages_received := 0, sync_closing := false, run_syncs := [], trace := [] }

/-- The session `example_fresh` after sync-begin with num-messages 5 and one
sync-user frame (Ann, id 1). -/
def example_midstream : InfSessionPrivate :=
  { example_fresh with
    user_table := [⟨1, "Ann", .UNAVAILABLE⟩],
    sync_messages_total := 7, sync_messages_received := 2,
    trace := [.emit (.synchronization_progress 7 1 7), .emit (.synchronization_progress 7 2 7)] }

/-- The session `example_fresh` after sync-begin with num-messages 0. -/
def example_all_received : InfSessionPrivate :=
  { example_fresh with
    sync_messages_total := 2, sync_messages_received := 1,
    trace := [.emit (.synchronization_progress 7 1 2)] }

/-- The value of the status attribute that the base codec writes. -/
def status_attribute : InfUserStatus → String
  | .AVAILABLE => "available"
  | .UNAVAILABLE => "unavailable"

/-- The sync-user frame of a user in the base protocol. -/
def sync_user_frame (u : InfUser) : XmlNode :=
  ⟨"sync-user", [("id", sprintf_u u.id), ("name", u.name), ("status", status_attribute u.status)]⟩

/-- The frames that a trace enqueues to one connection. -/
def frames_to (trace : List Effect) (conn : InfXmlConnection) : List XmlNode :=
  trace.filterMap (fun e =>
    match e with
    | .send_to_connection _ c xml => if c = conn then some xml else none
    | _ => none)

/-- A running session with no synchronisation in progress and an empty user
table. -/
def example_running_empty : InfSessionPrivate :=
  { user_table := [], status := .RUNNING, subscription_group := none,
    sync_group := none, sync_conn := none, sync_messages_total := 0,
    sync_messages_received := 0, sync_closing := false, run_syncs := [], trace := [] }

/-- A running session with the users Ann and Bob. -/
def example_running : InfSessionPrivate :=
  { example_running_empty with
    user_table := [⟨1, "Ann", .AVAILABLE⟩, ⟨2, "Bob", .UNAVAILABLE⟩] }

/-- The session `example_running` while it synchronises to peer 7. -/
def example_synchronizing_to : InfSessionPrivate :=
  { example_running with run_syncs := [⟨example_group, 7, 4, 0, .IN_PROGRESS⟩] }

/-- The progress events of the content frames number `r + 1` to `r + n`. -/
def progress_events (c : InfXmlConnection) (r n total : Nat) : List Effect :=
  (List.range n).map (fun i => Effect.emit (.synchronization_progress c (r + 1 + i) total))

/-! ## Callbacks -/

/-- Modelled from the spec: what the environment can do to a session on its
single context: the public requests synchronize-to and close, the three
transport callbacks, and the connection-status notification. -/
inductive Callback where
  | synchronize_to (group : InfConnectionManagerGroup) (connection : InfXmlConnection)
  | sent (connection : InfXmlConnection) (node : XmlNode)
  | enqueued (connection : InfXmlConnection) (node : XmlNode)
  | received (connection : InfXmlConnection) (node : XmlNode)
  | notify_status (connection : InfXmlConnection) (status : InfXmlConnectionStatus)
  | close
deriving DecidableEq, Repr

/-- Runs one callback on a session. -/
def perform (klass : InfSessionClass) (p : InfSessionPrivate) : Callback → Exec InfSessionPrivate
  | .synchronize_to g c => inf_session_synchronize_to klass p g c
  | .sent c node => inf_session_net_object_sent p c node
  | .enqueued c node => inf_session_net_object_enqueued p c node
  | .received c node => do
    let r ← inf_session_net_object_received klass p c node
    pure r.2.2
  | .notify_status c st => inf_session_connection_notify_status_cb p c st
  | .close => inf_session_close p

/-- Runs a sequence of callbacks in order. -/
def perform_all (klass : InfSessionClass) :
    InfSessionPrivate → List Callback → Exec InfSessionPrivate
  | p, [] => pure p
  | p, cb :: cbs => do
    let q ← perform klass p cb
    perform_all klass q cbs

/-- The connections of the outbound roster, in roster order. -/
def roster_connections (p : InfSessionPrivate) : List InfXmlConnection :=
  p.run_syncs.map (fun s => s.conn)

/-- What one iteration of the loop of the close handler adds to the trace for
a record: queue clearing and sync-cancel when the record is IN_PROGRESS, then
the emission of synchronization-failed with the releases of its default
handler. -/
def close_record_trace (sync : InfSessionSync) : List Effect :=
  (if sync.status = .IN_PROGRESS then
      [Effect.clear_queue sync.group sync.conn,
        Effect.send_to_connection sync.group sync.conn (xmlNewNode "sync-cancel")]
    else [])
    ++ [Effect.emit (.synchronization_failed (some sync.conn) (sync_error .RECEIVER_CANCELLED)),
      Effect.group_unref sync.group, Effect.signal_disconnect sync.conn,
      Effect.object_unref sync.conn]

/-- The trace of the loop of the close handler over a roster. -/
def close_records_trace : List InfSessionSync → List Effect
  | [] => []
  | sync :: rest => close_record_trace sync ++ close_records_trace rest

/-- The session `example_running_empty` after it has synchronised to peer 7
and the transport has enqueued and sent both frames: the record awaits the
ack with s = T = 2. -/
def example_awaiting_ack : InfSessionPrivate :=
  { example_running_empty with
    run_syncs := [⟨example_group, 7, 2, 2, .AWAITING_ACK⟩],
    trace := [.object_ref 7, .signal_connect 7, .group_ref example_group,
      .send_to_connection example_group 7 ⟨"sync-begin", [("num-messages", "0")]⟩,
      .send_to_connection example_group 7 ⟨"sync-end", []⟩,
      .emit (.synchronization_progress 7 1 2), .emit (.synchronization_progress 7 2 2)] }

/-- A class whose run-time content processor accepts every frame. -/
def example_class_accepting : InfSessionClass :=
  { example_class with process_xml_run := fun p _ _ => (true, none, p.user_table) }

/-- The callback is a sync-ack frame received from the connection while the
record of the connection awaits the ack. -/
def ack_while_awaiting (p : InfSessionPrivate) (cb : Callback) (c : InfXmlConnection) : Prop :=
  ∃ node sync, cb = .received c node ∧ node.name = "sync-ack"
    ∧ inf_session_find_sync_by_connection p (some c) = some sync
    ∧ sync.status = .AWAITING_ACK

/-- The error that a Running session reads off a received sync-error frame:
domain and code from the attributes when both are there, the session's own
FAILED otherwise. -/
def remote_sync_error (node : XmlNode) : GError :=
  match xmlGetProp node "domain", xmlGetProp node "code" with
  | some domain, some c =>
    ⟨domain, guint (strtoul c 0), inf_session_get_sync_error_message domain (guint (strtoul c 0))⟩
  | _, _ => sync_error .FAILED

/-- The callbacks of a complete transmission from `example_running_empty` to
peer 7, with the synchronize-to call repeated. -/
def example_handshake : List Callback :=
  [.synchronize_to example_group 7, .synchronize_to example_group 7,
    .enqueued 7 ⟨"sync-begin", [("num-messages", "0")]⟩, .enqueued 7 ⟨"sync-end", []⟩,
    .sent 7 ⟨"sync-begin", [("num-messages", "0")]⟩, .sent 7 ⟨"sync-end", []⟩]

/-- A running session with two outbound records: peer 7 awaits the ack, peer 9
is still being sent to. -/
def example_two_peers : InfSessionPrivate :=
  { example_running_empty with
    run_syncs := [⟨example_group, 7, 2, 2, .AWAITING_ACK⟩,
      ⟨⟨"sync", [9]⟩, 9, 3, 1, .IN_PROGRESS⟩] }

/-! ## GObject overrides -/

/-- The construct properties that take part in registering the initial
synchronisation; `connection_manager` sets a manager, the other two carry the
value of the property, which may be NULL. -/
inductive Property where
  | connection_manager
  | sync_connection (conn : Option InfXmlConnection)
  | sync_group (group : Option InfConnectionManagerGroup)
deriving DecidableEq, Repr

/-- The instance initialiser `inf_session_init`, on the zero-filled instance;
the user table is the empty one that the constructor creates. -/
def inf_session_init : InfSessionPrivate :=
  { user_table := [], status := .RUNNING, subscription_group := none,
    sync_group := none, sync_conn := none, sync_messages_total := 0,
    sync_messages_received := 0, sync_closing := false, run_syncs := [], trace := [] }

/-- The function `inf_session_init_sync`. -/
def inf_session_init_sync (priv : InfSessionPrivate) : InfSessionPrivate :=
  if priv.status = .RUNNING then
    { priv with
      status := .SYNCHRONIZING, sync_conn := none, sync_messages_total := 0,
      sync_messages_received := 0, sync_group := none, sync_closing := false }
  else priv

/-- The function `inf_session_register_sync`; `manager` tells whether the
connection manager is set. -/
def inf_session_register_sync (manager : Bool) (priv : InfSessionPrivate) :
    InfSessionPrivate :=
  match priv.status, manager, priv.sync_conn, priv.sync_group with
  | .SYNCHRONIZING, true, some conn, some group =>
    (priv.log (.group_ref group)).log (.signal_connect conn)
  | _, _, _, _ => priv

/-- The function `inf_session_set_property` on these properties: whether the
manager is set afterwards, and the session afterwards. -/
def inf_session_set_property (manager : Bool) (priv : InfSessionPrivate) :
    Property → Exec (Bool × InfSessionPrivate)
  | .connection_manager =>
    if manager = true then throw Fault.assertion
    else pure (true, inf_session_register_sync true priv)
  | .sync_connection conn =>
    if priv.sync_conn ≠ none then throw Fault.assertion
    else
      match conn with
      | none => pure (manager, priv)
      | some c =>
        let p := inf_session_init_sync priv
        let p := { p with sync_conn := some c }
        let p := p.log (.object_ref c)
        pure (manager, inf_session_register_sync manager p)
  | .sync_group group =>
    if priv.sync_group ≠ none then throw Fault.assertion
    else
      match group with
      | none => pure (manager, priv)
      | some g =>
        let p := inf_session_init_sync priv
        let p := { p with sync_group := some g }
        pure (manager, inf_session_register_sync manager p)

/-- The function `inf_session_constructor`: the parent constructor initialises
the instance and sets the construct properties in order. -/
def inf_session_constructor (construct_properties : List Property) :
    Exec InfSessionPrivate := do
  let r ← construct_properties.foldlM
    (fun s prop => inf_session_set_property s.1 s.2 prop) (false, inf_session_init)
  pure r.2

/-! ## Vocabulary of the later statements -/

/-- Whether the session still has a connection-status handler connected to the
connection: more `g_signal_connect` than disconnect calls for it in the trace. -/
def watched (trace : List Effect) (c : InfXmlConnection) : Bool :=
  decide (trace.count (.signal_disconnect c) < trace.count (.signal_connect c))

/-- The user-table invariant: ids pairwise distinct, names pairwise distinct. -/
def user_table_invariant (table : InfUserTable) : Prop :=
  (table.map (fun u => u.id)).Nodup ∧ (table.map (fun u => u.name)).Nodup

instance (table : InfUserTable) : Decidable (user_table_invariant table) := by
  unfold user_table_invariant
  infer_instance

/-- Some user of the table other than `exclude` has this id: a user object at
some position of the table, which is not the object `exclude` points to. -/
def id_in_use (table : InfUserTable) (id : Nat) (exclude : Option InfUserPtr) : Prop :=
  ∃ x ∈ table.enum, x.2.id = id ∧ some (InfUserPtr.held x.1) ≠ exclude

instance (table : InfUserTable) (id : Nat) (exclude : Option InfUserPtr) :
    Decidable (id_in_use table id exclude) := by
  unfold id_in_use
  infer_instance

/-- Some user of the table other than `exclude` has this name. -/
def name_in_use (table : InfUserTable) (name : Option String) (exclude : Option InfUserPtr) :
    Prop :=
  ∃ x ∈ table.enum, some x.2.name = name ∧ some (InfUserPtr.held x.1) ≠ exclude

instance (table : InfUserTable) (name : Option String) (exclude : Option InfUserPtr) :
    Decidable (name_in_use table name exclude) := by
  unfold name_in_use
  infer_instance

/-- Validation as the specification words it: the first applicable error in
the order IdNotPresent, IdInUse, NameNotPresent, NameInUse, success when none
applies. -/
def validate_user_props_reference (table : InfUserTable) (params : List GParameter)
    (exclude : Option InfUserPtr) : Bool × Option GError :=
  match inf_session_lookup_user_property params "id" with
  | none => (false, some (sync_error .ID_NOT_PRESENT))
  | some id =>
    if id_in_use table (g_value_get_uint id.value) exclude then
      (false, some (sync_error .ID_IN_USE))
    else
      match inf_session_lookup_user_property params "name" with
      | none => (false, some (sync_error .NAME_NOT_PRESENT))
      | some name =>
        if name_in_use table (g_value_get_string name.value) exclude then
          (false, some (sync_error .NAME_IN_USE))
        else (true, none)

/-- The fractions (numerator, denominator) of the synchronization-progress
events that a trace emits for a connection, in order. -/
def progress_fractions (trace : List Effect) (c : InfXmlConnection) : List (Nat × Nat) :=
  trace.filterMap (fun e =>
    match e with
    | .emit (.synchronization_progress c2 num den) => if c2 = c then some (num, den) else none
    | _ => none)

/-- The quotient of a fraction is a number in [0, 1]. -/
def fraction_in_unit (f : Nat × Nat) : Prop := 0 < f.2 ∧ f.1 ≤ f.2

instance (f : Nat × Nat) : Decidable (fraction_in_unit f) := by
  unfold fraction_in_unit
  infer_instance

/-- Order of two fractions with non-zero denominators, by cross multiplication. -/
def fraction_le (a b : Nat × Nat) : Prop := a.1 * b.2 ≤ b.1 * a.2

instance (a b : Nat × Nat) : Decidable (fraction_le a b) := by
  unfold fraction_le
  infer_instance

/-- The session that the constructor builds when it is given a manager, the
synchronizer connection and the synchronization group: Synchronizing, no frame
received, with the reference to the connection, the reference to the group and
the connection-status handler in place. -/
def registered_session (c : InfXmlConnection) (g : InfConnectionManagerGroup) :
    InfSessionPrivate :=
  { inf_session_init with
    status := .SYNCHRONIZING, sync_conn := some c, sync_group := some g,
    trace := [.object_ref c, .group_ref g, .signal_connect c] }

/-- The construct properties of a session that is synchronised from peer 7. -/
def example_construct_properties : List Property :=
  [.connection_manager, .sync_connection (some 7), .sync_group (some example_group)]

/-- The session that the constructor builds from `example_construct_properties`:
`example_fresh` with the reference to the connection, the reference to the
group and the connection-status handler in place. -/
def example_registered : InfSessionPrivate :=
  { example_fresh with
    trace := [.object_ref 7, .group_ref example_group, .signal_connect 7] }

/-- The session `example_registered` after `inf_session_close`. -/
def example_closed : InfSessionPrivate :=
  { example_registered with
    status := .CLOSED, sync_closing := true,
    trace := example_registered.trace ++ [.emit .close,
      .send_to_connection example_group 7
        (sync_error_frame (sync_error .RECEIVER_CANCELLED)),
      .emit (.synchronization_failed (some 7) (sync_error .RECEIVER_CANCELLED)),
      .group_unref example_group, .notify "status"] }

/-- The frames of the two-user example: begin, Ann, Bob, end. -/
def example_two_users : List XmlNode :=
  [⟨"sync-begin", [("num-messages", "2")]⟩,
    ⟨"sync-user", [("id", "1"), ("name", "Ann"), ("status", "available")]⟩,
    ⟨"sync-user", [("id", "2"), ("name", "Bob"), ("status", "available")]⟩,
    ⟨"sync-end", []⟩]

/-- A well-formed outbound record: InProgress or AwaitingAck, with
s ≤ T, 2 ≤ T and T in the `guint` range. -/
def record_sound (s : InfSessionSync) : Prop :=
  (s.status = .IN_PROGRESS ∨ s.status = .AWAITING_ACK)
    ∧ s.messages_sent ≤ s.messages_total ∧ 2 ≤ s.messages_total ∧ s.messages_total < 2 ^ 32

instance (s : InfSessionSync) : Decidable (record_sound s) := by
  unfold record_sound
  infer_instance

/-- Every record of the outbound roster is well-formed. -/
def roster_sound (p : InfSessionPrivate) : Prop := ∀ s ∈ p.run_syncs, record_sound s

instance (p : InfSessionPrivate) : Decidable (roster_sound p) := by
  unfold roster_sound
  infer_instance

/-- The connection-status handlers of a Running session are those of its
roster: for every connection, the trace has as many connects as disconnects
plus one for each record of the connection. -/
def watch_balanced (p : InfSessionPrivate) : Prop :=
  ∀ c, p.trace.count (.signal_connect c)
    = p.trace.count (.signal_disconnect c) + (roster_connections p).count c

/-! ## InfTextUser (`libinftext/inf-text-user.c`) -/

/-- Conversion of a `guint` to `gint`, as the assignment to a `gint` field
does it: the values from 2 ^ 31 on come out negative. -/
def gint_of_guint (n : Nat) : Int := if n < 2 ^ 31 then (n : Int) else (n : Int) - 2 ^ 32

/-- Conversion of a `gint` to `guint`, as a `guint` parameter receives it. -/
def guint_of_gint (n : Int) : Nat := (n % 2 ^ 32).toNat

/-- The record `InfTextUserPrivate`. The hue is a `gdouble` that the code only
stores and hands back; it is kept as a rational number. -/
structure InfTextUserPrivate where
  caret : Nat
  selection : Int
  hue : Rat
deriving DecidableEq, Repr

/-- The instance initialiser `inf_text_user_init`. -/
def inf_text_user_init : InfTextUserPrivate :=
  { caret := 0, selection := 0, hue := 0 }

/-- The default handler `inf_text_user_selection_changed`, whose `length`
parameter is a `guint`: the record afterwards and the properties it notifies. -/
def inf_text_user_selection_changed (priv : InfTextUserPrivate) (position length : Nat)
    (_by_request : Bool) : InfTextUserPrivate × List String :=
  ({ priv with caret := position, selection := gint_of_guint length },
    ["caret-position", "selection-length"])

/-- The public function `inf_text_user_set_selection`: it emits
selection-changed, whose default handler is `inf_text_user_selection_changed`. -/
def inf_text_user_set_selection (priv : InfTextUserPrivate) (position : Nat) (length : Int)
    (by_request : Bool) : InfTextUserPrivate × List String :=
  inf_text_user_selection_changed priv (guint position) (guint_of_gint length) by_request

/-- The public function `inf_text_user_get_caret_position`. -/
def inf_text_user_get_caret_position (priv : InfTextUserPrivate) : Nat := priv.caret

/-- The public function `inf_text_user_get_selection_length`. -/
def inf_text_user_get_selection_length (priv : InfTextUserPrivate) : Int := priv.selection

/-- The public function `inf_text_user_get_hue`. -/
def inf_text_user_get_hue (priv : InfTextUserPrivate) : Rat := priv.hue

/-! ## Vocabulary of the last statements -/

/-- A character is one of the decimal digits 0 to 9. -/
def is_decimal_digit (ch : Char) : Prop := 48 ≤ ch.toNat ∧ ch.toNat ≤ 57

instance (ch : Char) : Decidable (is_decimal_digit ch) := by
  unfold is_decimal_digit
  infer_instance

/-- The number that a string of decimal digits denotes in base ten. -/
def decimal_value (d : String) : Nat :=
  d.data.foldl (fun acc ch => acc * 10 + (ch.toNat - 48)) 0

/-- A Running session whose user table holds two user objects named Ann. -/
def example_same_name : InfSessionPrivate :=
  { example_running with
    user_table := [⟨1, "Ann", .UNAVAILABLE⟩, ⟨2, "Ann", .UNAVAILABLE⟩] }

/-- A class whose user constructor is set but creates no user. -/
def example_class_no_user : InfSessionClass :=
  inf_session_class_init (some (fun _ _ => none))

/-- The session `example_registered` after sync-begin with num-messages 2. -/
def example_begun : InfSessionPrivate :=
  { example_registered with
    sync_messages_total := 4, sync_messages_received := 1,
    trace := example_registered.trace ++ [.emit (.synchronization_progress 7 1 4)] }

/-! # Theorems -/

/-! ## The C library -/

theorem c_digit_value_digitChar (d : Nat) (h : d < 10) :
    c_digit_value (Nat.digitChar d) = some d := by
  interval_cases d <;> rfl

theorem c_isspace_digitChar (d : Nat) (h : d < 10) :
    c_isspace (Nat.digitChar d) = false := by
  interval_cases d <;> rfl

theorem strtoul_scan_toDigitsCore (fuel : Nat) :
    ∀ (n : Nat) (ds : List Char), n < fuel →
      strtoul_scan 10 0 (Nat.toDigitsCore 10 fuel n ds) = strtoul_scan 10 n ds := by
  induction fuel with
  | zero => intro n ds h; omega
  | succ fuel ih =>
    intro n ds h
    have hd : n % 10 < 10 := Nat.mod_lt _ (by decide)
    by_cases h0 : n / 10 = 0
    · have hn : n % 10 = n := by omega
      rw [hn] at hd
      simp [Nat.toDigitsCore, h0, strtoul_scan, hn, c_digit_value_digitChar n hd, hd]
    · have hlt : n / 10 < fuel := by omega
      simp only [Nat.toDigitsCore, h0, if_false]
      rw [ih (n / 10) _ hlt]
      have : n / 10 * 10 + n % 10 = n := by omega
      simp [strtoul_scan, c_digit_value_digitChar _ hd, hd, this]

theorem toDigitsCore_head (fuel : Nat) :
    ∀ (n : Nat) (ds : List Char), 0 < n → n < fuel →
      ∃ d rest, 0 < d ∧ d < 10 ∧ Nat.toDigitsCore 10 fuel n ds = Nat.digitChar d :: rest := by
  induction fuel with
  | zero => intro n ds _ h; omega
  | succ fuel ih =>
    intro n ds hpos h
    by_cases h0 : n / 10 = 0
    · refine ⟨n % 10, ds, by omega, Nat.mod_lt _ (by decide), ?_⟩
      simp [Nat.toDigitsCore, h0]
    · have hlt : n / 10 < fuel := by omega
      obtain ⟨d, rest, h1, h2, h3⟩ := ih (n / 10) (Nat.digitChar (n % 10) :: ds) (by omega) hlt
      exact ⟨d, rest, h1, h2, by simp [Nat.toDigitsCore, h0, h3]⟩

theorem strtoul_radix_digit (base d : Nat) (rest : List Char) (h1 : 0 < d) (h2 : d < 10)
    (hb : base = 0 ∨ base = 10) :
    strtoul_radix base (Nat.digitChar d :: rest) = (10, Nat.digitChar d :: rest) := by
  rcases hb with rfl | rfl <;> interval_cases d <;> rfl

theorem strtoul_toDigits (n base : Nat) (hn : n ≤ ULONG_MAX) (hb : base = 0 ∨ base = 10) :
    strtoul (String.mk (Nat.toDigits 10 n)) base = n := by
  rcases Nat.eq_zero_or_pos n with rfl | hpos
  · rcases hb with rfl | rfl <;> decide
  · obtain ⟨d, rest, h1, h2, h3⟩ := toDigitsCore_head (n + 1) n [] hpos (Nat.lt_succ_self n)
    have hscan := strtoul_scan_toDigitsCore (n + 1) n [] (Nat.lt_succ_self n)
    have hsp := c_isspace_digitChar d h2
    have hsg : strtoul_sign (Nat.digitChar d :: rest) = (false, Nat.digitChar d :: rest) := by
      interval_cases d <;> rfl
    have hv : ¬ ULONG_MAX < n := by omega
    unfold strtoul
    simp only [Nat.toDigits]
    rw [h3] at hscan ⊢
    simp [List.dropWhile, hsp, hsg, strtoul_radix_digit base d rest h1 h2 hb, hscan,
      strtoul_scan, hv]

theorem strtoul_repr (n base : Nat) (hn : n < 2 ^ 32) (hb : base = 0 ∨ base = 10) :
    strtoul (Nat.repr n) base = n :=
  strtoul_toDigits n base (by unfold ULONG_MAX; omega) hb

theorem sprintf_u_eq_repr (n : Nat) (hn : n < 2 ^ 32) : sprintf_u n = Nat.repr n := by
  unfold sprintf_u
  rw [Nat.mod_eq_of_lt hn]
  rfl

/-! ## Signal emission -/

theorem g_signal_emit_progress (p : InfSessionPrivate) (c : InfXmlConnection) (a b : Nat) :
    g_signal_emit (.synchronization_progress c a b) p
      = .ok (p.log (.emit (.synchronization_progress c a b))) := rfl

theorem g_signal_emit_complete_synchronizing (p : InfSessionPrivate) (c : InfXmlConnection)
    (g : InfConnectionManagerGroup)
    (hs : p.status = .SYNCHRONIZING) (hc : p.sync_conn = some c) (hg : p.sync_group = some g) :
    g_signal_emit (.synchronization_complete c) p
      = .ok { p with
          status := .RUNNING, run_syncs := [], sync_conn := none, sync_group := none,
          trace := p.trace ++ [.emit (.synchronization_complete c), .group_unref g,
            .signal_disconnect c, .object_unref c, .notify "status"] } := by
  simp [g_signal_emit, signal_emission, inf_session_synchronization_complete_handler,
    InfSessionPrivate.log, hs, hc, hg, inf_session_release_connection,
    inf_connection_manager_group_unref, bind, Except.bind, pure, Except.pure]

theorem g_signal_emit_failed_synchronizing (p : InfSessionPrivate) (c : InfXmlConnection)
    (g : InfConnectionManagerGroup) (e : GError)
    (hs : p.status = .SYNCHRONIZING) (hc : p.sync_conn = some c) (hg : p.sync_group = some g)
    (hcl : p.sync_closing = false) :
    g_signal_emit (.synchronization_failed (some c) e) p
      = .ok { p with
          status := .CLOSED, sync_closing := true, subscription_group := none,
          trace := p.trace ++ [.emit (.synchronization_failed (some c) e), .emit .close,
            .group_unref g] ++ subscription_release p.subscription_group
            ++ [.notify "status"] } := by
  cases hsub : p.subscription_group <;>
  simp [g_signal_emit, signal_emission, inf_session_synchronization_failed_handler,
    inf_session_close_with, inf_session_close_handler, subscription_release,
    InfSessionPrivate.log, hs, hc, hg, hcl, hsub,
    inf_connection_manager_group_unref, bind, Except.bind, pure, Except.pure]

theorem signal_emission_failed_running (d : Nat) (p : InfSessionPrivate)
    (sync : InfSessionSync) (rest : List InfSessionSync) (e : GError)
    (hs : p.status = .RUNNING) (hr : p.run_syncs = sync :: rest) :
    signal_emission (d + 1) (.synchronization_failed (some sync.conn) e) p
      = .ok { p with
          run_syncs := rest,
          trace := p.trace ++ [.emit (.synchronization_failed (some sync.conn) e),
            .group_unref sync.group, .signal_disconnect sync.conn,
            .object_unref sync.conn] } := by
  simp [signal_emission, inf_session_synchronization_failed_handler,
    inf_session_find_sync_by_connection, inf_session_release_connection,
    inf_connection_manager_group_unref, InfSessionPrivate.log, hs, hr, bind, Except.bind,
    pure, Except.pure]

theorem close_handler_loop_terminates (d : Nat) (error : GError) :
    ∀ (n : Nat) (p : InfSessionPrivate), p.status = .RUNNING → p.run_syncs.length ≤ n →
      ∃ q, inf_session_close_handler_loop (signal_emission (d + 1)) error n p = .ok q
        ∧ q.status = .RUNNING ∧ q.run_syncs = [] := by
  intro n
  induction n with
  | zero =>
    intro p hs hl
    have : p.run_syncs = [] := List.length_eq_zero.mp (Nat.le_zero.mp hl)
    exact ⟨p, by simp [inf_session_close_handler_loop, this, pure, Except.pure], hs, this⟩
  | succ n ih =>
    intro p hs hl
    cases hr : p.run_syncs with
    | nil => exact ⟨p, by simp [inf_session_close_handler_loop, hr, pure, Except.pure], hs, hr⟩
    | cons sync rest =>
      have hlen : rest.length ≤ n := by
        rw [hr] at hl
        simpa using hl
      by_cases hst : sync.status = .IN_PROGRESS
      · obtain ⟨q1, hq1, hs1, hr1⟩ : ∃ q1,
            signal_emission (d + 1) (.synchronization_failed (some sync.conn) error)
              (inf_connection_manager_group_send_to_connection
                (p.log (.clear_queue sync.group sync.conn)) (some sync.group) sync.conn
                (xmlNewNode "sync-cancel")) = .ok q1
            ∧ q1.status = .RUNNING ∧ q1.run_syncs = rest :=
          ⟨_, signal_emission_failed_running d _ sync rest error
            (by simp [inf_connection_manager_group_send_to_connection, InfSessionPrivate.log,
              hs])
            (by simp [inf_connection_manager_group_send_to_connection, InfSessionPrivate.log,
              hr]),
            by simp [inf_connection_manager_group_send_to_connection, InfSessionPrivate.log,
              hs], rfl⟩
        obtain ⟨q, hq, hq2, hq3⟩ := ih q1 hs1 (by rw [hr1]; exact hlen)
        exact ⟨q, by
          simp only [inf_session_close_handler_loop, hr, hst, if_true, hq1, bind, Except.bind]
          exact hq, hq2, hq3⟩
      · obtain ⟨q1, hq1, hs1, hr1⟩ : ∃ q1,
            signal_emission (d + 1) (.synchronization_failed (some sync.conn) error) p = .ok q1
            ∧ q1.status = .RUNNING ∧ q1.run_syncs = rest :=
          ⟨_, signal_emission_failed_running d p sync rest error hs hr, hs, rfl⟩
        obtain ⟨q, hq, hq2, hq3⟩ := ih q1 hs1 (by rw [hr1]; exact hlen)
        exact ⟨q, by
          simp only [inf_session_close_handler_loop, hr, hst, if_false, hq1, bind, Except.bind]
          exact hq, hq2, hq3⟩

theorem signal_emission_failed_closing (d : Nat) (p : InfSessionPrivate)
    (c : Option InfXmlConnection) (e : GError)
    (hs : p.status = .SYNCHRONIZING) (hcl : p.sync_closing = true) :
    signal_emission (d + 1) (.synchronization_failed c e) p
      = if c ≠ p.sync_conn then .error Fault.assertion
        else .ok (p.log (.emit (.synchronization_failed c e))) := by
  simp [signal_emission, inf_session_synchronization_failed_handler, InfSessionPrivate.log,
    hs, hcl, throw, throwThe, MonadExceptOf.throw, pure, Except.pure]

theorem signal_emission_close_closing (d : Nat) (p : InfSessionPrivate)
    (hs : p.status = .SYNCHRONIZING) (hcl : p.sync_closing = true) :
    ∃ q, signal_emission (d + 1) .close p = .ok q ∧ q.status = .CLOSED := by
  cases hsub : p.subscription_group <;>
  simp [signal_emission, inf_session_close_handler, InfSessionPrivate.log, hs, hcl, hsub,
    inf_connection_manager_group_unref, bind, Except.bind, pure, Except.pure]

theorem signal_emission_succ (d : Nat) (sig : Signal) (p : InfSessionPrivate) :
    signal_emission (d + 1) sig p
      = match sig with
        | .close => inf_session_close_handler (signal_emission d) (p.log (.emit sig))
        | .synchronization_progress _ _ _ => pure (p.log (.emit sig))
        | .synchronization_complete c =>
          inf_session_synchronization_complete_handler (p.log (.emit sig)) c
        | .synchronization_failed c e =>
          inf_session_synchronization_failed_handler (signal_emission d) (p.log (.emit sig))
            c e := by
  cases sig <;> rfl

/-- The nesting bound of `g_signal_emit` is never reached: an emission ends
with a session or on a failed assertion. -/
theorem g_signal_emit_total (sig : Signal) (p : InfSessionPrivate) :
    g_signal_emit sig p ≠ .error Fault.fuel := by
  cases hs : p.status with
  | RUNNING =>
    cases sig with
    | close =>
      obtain ⟨q, hq, -, -⟩ := close_handler_loop_terminates 1 (sync_error .RECEIVER_CANCELLED)
        p.run_syncs.length (p.log (.emit .close))
        (by simp [InfSessionPrivate.log, hs]) (by simp [InfSessionPrivate.log])
      have hq2 : inf_session_close_handler_loop (signal_emission 2)
          (sync_error .RECEIVER_CANCELLED) p.run_syncs.length (p.log (.emit .close)) = .ok q := hq
      have hst : (p.log (.emit .close)).status = .RUNNING := by simp [InfSessionPrivate.log, hs]
      have hrs : (p.log (.emit .close)).run_syncs = p.run_syncs := rfl
      unfold g_signal_emit
      rw [signal_emission_succ]
      simp only [inf_session_close_handler, hst, hrs, hq2, bind, Except.bind, pure,
        Except.pure]
      simp
    | synchronization_progress c a b => simp [g_signal_emit, signal_emission, pure, Except.pure]
    | synchronization_complete c =>
      simp only [g_signal_emit, signal_emission, inf_session_synchronization_complete_handler,
        inf_session_release_connection, InfSessionPrivate.log, hs, bind, Except.bind, pure,
        Except.pure, throw, throwThe, MonadExceptOf.throw]
      split_ifs
      · simp
      · split <;> simp
    | synchronization_failed c e =>
      simp only [g_signal_emit, signal_emission, inf_session_synchronization_failed_handler,
        inf_session_release_connection, InfSessionPrivate.log, hs, bind, Except.bind, pure,
        Except.pure, throw, throwThe, MonadExceptOf.throw]
      split
      · simp
      · split_ifs
        · simp
        · split <;> simp
  | CLOSED =>
    cases sig <;>
    simp [g_signal_emit, signal_emission, inf_session_synchronization_failed_handler,
      inf_session_synchronization_complete_handler, inf_session_close_handler,
      InfSessionPrivate.log, hs, bind, Except.bind, pure, Except.pure, throw, throwThe,
      MonadExceptOf.throw]
  | SYNCHRONIZING =>
    obtain ⟨ut, st, sub, sg, sc, mt, mr, cl, rs, tr⟩ := p
    simp only at hs
    subst hs
    cases sig with
    | synchronization_progress c a b => simp [g_signal_emit, signal_emission, pure, Except.pure]
    | synchronization_complete c =>
      simp only [g_signal_emit, signal_emission, inf_session_synchronization_complete_handler,
        inf_session_release_connection, InfSessionPrivate.log, bind, Except.bind, pure,
        Except.pure, throw, throwThe, MonadExceptOf.throw]
      split_ifs <;> simp
    | synchronization_failed c e =>
      cases cl <;> cases sub <;> cases sg <;>
      simp [g_signal_emit, signal_emission, inf_session_synchronization_failed_handler,
        inf_session_close_with, inf_session_close_handler, inf_connection_manager_group_unref,
        InfSessionPrivate.log, bind, Except.bind, pure, Except.pure, throw, throwThe,
        MonadExceptOf.throw] <;>
      split_ifs <;> simp
    | close =>
      cases cl <;> cases sub <;> cases sg <;> cases sc <;>
      simp [g_signal_emit, signal_emission, inf_session_synchronization_failed_handler,
        inf_session_close_with, inf_session_close_handler, inf_connection_manager_group_unref,
        inf_session_send_sync_error, inf_connection_manager_group_send_to_connection,
        InfSessionPrivate.log, bind, Except.bind, pure, Except.pure, throw, throwThe,
        MonadExceptOf.throw]

/-! ## Inbound synchronisation -/

theorem handle_sync_begin (klass : InfSessionClass) (p : InfSessionPrivate)
    (c : InfXmlConnection) (node : XmlNode) (N : Nat)
    (hs : p.status = .SYNCHRONIZING)
    (hM : p.sync_messages_total = 0)
    (hname : node.name = "sync-begin")
    (hattr : xmlGetProp node "num-messages" = some (Nat.repr N))
    (hN : N + 2 < 2 ^ 32) :
    inf_session_handle_received_sync_message klass p c node
      = .ok (true, none, { p with
          sync_messages_total := N + 2, sync_messages_received := 1,
          trace := p.trace ++ [.emit (.synchronization_progress c 1 (N + 2))] }) := by
  have hv : strtoul (Nat.repr N) 0 = N := strtoul_repr N 0 (by omega) (Or.inl rfl)
  have ht : guint ((2 + N) % (ULONG_MAX + 1)) = N + 2 := by
    unfold guint ULONG_MAX
    omega
  simp [inf_session_handle_received_sync_message, hs, hname, hM, hattr, hv, ht,
    g_signal_emit_progress, InfSessionPrivate.log, bind, Except.bind, pure, Except.pure]

theorem handle_sync_end (klass : InfSessionClass) (p : InfSessionPrivate)
    (c : InfXmlConnection) (g : InfConnectionManagerGroup) (node : XmlNode)
    (hs : p.status = .SYNCHRONIZING) (hc : p.sync_conn = some c) (hg : p.sync_group = some g)
    (hr : p.sync_messages_received < 2 ^ 32) (hM : p.sync_messages_total < 2 ^ 32)
    (hname : node.name = "sync-end") :
    inf_session_handle_received_sync_message klass p c node
      = if p.sync_messages_received = guint_sub p.sync_messages_total 1 then
          .ok (true, none, { p with
            sync_messages_received := p.sync_messages_total,
            status := .RUNNING, run_syncs := [], sync_conn := none, sync_group := none,
            trace := p.trace ++ [.send_to_connection g c (xmlNewNode "sync-ack"),
              .emit (.synchronization_complete c), .group_unref g,
              .signal_disconnect c, .object_unref c, .notify "status"] })
        else
          .ok (false, some (sync_error .UNEXPECTED_END_OF_SYNC), { p with
            sync_messages_received := guint (p.sync_messages_received + 1) }) := by
  have hiff : guint (p.sync_messages_received + 1) = p.sync_messages_total
      ↔ p.sync_messages_received = guint_sub p.sync_messages_total 1 := by
    unfold guint guint_sub
    omega
  by_cases h : p.sync_messages_received = guint_sub p.sync_messages_total 1
  · have h1 : guint (p.sync_messages_received + 1) = p.sync_messages_total := hiff.mpr h
    rw [if_pos h]
    unfold inf_session_handle_received_sync_message
    simp only [hs, hname, h1]
    simp [inf_connection_manager_group_send_to_connection, hg, InfSessionPrivate.log,
      bind, Except.bind, pure, Except.pure]
    rw [g_signal_emit_complete_synchronizing _ c g (by simp [hs]) (by simp [hc]) (by simp [hg])]
    simp [hs, hc, hg]
  · have h1 : ¬ guint (p.sync_messages_received + 1) = p.sync_messages_total :=
      fun h2 => h (hiff.mp h2)
    rw [if_neg h]
    unfold inf_session_handle_received_sync_message
    simp [hs, hname, h1, pure, Except.pure]

theorem handle_content_no_begin (klass : InfSessionClass) (p : InfSessionPrivate)
    (c : InfXmlConnection) (node : XmlNode)
    (hs : p.status = .SYNCHRONIZING) (hn : is_content_frame node)
    (h0 : p.sync_messages_received = 0) :
    inf_session_handle_received_sync_message klass p c node
      = .ok (false, some (sync_error .EXPECTED_BEGIN_OF_SYNC), p) := by
  obtain ⟨h1, h2, h3⟩ := hn
  simp [inf_session_handle_received_sync_message, hs, h1, h2, h3, h0, pure, Except.pure]

theorem handle_content_all_received (klass : InfSessionClass) (p : InfSessionPrivate)
    (c : InfXmlConnection) (node : XmlNode)
    (hs : p.status = .SYNCHRONIZING) (hn : is_content_frame node)
    (h0 : p.sync_messages_received ≠ 0)
    (h1 : p.sync_messages_received = guint_sub p.sync_messages_total 1) :
    inf_session_handle_received_sync_message klass p c node
      = .ok (false, some (sync_error .EXPECTED_END_OF_SYNC), p) := by
  obtain ⟨n1, n2, n3⟩ := hn
  simp [inf_session_handle_received_sync_message, hs, n1, n2, n3, h0, ← h1, pure, Except.pure]

theorem handle_content_window (klass : InfSessionClass) (p : InfSessionPrivate)
    (c : InfXmlConnection) (node : XmlNode)
    (hs : p.status = .SYNCHRONIZING) (hn : is_content_frame node)
    (h0 : 0 < p.sync_messages_received)
    (h1 : p.sync_messages_received + 1 < p.sync_messages_total)
    (hM : p.sync_messages_total < 2 ^ 32) :
    inf_session_handle_received_sync_message klass p c node
      = if (klass.process_xml_sync p c node).1 = true then
          .ok (true, none, { p with
            user_table := (klass.process_xml_sync p c node).2.2,
            sync_messages_received := p.sync_messages_received + 1,
            trace := p.trace ++ [.emit (.synchronization_progress c
              (p.sync_messages_received + 1) p.sync_messages_total)] })
        else
          .ok (false, (klass.process_xml_sync p c node).2.1, { p with
            user_table := (klass.process_xml_sync p c node).2.2 }) := by
  obtain ⟨n1, n2, n3⟩ := hn
  have hne0 : p.sync_messages_received ≠ 0 := by omega
  have hne1 : p.sync_messages_received ≠ guint_sub p.sync_messages_total 1 := by
    unfold guint_sub
    omega
  have hg : guint (p.sync_messages_received + 1) = p.sync_messages_received + 1 := by
    unfold guint
    omega
  unfold inf_session_handle_received_sync_message
  simp only [hs, n1, n2, n3, hne0, hne1]
  cases hres : (klass.process_xml_sync p c node).1 <;>
  simp [hres, hg, g_signal_emit_progress, InfSessionPrivate.log, bind, Except.bind, pure,
    Except.pure]

theorem process_xml_sync_impl_other (klass : InfSessionUserClass) (p : InfSessionPrivate)
    (c : InfXmlConnection) (node : XmlNode)
    (hs : p.status = .SYNCHRONIZING) (hc : p.sync_conn = some c)
    (hname : node.name ≠ "sync-user") :
    inf_session_process_xml_sync_impl klass p c node
      = (false, some (sync_error .UNEXPECTED_NODE), p.user_table) := by
  simp [inf_session_process_xml_sync_impl, hs, hc, hname]

theorem process_xml_sync_impl_accepts (klass : InfSessionUserClass) (p : InfSessionPrivate)
    (c : InfXmlConnection) (node : XmlNode)
    (h : (inf_session_process_xml_sync_impl klass p c node).1 = true) :
    node.name = "sync-user" := by
  unfold inf_session_process_xml_sync_impl at h
  by_contra hne
  split_ifs at h

/-- What a failed handling leaves untouched. -/
theorem handle_error_frame (klass : InfSessionClass) (p p1 : InfSessionPrivate)
    (c : InfXmlConnection) (node : XmlNode) (e : GError)
    (h : inf_session_handle_received_sync_message klass p c node = .ok (false, some e, p1)) :
    p1.status = p.status ∧ p1.sync_conn = p.sync_conn ∧ p1.sync_group = p.sync_group
      ∧ p1.sync_closing = p.sync_closing ∧ p1.subscription_group = p.subscription_group
      ∧ p1.trace = p.trace ∧ p1.run_syncs = p.run_syncs
      ∧ p1.sync_messages_total = p.sync_messages_total := by
  unfold inf_session_handle_received_sync_message at h
  by_cases h1 : p.status ≠ .SYNCHRONIZING
  · simp [h1, throw, throwThe, MonadExceptOf.throw] at h
  rw [if_neg h1] at h
  by_cases h2 : node.name = "sync-cancel"
  · rw [if_pos h2] at h
    simp only [bind, Except.bind, pure, Except.pure] at h
    split at h <;> simp at h
  rw [if_neg h2] at h
  by_cases h3 : node.name = "sync-begin"
  · rw [if_pos h3] at h
    by_cases h4 : p.sync_messages_total > 0
    · simp [h4, pure, Except.pure] at h
      obtain ⟨-, rfl⟩ := h
      simp
    · cases hx : xmlGetProp node "num-messages" with
      | none =>
        simp [h4, hx, pure, Except.pure] at h
        obtain ⟨-, rfl⟩ := h
        simp
      | some v =>
        simp [h4, hx, g_signal_emit_progress, bind, Except.bind, pure, Except.pure] at h
  rw [if_neg h3] at h
  by_cases h5 : node.name = "sync-end"
  · rw [if_pos h5] at h
    by_cases h6 : guint (p.sync_messages_received + 1) = p.sync_messages_total
    · simp only [h6, ne_eq, not_true_eq_false, if_false] at h
      simp only [bind, Except.bind, pure, Except.pure] at h
      split at h <;> simp at h
    · simp [h6, pure, Except.pure] at h
      obtain ⟨-, rfl⟩ := h
      simp
  rw [if_neg h5] at h
  by_cases h6 : p.sync_messages_received = 0
  · simp [h6, pure, Except.pure] at h
    obtain ⟨-, rfl⟩ := h
    simp
  by_cases h7 : p.sync_messages_received = guint_sub p.sync_messages_total 1
  · simp [h6, ← h7, pure, Except.pure] at h
    obtain ⟨-, rfl⟩ := h
    simp
  cases hres : (klass.process_xml_sync p c node).1
  · simp [h6, h7, hres, pure, Except.pure] at h
    obtain ⟨-, rfl⟩ := h
    simp
  · simp [h6, h7, hres, g_signal_emit_progress, bind, Except.bind, pure, Except.pure] at h

/-! ## Delivery of frames -/

theorem sync_begin_received (klass : InfSessionClass) (p : InfSessionPrivate)
    (c : InfXmlConnection) (node : XmlNode) (N : Nat)
    (hs : p.status = .SYNCHRONIZING) (hc : p.sync_conn = some c)
    (hM : p.sync_messages_total = 0)
    (hname : node.name = "sync-begin")
    (hattr : xmlGetProp node "num-messages" = some (Nat.repr N))
    (hN : N + 2 < 2 ^ 32) :
    inf_session_net_object_received klass p c node
      = .ok (false, none, { p with
          sync_messages_total := N + 2, sync_messages_received := 1,
          trace := p.trace ++ [.emit (.synchronization_progress c 1 (N + 2))] }) := by
  simp [inf_session_net_object_received, hs, hc,
    handle_sync_begin klass p c node N hs hM hname hattr hN, bind, Except.bind, pure, Except.pure]

theorem deliver_nil (klass : InfSessionClass) (c : InfXmlConnection) (s : InfSessionPrivate) :
    deliver klass c s [] = .ok s := rfl

theorem deliver_cons (klass : InfSessionClass) (c : InfXmlConnection) (s : InfSessionPrivate)
    (x : XmlNode) (xs : List XmlNode) :
    deliver klass c s (x :: xs)
      = (inf_session_net_object_received klass s c x >>= fun r => deliver klass c r.2.2 xs) := rfl

theorem received_sync_end (klass : InfSessionClass) (p : InfSessionPrivate)
    (c : InfXmlConnection) (g : InfConnectionManagerGroup) (node : XmlNode)
    (hs : p.status = .SYNCHRONIZING) (hc : p.sync_conn = some c) (hg : p.sync_group = some g)
    (hr : p.sync_messages_received < 2 ^ 32) (hM : p.sync_messages_total < 2 ^ 32)
    (hname : node.name = "sync-end")
    (hacc : p.sync_messages_received = guint_sub p.sync_messages_total 1) :
    inf_session_net_object_received klass p c node
      = .ok (false, none, { p with
          sync_messages_received := p.sync_messages_total,
          status := .RUNNING, run_syncs := [], sync_conn := none, sync_group := none,
          trace := p.trace ++ [.send_to_connection g c (xmlNewNode "sync-ack"),
            .emit (.synchronization_complete c), .group_unref g,
            .signal_disconnect c, .object_unref c, .notify "status"] }) := by
  have hh := handle_sync_end klass p c g node hs hc hg hr hM hname
  rw [if_pos hacc] at hh
  simp [inf_session_net_object_received, hs, hc, hh, bind, Except.bind, pure, Except.pure]

theorem deliver_append (klass : InfSessionClass) (c : InfXmlConnection) (xs ys : List XmlNode) :
    ∀ s : InfSessionPrivate,
      deliver klass c s (xs ++ ys) = (deliver klass c s xs >>= fun q => deliver klass c q ys) := by
  induction xs with
  | nil => intro s; simp [deliver, bind, Except.bind, pure, Except.pure]
  | cons x xs ih =>
    intro s
    simp only [List.cons_append, deliver, bind, Except.bind]
    cases inf_session_net_object_received klass s c x with
    | error e => rfl
    | ok r => simpa [bind, Except.bind] using ih r.2.2

/-! ## The closing flag between callbacks -/

/-- Whatever the handling of a frame returns, a session that is still
Synchronizing afterwards has kept its synchronizer, its group and a cleared
closing flag. -/
theorem handle_keeps_synchronizing (klass : InfSessionClass) (p p1 : InfSessionPrivate)
    (c : InfXmlConnection) (g : InfConnectionManagerGroup) (node : XmlNode)
    (b : Bool) (e : Option GError)
    (hs : p.status = .SYNCHRONIZING) (hc : p.sync_conn = some c) (hg : p.sync_group = some g)
    (hcl : p.sync_closing = false)
    (h : inf_session_handle_received_sync_message klass p c node = .ok (b, e, p1)) :
    p1.status = .SYNCHRONIZING →
      p1.sync_closing = false ∧ p1.sync_conn = some c ∧ p1.sync_group = some g := by
  unfold inf_session_handle_received_sync_message at h
  have h1 : ¬ (p.status ≠ .SYNCHRONIZING) := by simp [hs]
  rw [if_neg h1] at h
  by_cases h2 : node.name = "sync-cancel"
  · rw [if_pos h2] at h
    simp only [g_signal_emit_failed_synchronizing p c g _ hs hc hg hcl, bind, Except.bind,
      pure, Except.pure, Except.ok.injEq, Prod.mk.injEq] at h
    obtain ⟨-, -, rfl⟩ := h
    simp
  rw [if_neg h2] at h
  by_cases h3 : node.name = "sync-begin"
  · rw [if_pos h3] at h
    by_cases h4 : p.sync_messages_total > 0
    · simp [h4, pure, Except.pure] at h
      obtain ⟨-, -, rfl⟩ := h
      simp [hc, hg, hcl]
    · cases hx : xmlGetProp node "num-messages" with
      | none =>
        simp [h4, hx, pure, Except.pure] at h
        obtain ⟨-, -, rfl⟩ := h
        simp [hc, hg, hcl]
      | some v =>
        simp [h4, hx, g_signal_emit_progress, InfSessionPrivate.log, bind, Except.bind, pure,
          Except.pure] at h
        obtain ⟨-, -, rfl⟩ := h
        simp [hc, hg, hcl]
  rw [if_neg h3] at h
  by_cases h5 : node.name = "sync-end"
  · rw [if_pos h5] at h
    by_cases h6 : guint (p.sync_messages_received + 1) = p.sync_messages_total
    · simp only [h6, ne_eq, not_true_eq_false, if_false] at h
      rw [g_signal_emit_complete_synchronizing _ c g
        (by simp [inf_connection_manager_group_send_to_connection, hg, InfSessionPrivate.log, hs])
        (by simp [inf_connection_manager_group_send_to_connection, hg, InfSessionPrivate.log, hc])
        (by simp [inf_connection_manager_group_send_to_connection, hg, InfSessionPrivate.log])]
        at h
      simp only [bind, Except.bind, pure, Except.pure, Except.ok.injEq, Prod.mk.injEq] at h
      obtain ⟨-, -, rfl⟩ := h
      simp
    · simp [h6, pure, Except.pure] at h
      obtain ⟨-, -, rfl⟩ := h
      simp [hc, hg, hcl]
  rw [if_neg h5] at h
  by_cases h6 : p.sync_messages_received = 0
  · simp [h6, pure, Except.pure] at h
    obtain ⟨-, -, rfl⟩ := h
    simp [hc, hg, hcl]
  by_cases h7 : p.sync_messages_received = guint_sub p.sync_messages_total 1
  · simp [h6, ← h7, pure, Except.pure] at h
    obtain ⟨-, -, rfl⟩ := h
    simp [hc, hg, hcl]
  cases hres : (klass.process_xml_sync p c node).1
  · simp [h6, h7, hres, pure, Except.pure] at h
    obtain ⟨-, -, rfl⟩ := h
    simp [hc, hg, hcl]
  · simp [h6, h7, hres, g_signal_emit_progress, InfSessionPrivate.log, bind, Except.bind, pure,
      Except.pure] at h
    obtain ⟨-, -, rfl⟩ := h
    simp [hc, hg, hcl]

/-- The closing flag is clear between callbacks: a frame received by a
Synchronizing session with a clear flag leaves a session that is Running,
Closed, or Synchronizing with the flag still clear. -/
theorem received_keeps_closing_clear (klass : InfSessionClass) (p p1 : InfSessionPrivate)
    (c : InfXmlConnection) (g : InfConnectionManagerGroup) (node : XmlNode)
    (b : Bool) (e : Option GError)
    (hs : p.status = .SYNCHRONIZING) (hc : p.sync_conn = some c) (hg : p.sync_group = some g)
    (hcl : p.sync_closing = false)
    (h : inf_session_net_object_received klass p c node = .ok (b, e, p1)) :
    p1.status = .SYNCHRONIZING →
      p1.sync_closing = false ∧ p1.sync_conn = some c ∧ p1.sync_group = some g := by
  simp only [inf_session_net_object_received, hs, hc, ne_eq, not_true_eq_false, if_false,
    bind, Except.bind] at h
  cases hh : inf_session_handle_received_sync_message klass p c node with
  | error f => simp [hh] at h
  | ok r =>
    obtain ⟨rb, re, rp⟩ := r
    have keep := handle_keeps_synchronizing klass p rp c g node rb re hs hc hg hcl hh
    rw [hh] at h
    cases rb with
    | true =>
      simp [pure, Except.pure] at h
      obtain ⟨-, -, rfl⟩ := h
      exact keep
    | false =>
      cases re with
      | none =>
        simp [pure, Except.pure] at h
        obtain ⟨-, -, rfl⟩ := h
        exact keep
      | some err =>
        obtain ⟨f1, f2, f3, f4, -, -, -, -⟩ := handle_error_frame klass p rp c node err hh
        have hsend : (inf_session_send_sync_error rp err).status = .SYNCHRONIZING
            ∧ (inf_session_send_sync_error rp err).sync_conn = some c
            ∧ (inf_session_send_sync_error rp err).sync_group = some g
            ∧ (inf_session_send_sync_error rp err).sync_closing = false := by
          simp [inf_session_send_sync_error, f1, f2, f3, f4, hs, hc, hg, hcl,
            inf_connection_manager_group_send_to_connection, InfSessionPrivate.log]
        simp only at h
        rw [g_signal_emit_failed_synchronizing _ c g err hsend.1 hsend.2.1 hsend.2.2.1
          hsend.2.2.2] at h
        simp only [pure, Except.pure, Except.ok.injEq, Prod.mk.injEq] at h
        obtain ⟨-, -, rfl⟩ := h
        simp

/-! ## The user codec -/

theorem set_xml_user_props_user (priv : InfSessionPrivate) (u : InfUser) :
    inf_session_set_xml_user_props_impl priv (inf_user_get_properties u) (xmlNewNode "sync-user")
      = sync_user_frame u := by
  cases u with
  | mk id name status =>
    cases status <;>
    simp [inf_session_set_xml_user_props_impl, inf_user_get_properties, xmlNewNode, xmlNewProp,
      g_value_get_uint, g_value_get_string, g_value_get_enum, inf_xml_util_set_attribute,
      sync_user_frame, status_attribute]

theorem to_xml_sync_class_init
    (user_new : Option (InfSessionPrivate → List GParameter → Option InfUser))
    (q : InfSessionPrivate) :
    (inf_session_class_init user_new).to_xml_sync q = q.user_table.map sync_user_frame := by
  simp [inf_session_class_init, inf_session_to_xml_sync_impl, inf_session_user_to_xml,
    set_xml_user_props_user]

theorem get_xml_user_props_user (priv : InfSessionPrivate) (c : InfXmlConnection) (u : InfUser)
    (hid : u.id < 2 ^ 32) :
    inf_session_get_xml_user_props_impl priv c (sync_user_frame u)
      = inf_user_get_properties u := by
  have h1 : sprintf_u u.id = Nat.repr u.id := sprintf_u_eq_repr _ hid
  have h2 : strtoul (Nat.repr u.id) 10 = u.id := strtoul_repr _ 10 hid (Or.inr rfl)
  have h3 : guint u.id = u.id := Nat.mod_eq_of_lt hid
  cases u with
  | mk id name status =>
    simp only at h1 h2 h3
    cases status <;>
    simp [inf_session_get_xml_user_props_impl, sync_user_frame, xmlGetProp, h1, h2, h3,
      inf_session_get_user_property, g_value_init_set, inf_user_get_properties,
      status_attribute, List.findIdx?, List.modify]

theorem inf_user_new_properties (u : InfUser) : inf_user_new (inf_user_get_properties u) = u := by
  cases u with
  | mk id name status =>
    simp [inf_user_new, inf_user_get_properties, g_value_get_uint, g_value_get_string,
      g_value_get_enum]

theorem find_id_none (table : InfUserTable) (id : Nat) (h : id ∉ table.map (fun u => u.id)) :
    inf_user_table_lookup_user_by_id table id = none := by
  simp only [inf_user_table_lookup_user_by_id, Option.map_eq_none', List.findIdx?_eq_none_iff]
  intro u hu
  simp only [beq_eq_false_iff_ne, ne_eq]
  intro he
  exact h (List.mem_map.mpr ⟨u, hu, he⟩)

theorem find_name_none (table : InfUserTable) (name : String)
    (h : name ∉ table.map (fun u => u.name)) :
    inf_user_table_lookup_user_by_name table (some name) = none := by
  simp only [inf_user_table_lookup_user_by_name, Option.map_eq_none', List.findIdx?_eq_none_iff]
  intro u hu
  simp only [beq_eq_false_iff_ne, ne_eq]
  intro he
  exact h (List.mem_map.mpr ⟨u, hu, he⟩)

theorem process_sync_user (s : InfSessionPrivate) (c : InfXmlConnection) (u : InfUser)
    (hs : s.status = .SYNCHRONIZING) (hc : s.sync_conn = some c)
    (hid : u.id < 2 ^ 32)
    (hfid : u.id ∉ s.user_table.map (fun u => u.id))
    (hfname : u.name ∉ s.user_table.map (fun u => u.name)) :
    example_class.process_xml_sync s c (sync_user_frame u)
      = (true, none, s.user_table ++ [u]) := by
  have hname : (sync_user_frame u).name = "sync-user" := rfl
  have h1 := find_id_none s.user_table u.id hfid
  have h2 := find_name_none s.user_table u.name hfname
  simp [example_class, inf_session_class_init, inf_session_process_xml_sync_impl, hs, hc, hname,
    get_xml_user_props_user s c u hid, inf_session_add_user,
    inf_session_validate_user_props_impl, inf_session_lookup_user_property,
    inf_user_get_properties, g_value_get_uint, g_value_get_string, h1, h2,
    inf_user_table_add_user]
  simpa [inf_user_get_properties] using inf_user_new_properties u

theorem received_sync_user (s : InfSessionPrivate) (c : InfXmlConnection) (u : InfUser)
    (hs : s.status = .SYNCHRONIZING) (hc : s.sync_conn = some c)
    (h0 : 0 < s.sync_messages_received)
    (h1 : s.sync_messages_received + 1 < s.sync_messages_total)
    (hM : s.sync_messages_total < 2 ^ 32)
    (hid : u.id < 2 ^ 32)
    (hfid : u.id ∉ s.user_table.map (fun u => u.id))
    (hfname : u.name ∉ s.user_table.map (fun u => u.name)) :
    inf_session_net_object_received example_class s c (sync_user_frame u)
      = .ok (false, none, { s with
          user_table := s.user_table ++ [u],
          sync_messages_received := s.sync_messages_received + 1,
          trace := s.trace ++ [.emit (.synchronization_progress c
            (s.sync_messages_received + 1) s.sync_messages_total)] }) := by
  have hn : is_content_frame (sync_user_frame u) := by
    show "sync-user" ≠ "sync-cancel" ∧ "sync-user" ≠ "sync-begin" ∧ "sync-user" ≠ "sync-end"
    decide
  have hh := handle_content_window example_class s c (sync_user_frame u) hs hn h0 h1 hM
  rw [process_sync_user s c u hs hc hid hfid hfname] at hh
  simp [inf_session_net_object_received, hs, hc, hh, bind, Except.bind, pure, Except.pure]

theorem deliver_sync_users (c : InfXmlConnection) (users : List InfUser) :
    ∀ s : InfSessionPrivate,
      s.status = .SYNCHRONIZING → s.sync_conn = some c →
      0 < s.sync_messages_received →
      s.sync_messages_received + users.length < s.sync_messages_total →
      s.sync_messages_total < 2 ^ 32 →
      (∀ u ∈ users, u.id < 2 ^ 32) →
      ((s.user_table ++ users).map (fun u => u.id)).Nodup →
      ((s.user_table ++ users).map (fun u => u.name)).Nodup →
      deliver example_class c s (users.map sync_user_frame)
        = .ok { s with
            user_table := s.user_table ++ users,
            sync_messages_received := s.sync_messages_received + users.length,
            trace := s.trace
              ++ progress_events c s.sync_messages_received users.length s.sync_messages_total } := by
  induction users with
  | nil =>
    intro s _ _ _ _ _ _ _ _
    simp [deliver, progress_events, pure, Except.pure]
  | cons u rest ih =>
    intro s hs hc h0 h1 hM hid hnid hnname
    simp only [List.length_cons] at h1
    have hu : u.id < 2 ^ 32 := hid u (List.mem_cons_self _ _)
    have hfid : u.id ∉ s.user_table.map (fun u => u.id) := by
      intro hmem
      simp only [List.map_append, List.map_cons] at hnid
      have := (List.nodup_append.mp hnid).2.2
      exact this hmem (List.mem_cons_self _ _)
    have hfname : u.name ∉ s.user_table.map (fun u => u.name) := by
      intro hmem
      simp only [List.map_append, List.map_cons] at hnname
      have := (List.nodup_append.mp hnname).2.2
      exact this hmem (List.mem_cons_self _ _)
    simp only [List.map_cons, deliver, bind, Except.bind]
    rw [received_sync_user s c u hs hc h0 (by omega) hM hu hfid hfname]
    have key := ih { s with
        user_table := s.user_table ++ [u],
        sync_messages_received := s.sync_messages_received + 1,
        trace := s.trace ++ [.emit (.synchronization_progress c
          (s.sync_messages_received + 1) s.sync_messages_total)] }
      hs hc (by simp) (by simp; omega) hM
      (fun v hv => hid v (List.mem_cons_of_mem _ hv))
      (by simpa [List.append_assoc] using hnid) (by simpa [List.append_assoc] using hnname)
    simp only at key ⊢
    rw [key]
    simp only [List.append_assoc, List.singleton_append, List.length_cons, progress_events]
    congr 2
    · omega
    · rw [List.range_succ_eq_map]
      simp only [List.map_cons, List.map_map, List.cons_append, List.nil_append, Nat.add_zero]
      congr 2
      apply List.map_congr_left
      intro i _
      simp only [Function.comp]
      congr 2
      omega

theorem frames_sent_progress_events (c : InfXmlConnection) (r n total : Nat) :
    frames_sent (progress_events c r n total) = [] := by
  simp [frames_sent, progress_events, List.filterMap_map, Function.comp_def]

/-! ## Outbound synchronisation -/

theorem count_messages (messages : List XmlNode) (t : Nat) :
    messages.foldl (fun t _ => guint (t + 1)) (guint t) = guint (t + messages.length) := by
  induction messages generalizing t with
  | nil => simp
  | cons x xs ih =>
    have h : guint (guint t + 1) = guint (t + 1) := by
      unfold guint
      omega
    simp only [List.foldl_cons, List.length_cons, h]
    rw [ih (t + 1)]
    congr 1
    omega

theorem send_all (messages : List XmlNode) (g : InfConnectionManagerGroup)
    (c : InfXmlConnection) (p : InfSessionPrivate) :
    messages.foldl
        (fun q xml => inf_connection_manager_group_send_to_connection q (some g) c xml) p
      = { p with trace := p.trace ++ messages.map (fun xml => Effect.send_to_connection g c xml) } := by
  induction messages generalizing p with
  | nil => simp
  | cons x xs ih =>
    simp only [List.foldl_cons]
    rw [ih]
    simp [inf_connection_manager_group_send_to_connection, InfSessionPrivate.log]

theorem update_sync_head (s : InfSessionSync) (rest : List InfSessionSync)
    (f : InfSessionSync → InfSessionSync) :
    update_sync (s :: rest) s.conn f = f s :: rest := by
  simp [update_sync]

theorem synchronize_to_ok (klass : InfSessionClass) (p : InfSessionPrivate)
    (g : InfConnectionManagerGroup) (c : InfXmlConnection) (items : List XmlNode)
    (hs : p.status = .RUNNING)
    (hnone : inf_session_find_sync_by_connection p (some c) = none)
    (hmem : inf_connection_manager_group_has_connection g c = true)
    (hitems : klass.to_xml_sync { p with
        run_syncs := ⟨g, c, 2, 0, .IN_PROGRESS⟩ :: p.run_syncs,
        trace := p.trace ++ [.object_ref c, .signal_connect c, .group_ref g] } = items)
    (hK : items.length + 2 < 2 ^ 32) :
    inf_session_synchronize_to klass p g c
      = .ok { p with
          run_syncs := ⟨g, c, items.length + 2, 0, .IN_PROGRESS⟩ :: p.run_syncs,
          trace := p.trace ++ [.object_ref c, .signal_connect c, .group_ref g]
            ++ [.send_to_connection g c ⟨"sync-begin", [("num-messages", Nat.repr items.length)]⟩]
            ++ items.map (fun xml => Effect.send_to_connection g c xml)
            ++ [.send_to_connection g c ⟨"sync-end", []⟩] } := by
  have hcount : items.foldl (fun t _ => guint (t + 1)) 2 = items.length + 2 := by
    have := count_messages items 2
    have h2 : guint 2 = 2 := by decide
    rw [h2] at this
    rw [this]
    unfold guint
    omega
  have hsub : guint_sub (items.length + 2) 2 = items.length := by
    unfold guint_sub
    omega
  have hrepr : sprintf_u items.length = Nat.repr items.length :=
    sprintf_u_eq_repr _ (by omega)
  have h1 : ¬ (p.status ≠ .RUNNING) := by simp [hs]
  have h2 : ¬ (inf_session_find_sync_by_connection p (some c) ≠ none) := by simp [hnone]
  have h3 : ¬ (inf_connection_manager_group_has_connection g c = false) := by simp [hmem]
  unfold inf_session_synchronize_to
  simp only [h1, h2, h3, if_false, InfSessionPrivate.log, List.append_assoc,
    List.singleton_append, List.cons_append, List.nil_append] at hitems ⊢
  simp only [hitems, hcount, hsub, hrepr, send_all, update_sync, if_true]
  simp [inf_connection_manager_group_send_to_connection, InfSessionPrivate.log,
    xmlNewProp, xmlNewNode, pure, Except.pure]

theorem frames_to_synchronize (g : InfConnectionManagerGroup) (c : InfXmlConnection)
    (first last : XmlNode) (items : List XmlNode) :
    frames_to
        ([Effect.object_ref c, .signal_connect c, .group_ref g]
          ++ [.send_to_connection g c first]
          ++ items.map (fun xml => Effect.send_to_connection g c xml)
          ++ [.send_to_connection g c last]) c
      = first :: items ++ [last] := by
  simp [frames_to, List.filterMap_append, List.filterMap_map, Function.comp_def]

theorem enqueued_other (s : InfSessionPrivate) (c : InfXmlConnection) (node : XmlNode)
    (h : node.name ≠ "sync-end") : inf_session_net_object_enqueued s c node = .ok s := by
  simp [inf_session_net_object_enqueued, h, pure, Except.pure]

theorem enqueue_all_other (c : InfXmlConnection) (xs : List XmlNode)
    (h : ∀ x ∈ xs, x.name ≠ "sync-end") :
    ∀ s : InfSessionPrivate, enqueue_all c s xs = .ok s := by
  induction xs with
  | nil => intro s; rfl
  | cons x xs ih =>
    intro s
    simp only [enqueue_all, enqueued_other s c x (h x (List.mem_cons_self _ _)), bind,
      Except.bind]
    exact ih (fun y hy => h y (List.mem_cons_of_mem _ hy)) s

theorem enqueue_all_append (c : InfXmlConnection) (xs ys : List XmlNode) :
    ∀ s : InfSessionPrivate,
      enqueue_all c s (xs ++ ys) = (enqueue_all c s xs >>= fun q => enqueue_all c q ys) := by
  induction xs with
  | nil => intro s; simp [enqueue_all, bind, Except.bind, pure, Except.pure]
  | cons x xs ih =>
    intro s
    simp only [List.cons_append, enqueue_all, bind, Except.bind]
    cases inf_session_net_object_enqueued s c x with
    | error e => rfl
    | ok r => simpa [bind, Except.bind] using ih r

theorem enqueued_sync_end (s : InfSessionPrivate) (rec : InfSessionSync)
    (rest : List InfSessionSync)
    (hs : s.status = .RUNNING) (hr : s.run_syncs = rec :: rest)
    (hst : rec.status = .IN_PROGRESS) :
    inf_session_net_object_enqueued s rec.conn ⟨"sync-end", []⟩
      = .ok { s with run_syncs := { rec with status := .AWAITING_ACK } :: rest } := by
  simp [inf_session_net_object_enqueued, inf_session_find_sync_by_connection, hs, hr, hst,
    update_sync, pure, Except.pure]

theorem received_sync_ack (klass : InfSessionClass) (s : InfSessionPrivate)
    (rec : InfSessionSync) (rest : List InfSessionSync)
    (hs : s.status = .RUNNING) (hr : s.run_syncs = rec :: rest)
    (hst : rec.status = .AWAITING_ACK) :
    inf_session_net_object_received klass s rec.conn (xmlNewNode "sync-ack")
      = .ok (false, none, { s with
          run_syncs := rest,
          trace := s.trace ++ [.emit (.synchronization_complete rec.conn),
            .group_unref rec.group, .signal_disconnect rec.conn, .object_unref rec.conn] }) := by
  have hname : (xmlNewNode "sync-ack").name = "sync-ack" := rfl
  simp [inf_session_net_object_received, inf_session_find_sync_by_connection, hs, hr, hst,
    hname, g_signal_emit, signal_emission, inf_session_synchronization_complete_handler,
    inf_session_release_connection, inf_connection_manager_group_unref,
    InfSessionPrivate.log, bind, Except.bind, pure, Except.pure]

/-! ## Running sessions: callbacks one at a time -/

theorem update_sync_conns (syncs : List InfSessionSync) (c : InfXmlConnection)
    (f : InfSessionSync → InfSessionSync) (hf : ∀ s, (f s).conn = s.conn) :
    (update_sync syncs c f).map (fun s => s.conn) = syncs.map (fun s => s.conn) := by
  induction syncs with
  | nil => rfl
  | cons s rest ih =>
    by_cases h : s.conn = c
    · simp [update_sync, h, hf s]
    · simp [update_sync, h, ih]

theorem find_sync_running (p : InfSessionPrivate) (c : Option InfXmlConnection)
    (hs : p.status = .RUNNING) :
    inf_session_find_sync_by_connection p c
      = p.run_syncs.find? (fun s => some s.conn == c) := by
  simp [inf_session_find_sync_by_connection, hs]

theorem find_sync_none_not_mem (p : InfSessionPrivate) (c : InfXmlConnection)
    (hs : p.status = .RUNNING)
    (h : inf_session_find_sync_by_connection p (some c) = none) :
    c ∉ roster_connections p := by
  rw [find_sync_running p _ hs, List.find?_eq_none] at h
  intro hm
  obtain ⟨s, hs1, hs2⟩ := List.mem_map.mp hm
  exact h s hs1 (by simp [hs2])

theorem find_sync_some_conn (p : InfSessionPrivate) (c : InfXmlConnection)
    (sync : InfSessionSync)
    (h : inf_session_find_sync_by_connection p (some c) = some sync) :
    sync.conn = c ∧ sync ∈ p.run_syncs := by
  unfold inf_session_find_sync_by_connection at h
  split_ifs at h
  have h1 := List.find?_some h
  have h2 := List.mem_of_find?_eq_some h
  exact ⟨by simpa using h1, h2⟩

theorem erase_conns_nodup (syncs : List InfSessionSync) (P : InfSessionSync → Bool)
    (h : (syncs.map (fun s => s.conn)).Nodup) :
    ((syncs.eraseP P).map (fun s => s.conn)).Nodup :=
  h.sublist ((List.eraseP_sublist syncs).map _)

theorem release_connection_running (p : InfSessionPrivate) (c : InfXmlConnection)
    (sync : InfSessionSync) (hs : p.status = .RUNNING)
    (hf : inf_session_find_sync_by_connection p (some c) = some sync) :
    inf_session_release_connection p c
      = .ok { p with
          run_syncs := p.run_syncs.eraseP (fun s => some s.conn == some c),
          trace := p.trace ++ [.group_unref sync.group, .signal_disconnect c,
            .object_unref c] } := by
  simp [inf_session_release_connection, hs, hf, inf_connection_manager_group_unref,
    InfSessionPrivate.log, bind, Except.bind, pure, Except.pure]

theorem g_signal_emit_failed_running (p : InfSessionPrivate) (c : InfXmlConnection)
    (sync : InfSessionSync) (e : GError) (hs : p.status = .RUNNING)
    (hf : inf_session_find_sync_by_connection p (some c) = some sync) :
    g_signal_emit (.synchronization_failed (some c) e) p
      = .ok { p with
          run_syncs := p.run_syncs.eraseP (fun s => some s.conn == some c),
          trace := p.trace ++ [.emit (.synchronization_failed (some c) e),
            .group_unref sync.group, .signal_disconnect c, .object_unref c] } := by
  have hs1 : (p.log (.emit (.synchronization_failed (some c) e))).status = .RUNNING := hs
  have hf1 : inf_session_find_sync_by_connection
      (p.log (.emit (.synchronization_failed (some c) e))) (some c) = some sync := by
    simpa [inf_session_find_sync_by_connection, InfSessionPrivate.log] using hf
  unfold g_signal_emit
  rw [signal_emission_succ]
  simp only [inf_session_synchronization_failed_handler, hs1, hf1]
  rw [release_connection_running _ c sync hs1 hf1]
  simp [InfSessionPrivate.log]

theorem g_signal_emit_complete_running (p : InfSessionPrivate) (c : InfXmlConnection)
    (sync : InfSessionSync) (hs : p.status = .RUNNING)
    (hf : inf_session_find_sync_by_connection p (some c) = some sync) :
    g_signal_emit (.synchronization_complete c) p
      = .ok { p with
          run_syncs := p.run_syncs.eraseP (fun s => some s.conn == some c),
          trace := p.trace ++ [.emit (.synchronization_complete c),
            .group_unref sync.group, .signal_disconnect c, .object_unref c] } := by
  have hs1 : (p.log (.emit (.synchronization_complete c))).status = .RUNNING := hs
  have hf1 : inf_session_find_sync_by_connection
      (p.log (.emit (.synchronization_complete c))) (some c) = some sync := by
    simpa [inf_session_find_sync_by_connection, InfSessionPrivate.log] using hf
  unfold g_signal_emit
  rw [signal_emission_succ]
  simp only [inf_session_synchronization_complete_handler, hs1, hf1]
  rw [release_connection_running _ c sync hs1 hf1]
  simp [InfSessionPrivate.log]

theorem close_handler_loop_running (d : Nat) :
    ∀ (n : Nat) (p : InfSessionPrivate), p.status = .RUNNING → p.run_syncs.length ≤ n →
      inf_session_close_handler_loop (signal_emission (d + 1))
          (sync_error .RECEIVER_CANCELLED) n p
        = .ok { p with
            run_syncs := [],
            trace := p.trace ++ close_records_trace p.run_syncs } := by
  intro n
  induction n with
  | zero =>
    intro p hs hl
    have h0 : p.run_syncs = [] := List.length_eq_zero.mp (Nat.le_zero.mp hl)
    obtain ⟨ut, st, sub, sg, sc, mt, mr, cl, rs, tr⟩ := p
    simp only at h0
    subst h0
    simp [inf_session_close_handler_loop, close_records_trace, pure, Except.pure]
  | succ n ih =>
    intro p hs hl
    cases hr : p.run_syncs with
    | nil =>
      obtain ⟨ut, st, sub, sg, sc, mt, mr, cl, rs, tr⟩ := p
      simp only at hr
      subst hr
      simp [inf_session_close_handler_loop, close_records_trace, pure, Except.pure]
    | cons sync rest =>
      have hlen : rest.length ≤ n := by
        rw [hr] at hl
        simpa using hl
      by_cases hst : sync.status = .IN_PROGRESS
      · have key := signal_emission_failed_running d
          (inf_connection_manager_group_send_to_connection
            (p.log (.clear_queue sync.group sync.conn)) (some sync.group) sync.conn
            (xmlNewNode "sync-cancel"))
          sync rest (sync_error .RECEIVER_CANCELLED)
          (by simp [inf_connection_manager_group_send_to_connection, InfSessionPrivate.log, hs])
          (by simp [inf_connection_manager_group_send_to_connection, InfSessionPrivate.log, hr])
        simp only [inf_session_close_handler_loop, hr, hst, if_true, key, bind, Except.bind]
        rw [ih _ (by simp [inf_connection_manager_group_send_to_connection,
          InfSessionPrivate.log, hs]) (by simpa using hlen)]
        simp [close_records_trace, close_record_trace, hst,
          inf_connection_manager_group_send_to_connection, InfSessionPrivate.log]
      · have key := signal_emission_failed_running d p sync rest
          (sync_error .RECEIVER_CANCELLED) hs hr
        simp only [inf_session_close_handler_loop, hr, hst, if_false, key, bind, Except.bind]
        rw [ih _ (by simpa using hs) (by simpa using hlen)]
        simp [close_records_trace, close_record_trace, hst]

theorem close_running (p : InfSessionPrivate) (hs : p.status = .RUNNING) :
    inf_session_close p
      = .ok { p with
          status := .CLOSED, run_syncs := [], subscription_group := none,
          trace := p.trace ++ [.emit .close] ++ close_records_trace p.run_syncs
            ++ subscription_release p.subscription_group ++ [.notify "status"] } := by
  have hloop := close_handler_loop_running 1 p.run_syncs.length (p.log (.emit .close))
    (by simpa [InfSessionPrivate.log] using hs) (by simp [InfSessionPrivate.log])
  have hloop2 : inf_session_close_handler_loop (signal_emission 2)
      (sync_error .RECEIVER_CANCELLED) p.run_syncs.length (p.log (.emit .close)) = _ := hloop
  have hst : (p.log (.emit .close)).status = .RUNNING := by simpa [InfSessionPrivate.log] using hs
  have hrs : (p.log (.emit .close)).run_syncs = p.run_syncs := rfl
  unfold inf_session_close g_signal_emit
  rw [signal_emission_succ]
  simp only [inf_session_close_handler, hst, hrs, hloop2, bind, Except.bind, pure, Except.pure]
  cases hsub : p.subscription_group <;>
  simp [InfSessionPrivate.log, subscription_release, inf_connection_manager_group_unref, hsub]

theorem synchronize_to_general (klass : InfSessionClass) (p : InfSessionPrivate)
    (g : InfConnectionManagerGroup) (c : InfXmlConnection) (items : List XmlNode)
    (hs : p.status = .RUNNING)
    (hnone : inf_session_find_sync_by_connection p (some c) = none)
    (hmem : inf_connection_manager_group_has_connection g c = true)
    (hitems : klass.to_xml_sync { p with
        run_syncs := ⟨g, c, 2, 0, .IN_PROGRESS⟩ :: p.run_syncs,
        trace := p.trace ++ [.object_ref c, .signal_connect c, .group_ref g] } = items) :
    inf_session_synchronize_to klass p g c
      = .ok { p with
          run_syncs := ⟨g, c, items.foldl (fun t _ => guint (t + 1)) 2, 0, .IN_PROGRESS⟩
            :: p.run_syncs,
          trace := p.trace ++ [.object_ref c, .signal_connect c, .group_ref g]
            ++ [.send_to_connection g c ⟨"sync-begin", [("num-messages",
                  sprintf_u (guint_sub (items.foldl (fun t _ => guint (t + 1)) 2) 2))]⟩]
            ++ items.map (fun xml => Effect.send_to_connection g c xml)
            ++ [.send_to_connection g c ⟨"sync-end", []⟩] } := by
  have h1 : ¬ (p.status ≠ .RUNNING) := by simp [hs]
  have h2 : ¬ (inf_session_find_sync_by_connection p (some c) ≠ none) := by simp [hnone]
  have h3 : ¬ (inf_connection_manager_group_has_connection g c = false) := by simp [hmem]
  unfold inf_session_synchronize_to
  simp only [h1, h2, h3, if_false, InfSessionPrivate.log, List.append_assoc,
    List.singleton_append, List.cons_append, List.nil_append] at hitems ⊢
  simp only [hitems, send_all, update_sync, if_true]
  simp [inf_connection_manager_group_send_to_connection, InfSessionPrivate.log,
    xmlNewProp, xmlNewNode, pure, Except.pure]

theorem sent_running (p : InfSessionPrivate) (c : InfXmlConnection) (node : XmlNode)
    (sync : InfSessionSync) (hs : p.status = .RUNNING)
    (hf : inf_session_find_sync_by_connection p (some c) = some sync) :
    inf_session_net_object_sent p c node
      = if sync.messages_sent < sync.messages_total then
          .ok { p with
            run_syncs := update_sync p.run_syncs c
              (fun s => { s with messages_sent := guint (sync.messages_sent + 1) }),
            trace := p.trace ++ [.emit (.synchronization_progress c
              (guint (sync.messages_sent + 1)) sync.messages_total)] }
        else .error Fault.assertion := by
  by_cases h : sync.messages_sent < sync.messages_total
  · simp [inf_session_net_object_sent, hs, hf, h, g_signal_emit_progress,
      InfSessionPrivate.log]
  · simp [inf_session_net_object_sent, hs, hf, h, throw, throwThe, MonadExceptOf.throw]

theorem sent_no_record (p : InfSessionPrivate) (c : InfXmlConnection) (node : XmlNode)
    (hf : inf_session_find_sync_by_connection p (some c) = none) :
    inf_session_net_object_sent p c node = .ok p := by
  unfold inf_session_net_object_sent
  split_ifs <;> simp [hf, pure, Except.pure]

theorem no_complete_in_close_records (syncs : List InfSessionSync) (c : InfXmlConnection) :
    Effect.emit (.synchronization_complete c) ∉ close_records_trace syncs := by
  induction syncs with
  | nil => simp [close_records_trace]
  | cons s rest ih =>
    simp only [close_records_trace, List.mem_append, not_or]
    refine ⟨?_, ih⟩
    unfold close_record_trace
    split_ifs <;> simp

theorem no_complete_in_subscription_release (sub : Option InfConnectionManagerGroup)
    (c : InfXmlConnection) :
    Effect.emit (.synchronization_complete c) ∉ subscription_release sub := by
  cases sub <;> simp [subscription_release]

theorem received_running_no_record (klass : InfSessionClass) (p : InfSessionPrivate)
    (c : InfXmlConnection) (node : XmlNode) (hs : p.status = .RUNNING)
    (hf : inf_session_find_sync_by_connection p (some c) = none) :
    inf_session_net_object_received klass p c node
      = .ok ((klass.process_xml_run p c node).1, (klass.process_xml_run p c node).2.1,
          { p with user_table := (klass.process_xml_run p c node).2.2 }) := by
  simp [inf_session_net_object_received, hs, hf, pure, Except.pure]

theorem received_running_sync_error (klass : InfSessionClass) (p : InfSessionPrivate)
    (c : InfXmlConnection) (node : XmlNode) (sync : InfSessionSync)
    (hs : p.status = .RUNNING)
    (hf : inf_session_find_sync_by_connection p (some c) = some sync)
    (hname : node.name = "sync-error") :
    inf_session_net_object_received klass p c node
      = .ok (false, none, { p with
          run_syncs := p.run_syncs.eraseP (fun s => some s.conn == some c),
          trace := p.trace ++ [.clear_queue sync.group c,
            .emit (.synchronization_failed (some c) (remote_sync_error node)),
            .group_unref sync.group, .signal_disconnect c, .object_unref c] }) := by
  have hs1 : (p.log (.clear_queue sync.group c)).status = .RUNNING := hs
  have hf1 : inf_session_find_sync_by_connection (p.log (.clear_queue sync.group c)) (some c)
      = some sync := by
    simpa [inf_session_find_sync_by_connection, InfSessionPrivate.log] using hf
  have key := g_signal_emit_failed_running _ c sync (remote_sync_error node) hs1 hf1
  simp only [inf_session_net_object_received, hs, hf, hname, if_true, bind, Except.bind]
  simp only [remote_sync_error] at key
  rw [key]
  simp [InfSessionPrivate.log, pure, Except.pure, hs, remote_sync_error]

theorem received_running_sync_ack (klass : InfSessionClass) (p : InfSessionPrivate)
    (c : InfXmlConnection) (node : XmlNode) (sync : InfSessionSync)
    (hs : p.status = .RUNNING)
    (hf : inf_session_find_sync_by_connection p (some c) = some sync)
    (hname : node.name = "sync-ack") (hst : sync.status = .AWAITING_ACK) :
    inf_session_net_object_received klass p c node
      = .ok (false, none, { p with
          run_syncs := p.run_syncs.eraseP (fun s => some s.conn == some c),
          trace := p.trace ++ [.emit (.synchronization_complete c),
            .group_unref sync.group, .signal_disconnect c, .object_unref c] }) := by
  have hne : ¬ (node.name = "sync-error") := by
    rw [hname]
    decide
  simp only [inf_session_net_object_received, hs, hf, hne, hname, hst, if_true, if_false,
    bind, Except.bind]
  rw [g_signal_emit_complete_running p c sync hs hf]
  simp [pure, Except.pure, hs]

theorem received_running_ignored (klass : InfSessionClass) (p : InfSessionPrivate)
    (c : InfXmlConnection) (node : XmlNode) (sync : InfSessionSync)
    (hs : p.status = .RUNNING)
    (hf : inf_session_find_sync_by_connection p (some c) = some sync)
    (hne : node.name ≠ "sync-error")
    (hna : ¬ (node.name = "sync-ack" ∧ sync.status = .AWAITING_ACK)) :
    inf_session_net_object_received klass p c node = .ok (false, none, p) := by
  simp only [inf_session_net_object_received, hs, hf, hne, if_false]
  by_cases h1 : node.name = "sync-ack"
  · have h2 : ¬ sync.status = .AWAITING_ACK := fun h => hna ⟨h1, h⟩
    simp [h1, h2, pure, Except.pure]
  · simp [h1, pure, Except.pure]

theorem notify_status_running (p : InfSessionPrivate) (c : InfXmlConnection)
    (st : InfXmlConnectionStatus) (sync : InfSessionSync)
    (hs : p.status = .RUNNING)
    (hf : inf_session_find_sync_by_connection p (some c) = some sync)
    (hst : st = .CLOSED ∨ st = .CLOSING) :
    inf_session_connection_notify_status_cb p c st
      = .ok { p with
          run_syncs := p.run_syncs.eraseP (fun s => some s.conn == some c),
          trace := p.trace ++ [.emit (.synchronization_failed (some c)
              (sync_error .CONNECTION_CLOSED)),
            .group_unref sync.group, .signal_disconnect c, .object_unref c] } := by
  simp only [inf_session_connection_notify_status_cb, hst, if_true, hs, hf]
  simp only [reduceCtorEq, if_false]
  rw [g_signal_emit_failed_running p c sync _ hs hf]
  simp [hs]

theorem notify_status_other (p : InfSessionPrivate) (c : InfXmlConnection)
    (st : InfXmlConnectionStatus) (hst : ¬ (st = .CLOSED ∨ st = .CLOSING)) :
    inf_session_connection_notify_status_cb p c st = .ok p := by
  simp [inf_session_connection_notify_status_cb, hst, pure, Except.pure]

/-- One callback on a Running session: the session stays Running or becomes
Closed, a duplicate-free roster stays duplicate-free, the trace is extended,
and synchronization-complete is emitted exactly for an awaited sync-ack. -/
theorem running_step (klass : InfSessionClass) (p q : InfSessionPrivate) (cb : Callback)
    (hs : p.status = .RUNNING) (h : perform klass p cb = .ok q) :
    (q.status = .RUNNING ∨ q.status = .CLOSED)
      ∧ ((roster_connections p).Nodup → (roster_connections q).Nodup)
      ∧ ∃ t, q.trace = p.trace ++ t
          ∧ ∀ c, (Effect.emit (.synchronization_complete c) ∈ t ↔ ack_while_awaiting p cb c) := by
  cases cb with
  | synchronize_to g c' =>
    have hno : ∀ c, ¬ ack_while_awaiting p (.synchronize_to g c') c := by
      rintro c ⟨node, sync, h1, -⟩
      cases h1
    simp only [perform] at h
    cases hf : inf_session_find_sync_by_connection p (some c') with
    | some sync =>
      have : inf_session_synchronize_to klass p g c' = .ok p := by
        simp [inf_session_synchronize_to, hs, hf, pure, Except.pure]
      rw [this] at h
      cases h
      exact ⟨Or.inl hs, id, [], by simp, fun c => by simp [hno c]⟩
    | none =>
      cases hm : inf_connection_manager_group_has_connection g c' with
      | false =>
        have : inf_session_synchronize_to klass p g c' = .error Fault.assertion := by
          simp [inf_session_synchronize_to, hs, hf, hm, throw, throwThe, MonadExceptOf.throw]
        rw [this] at h
        cases h
      | true =>
        rw [synchronize_to_general klass p g c' _ hs hf hm rfl] at h
        cases h
        refine ⟨Or.inl hs, ?_, _, by simp only [List.append_assoc]; rfl, fun c => ?_⟩
        · intro hnd
          have hnm := find_sync_none_not_mem p c' hs hf
          simpa [roster_connections] using And.intro hnm hnd
        · simp [hno c]
  | sent c' node =>
    have hno : ∀ c, ¬ ack_while_awaiting p (.sent c' node) c := by
      rintro c ⟨node, sync, h1, -⟩
      cases h1
    simp only [perform] at h
    cases hf : inf_session_find_sync_by_connection p (some c') with
    | none =>
      rw [sent_no_record p c' node hf] at h
      cases h
      exact ⟨Or.inl hs, id, [], by simp, fun c => by simp [hno c]⟩
    | some sync =>
      rw [sent_running p c' node sync hs hf] at h
      split_ifs at h
      cases h
      refine ⟨Or.inl hs, ?_, _, rfl, fun c => by simp [hno c]⟩
      intro hnd
      simpa [roster_connections, update_sync_conns] using hnd
  | enqueued c' node =>
    have hno : ∀ c, ¬ ack_while_awaiting p (.enqueued c' node) c := by
      rintro c ⟨node, sync, h1, -⟩
      cases h1
    simp only [perform, inf_session_net_object_enqueued] at h
    split_ifs at h
    · split at h
      · cases h
      · split_ifs at h
        cases h
        refine ⟨Or.inl hs, ?_, [], by simp, fun c => by simp [hno c]⟩
        intro hnd
        simpa [roster_connections, update_sync_conns] using hnd
    · cases h
      exact ⟨Or.inl hs, id, [], by simp, fun c => by simp [hno c]⟩
  | received c' node =>
    simp only [perform] at h
    cases hf : inf_session_find_sync_by_connection p (some c') with
    | none =>
      rw [received_running_no_record klass p c' node hs hf] at h
      cases h
      refine ⟨Or.inl hs, id, [], by simp, fun c => ?_⟩
      simp only [List.not_mem_nil, false_iff]
      rintro ⟨n, sync, h1, -, h3, -⟩
      cases h1
      rw [hf] at h3
      cases h3
    | some sync =>
      by_cases hn1 : node.name = "sync-error"
      · rw [received_running_sync_error klass p c' node sync hs hf hn1] at h
        cases h
        refine ⟨Or.inl hs, fun hnd => erase_conns_nodup _ _ hnd, _, rfl, fun c => ?_⟩
        simp only [List.mem_cons, reduceCtorEq, Effect.emit.injEq,
          List.not_mem_nil, or_false, false_or, false_iff]
        rintro ⟨n, sync2, h1, h2, -, -⟩
        cases h1
        rw [hn1] at h2
        exact absurd h2 (by decide)
      · by_cases hn2 : node.name = "sync-ack" ∧ sync.status = .AWAITING_ACK
        · rw [received_running_sync_ack klass p c' node sync hs hf hn2.1 hn2.2] at h
          cases h
          refine ⟨Or.inl hs, fun hnd => erase_conns_nodup _ _ hnd, _, rfl, fun c => ?_⟩
          simp only [List.mem_cons, Effect.emit.injEq, Signal.synchronization_complete.injEq,
            reduceCtorEq, List.not_mem_nil, or_false]
          constructor
          · rintro rfl
            exact ⟨node, sync, rfl, hn2.1, hf, hn2.2⟩
          · rintro ⟨n, sync2, h1, -⟩
            cases h1
            rfl
        · rw [received_running_ignored klass p c' node sync hs hf hn1 hn2] at h
          cases h
          refine ⟨Or.inl hs, id, [], by simp, fun c => ?_⟩
          simp only [List.not_mem_nil, false_iff]
          rintro ⟨n, sync2, h1, h2, h3, h4⟩
          cases h1
          rw [hf] at h3
          cases h3
          exact hn2 ⟨h2, h4⟩
  | notify_status c' st =>
    have hno : ∀ c, ¬ ack_while_awaiting p (.notify_status c' st) c := by
      rintro c ⟨node, sync, h1, -⟩
      cases h1
    simp only [perform] at h
    by_cases hst : st = .CLOSED ∨ st = .CLOSING
    · cases hf : inf_session_find_sync_by_connection p (some c') with
      | none =>
        simp [inf_session_connection_notify_status_cb, hst, hs, hf, throw, throwThe,
          MonadExceptOf.throw] at h
      | some sync =>
        rw [notify_status_running p c' st sync hs hf hst] at h
        cases h
        exact ⟨Or.inl hs, fun hnd => erase_conns_nodup _ _ hnd, _, rfl,
          fun c => by simp [hno c]⟩
    · rw [notify_status_other p c' st hst] at h
      cases h
      exact ⟨Or.inl hs, id, [], by simp, fun c => by simp [hno c]⟩
  | close =>
    have hno : ∀ c, ¬ ack_while_awaiting p .close c := by
      rintro c ⟨node, sync, h1, -⟩
      cases h1
    simp only [perform] at h
    rw [close_running p hs] at h
    cases h
    refine ⟨Or.inr rfl, fun _ => by simp [roster_connections], _, by
      simp only [List.append_assoc]; rfl, fun c => ?_⟩
    simp [hno c, no_complete_in_close_records, no_complete_in_subscription_release]

/-- A Closed session ignores every callback that does not abort. -/
theorem closed_step (klass : InfSessionClass) (p q : InfSessionPrivate) (cb : Callback)
    (hs : p.status = .CLOSED) (h : perform klass p cb = .ok q) : q = p := by
  cases cb with
  | synchronize_to g c =>
    simp [perform, inf_session_synchronize_to, hs, pure, Except.pure] at h
    exact h.symm
  | sent c node =>
    simp [perform, inf_session_net_object_sent, hs, pure, Except.pure] at h
    exact h.symm
  | enqueued c node =>
    have hf : inf_session_find_sync_by_connection p (some c) = none := by
      simp [inf_session_find_sync_by_connection, hs]
    simp only [perform, inf_session_net_object_enqueued, hf] at h
    by_cases hn : node.name = "sync-end"
    · simp [hn, throw, throwThe, MonadExceptOf.throw] at h
    · simp [hn, pure, Except.pure] at h
      exact h.symm
  | received c node =>
    simp [perform, inf_session_net_object_received, hs, throw, throwThe, MonadExceptOf.throw,
      bind, Except.bind] at h
  | notify_status c st =>
    simp only [perform, inf_session_connection_notify_status_cb, hs] at h
    by_cases hst : st = .CLOSED ∨ st = .CLOSING
    · simp [hst, throw, throwThe, MonadExceptOf.throw] at h
    · simp [hst, pure, Except.pure] at h
      exact h.symm
  | close =>
    simp [perform, inf_session_close, g_signal_emit, signal_emission,
      inf_session_close_handler, InfSessionPrivate.log, hs, throw, throwThe,
      MonadExceptOf.throw, bind, Except.bind] at h

theorem erase_conns_not_mem (syncs : List InfSessionSync) (c : InfXmlConnection)
    (h : (syncs.map (fun s => s.conn)).Nodup) (hm : c ∈ syncs.map (fun s => s.conn)) :
    c ∉ (syncs.eraseP (fun s => some s.conn == some c)).map (fun s => s.conn) := by
  induction syncs with
  | nil => simp at hm
  | cons s rest ih =>
    rw [List.map_cons, List.nodup_cons] at h
    by_cases hc : s.conn = c
    · simp only [List.eraseP_cons, hc, beq_self_eq_true, cond_true]
      rw [← hc]
      exact h.1
    · have hb : (some s.conn == some c) = false := by simp [hc]
      simp only [List.eraseP_cons, hb, cond_false, List.map_cons, List.mem_cons, not_or]
      refine ⟨fun e => hc e.symm, ih h.2 ?_⟩
      rw [List.map_cons, List.mem_cons] at hm
      rcases hm with hm | hm
      · exact absurd hm.symm hc
      · exact hm

theorem close_records_trace_append (l1 l2 : List InfSessionSync) :
    close_records_trace (l1 ++ l2) = close_records_trace l1 ++ close_records_trace l2 := by
  induction l1 with
  | nil => simp [close_records_trace]
  | cons s rest ih => simp [close_records_trace, ih]

theorem close_records_trace_cons (s : InfSessionSync) (l : List InfSessionSync) :
    close_records_trace (s :: l) = close_record_trace s ++ close_records_trace l := by
  simp [close_records_trace]

theorem close_records_trace_no_send (l : List InfSessionSync) (c : InfXmlConnection)
    (h : ∀ r ∈ l, r.conn ≠ c) (g : InfConnectionManagerGroup) (n : XmlNode) :
    Effect.send_to_connection g c n ∉ close_records_trace l
      ∧ Effect.clear_queue g c ∉ close_records_trace l
      ∧ ∀ e, Effect.emit (.synchronization_failed (some c) e) ∉ close_records_trace l := by
  induction l with
  | nil => simp [close_records_trace]
  | cons s rest ih =>
    have hs : s.conn ≠ c := h s (List.mem_cons_self _ _)
    have hs2 : ¬ c = s.conn := fun e => hs e.symm
    obtain ⟨i1, i2, i3⟩ := ih (fun r hr => h r (List.mem_cons_of_mem _ hr))
    rw [close_records_trace_cons]
    refine ⟨?_, ?_, ?_⟩
    · rw [List.mem_append, not_or]
      refine ⟨?_, i1⟩
      unfold close_record_trace
      split_ifs <;> simp [hs2]
    · rw [List.mem_append, not_or]
      refine ⟨?_, i2⟩
      unfold close_record_trace
      split_ifs <;> simp [hs2]
    · intro e
      rw [List.mem_append, not_or]
      refine ⟨?_, i3 e⟩
      unfold close_record_trace
      split_ifs <;> simp [hs2]

theorem close_synchronizing (p : InfSessionPrivate) (hs : p.status = .SYNCHRONIZING) :
    ∃ q, inf_session_close p = .ok q ∧ q.status = .CLOSED ∧ q.subscription_group = none := by
  obtain ⟨ut, st, sub, sg, sc, mt, mr, cl, rs, tr⟩ := p
  simp only at hs
  subst hs
  unfold inf_session_close g_signal_emit
  rw [signal_emission_succ]
  cases cl <;> cases sub <;> cases sg <;> cases sc <;>
  simp [inf_session_close_handler, InfSessionPrivate.log,
    inf_session_send_sync_error, inf_connection_manager_group_send_to_connection,
    signal_emission, inf_session_synchronization_failed_handler,
    inf_connection_manager_group_unref, bind, Except.bind, pure, Except.pure]

/-- A sequence of callbacks that all return keeps the roster of a Running or
Closed session duplicate-free. -/
theorem perform_all_roster (klass : InfSessionClass) (cbs : List Callback) :
    ∀ (p q : InfSessionPrivate), (p.status = .RUNNING ∨ p.status = .CLOSED) →
      (roster_connections p).Nodup → perform_all klass p cbs = .ok q →
      (q.status = .RUNNING ∨ q.status = .CLOSED) ∧ (roster_connections q).Nodup := by
  induction cbs with
  | nil =>
    intro p q hs hnd h
    simp [perform_all, pure, Except.pure] at h
    subst h
    exact ⟨hs, hnd⟩
  | cons cb rest ih =>
    intro p q hs hnd h
    simp only [perform_all, bind, Except.bind] at h
    cases h1 : perform klass p cb with
    | error e => simp [h1] at h
    | ok p1 =>
      rw [h1] at h
      rcases hs with hs | hs
      · obtain ⟨hs1, hnd1, -⟩ := running_step klass p p1 cb hs h1
        exact ih p1 q hs1 (hnd1 hnd) h
      · have := closed_step klass p p1 cb hs h1
        subst this
        exact ih p1 q (Or.inr hs) hnd h

/-! ## Closed sessions and what close leaves behind -/

theorem close_synchronizing_explicit (p : InfSessionPrivate) (c : InfXmlConnection)
    (g : InfConnectionManagerGroup)
    (hs : p.status = .SYNCHRONIZING) (hc : p.sync_conn = some c) (hg : p.sync_group = some g)
    (hcl : p.sync_closing = false) :
    inf_session_close p
      = .ok { p with
          status := .CLOSED, sync_closing := true, subscription_group := none,
          trace := p.trace ++ [.emit .close,
              .send_to_connection g c (sync_error_frame (sync_error .RECEIVER_CANCELLED)),
              .emit (.synchronization_failed (some c) (sync_error .RECEIVER_CANCELLED)),
              .group_unref g]
            ++ subscription_release p.subscription_group ++ [.notify "status"] } := by
  obtain ⟨ut, st, sub, sg, sc, mt, mr, cl, rs, tr⟩ := p
  simp only at hs hc hg hcl
  subst hs hc hg hcl
  unfold inf_session_close g_signal_emit
  rw [signal_emission_succ]
  cases sub <;>
  simp [inf_session_close_handler, InfSessionPrivate.log, subscription_release,
    inf_session_send_sync_error, inf_connection_manager_group_send_to_connection,
    signal_emission, inf_session_synchronization_failed_handler, sync_error_frame,
    xmlNewProp, xmlNewNode,
    inf_connection_manager_group_unref, bind, Except.bind, pure, Except.pure]

theorem closed_received (klass : InfSessionClass) (p : InfSessionPrivate)
    (c : InfXmlConnection) (node : XmlNode) (hs : p.status = .CLOSED) :
    inf_session_net_object_received klass p c node = .error Fault.assertion := by
  simp [inf_session_net_object_received, hs, throw, throwThe, MonadExceptOf.throw]

theorem closed_notify_status (p : InfSessionPrivate) (c : InfXmlConnection)
    (st : InfXmlConnectionStatus) (hs : p.status = .CLOSED)
    (hst : st = .CLOSED ∨ st = .CLOSING) :
    inf_session_connection_notify_status_cb p c st = .error Fault.assertion := by
  simp [inf_session_connection_notify_status_cb, hs, hst, throw, throwThe, MonadExceptOf.throw]

theorem closed_enqueued (p : InfSessionPrivate) (c : InfXmlConnection) (node : XmlNode)
    (hs : p.status = .CLOSED) :
    inf_session_net_object_enqueued p c node
      = if node.name = "sync-end" then .error Fault.assertion else .ok p := by
  have hf : inf_session_find_sync_by_connection p (some c) = none := by
    simp [inf_session_find_sync_by_connection, hs]
  by_cases hn : node.name = "sync-end"
  · simp [inf_session_net_object_enqueued, hf, hn, throw, throwThe, MonadExceptOf.throw]
  · simp [inf_session_net_object_enqueued, hn, pure, Except.pure]

theorem closed_sent (p : InfSessionPrivate) (c : InfXmlConnection) (node : XmlNode)
    (hs : p.status = .CLOSED) : inf_session_net_object_sent p c node = .ok p := by
  simp [inf_session_net_object_sent, hs, pure, Except.pure]

theorem watched_append (tr t : List Effect) (c : InfXmlConnection)
    (hno : Effect.signal_disconnect c ∉ t) (hw : watched tr c = true) :
    watched (tr ++ t) c = true := by
  unfold watched at hw ⊢
  simp only [decide_eq_true_eq, List.count_append] at hw ⊢
  have h0 : List.count (Effect.signal_disconnect c) t = 0 := List.count_eq_zero_of_not_mem hno
  omega

theorem no_disconnect_in_subscription_release (sub : Option InfConnectionManagerGroup)
    (c : InfXmlConnection) :
    Effect.signal_disconnect c ∉ subscription_release sub
      ∧ Effect.object_unref c ∉ subscription_release sub := by
  cases sub <;> simp [subscription_release]

theorem failed_synchronizing_keeps_watcher (p : InfSessionPrivate) (c : InfXmlConnection)
    (g : InfConnectionManagerGroup) (e : GError)
    (hs : p.status = .SYNCHRONIZING) (hc : p.sync_conn = some c) (hg : p.sync_group = some g)
    (hcl : p.sync_closing = false) (hw : watched p.trace c = true) :
    ∃ q, g_signal_emit (.synchronization_failed (some c) e) p = .ok q
      ∧ q.status = .CLOSED ∧ q.sync_conn = some c ∧ q.sync_group = some g
      ∧ watched q.trace c = true := by
  refine ⟨_, g_signal_emit_failed_synchronizing p c g e hs hc hg hcl, rfl, hc, hg, ?_⟩
  simp only [List.append_assoc]
  apply watched_append _ _ _ _ hw
  have := (no_disconnect_in_subscription_release p.subscription_group c).1
  simp [this]

theorem close_synchronizing_watcher (p : InfSessionPrivate) (c : InfXmlConnection)
    (g : InfConnectionManagerGroup)
    (hs : p.status = .SYNCHRONIZING) (hc : p.sync_conn = some c) (hg : p.sync_group = some g)
    (hcl : p.sync_closing = false) (hw : watched p.trace c = true) :
    ∃ q, inf_session_close p = .ok q
      ∧ q.status = .CLOSED ∧ q.sync_conn = some c ∧ q.sync_group = some g
      ∧ watched q.trace c = true := by
  refine ⟨_, close_synchronizing_explicit p c g hs hc hg hcl, rfl, hc, hg, ?_⟩
  simp only [List.append_assoc]
  apply watched_append _ _ _ _ hw
  have := (no_disconnect_in_subscription_release p.subscription_group c).1
  simp [this]

/-! ## Validation of user properties -/

theorem lookup_ptr_in_use {κ : Type} [DecidableEq κ] (key : InfUser → κ) (table : InfUserTable)
    (k : κ) (exclude : Option InfUserPtr)
    (h : ∀ i, exclude = some (.held i) → i < table.length → (table.map key).Nodup) :
    ((table.findIdx? (fun u => key u == k)).map InfUserPtr.held ≠ none
        ∧ (table.findIdx? (fun u => key u == k)).map InfUserPtr.held ≠ exclude)
      ↔ ∃ x ∈ table.enum, key x.2 = k ∧ some (InfUserPtr.held x.1) ≠ exclude := by
  constructor
  · rintro ⟨h1, h2⟩
    cases hf : table.findIdx? (fun u => key u == k) with
    | none => simp [hf] at h1
    | some i =>
      obtain ⟨hi, hp, -⟩ := List.findIdx?_eq_some_iff_getElem.mp hf
      refine ⟨(i, table[i]), ?_, ?_, ?_⟩
      · rw [List.mem_enum_iff_getElem?]
        simp [hi]
      · simpa using hp
      · simpa [hf] using h2
  · rintro ⟨⟨j, u⟩, hm, hk, hne⟩
    rw [List.mem_enum_iff_getElem?] at hm
    simp only at hm hk hne
    cases hf : table.findIdx? (fun u => key u == k) with
    | none =>
      rw [List.findIdx?_eq_none_iff] at hf
      have hu : u ∈ table := List.mem_iff_getElem?.mpr ⟨j, hm⟩
      have := hf u hu
      simp [hk] at this
    | some i =>
      refine ⟨by simp, ?_⟩
      intro he
      obtain ⟨hi, hp, -⟩ := List.findIdx?_eq_some_iff_getElem.mp hf
      have hnd := h i (by simpa using he.symm) hi
      have hj : j < table.length := (List.getElem?_eq_some_iff.mp hm).1
      have hju : table[j] = u := (List.getElem?_eq_some_iff.mp hm).2
      have hki : key table[i] = k := by simpa using hp
      have hij : i = j := by
        have hi2 : i < (table.map key).length := by simpa using hi
        have hj2 : j < (table.map key).length := by simpa using hj
        have heq : (table.map key)[i] = (table.map key)[j] := by
          simp [hki, hju, hk]
        exact (List.Nodup.getElem_inj_iff hnd).mp heq
      subst hij
      exact hne (by simpa using he)

theorem lookup_by_id_in_use (table : InfUserTable) (id : Nat) (exclude : Option InfUserPtr)
    (h : ∀ i, exclude = some (.held i) → i < table.length →
      (table.map (fun u => u.id)).Nodup) :
    (inf_user_table_lookup_user_by_id table id ≠ none
        ∧ inf_user_table_lookup_user_by_id table id ≠ exclude)
      ↔ id_in_use table id exclude :=
  lookup_ptr_in_use (fun u => u.id) table id exclude h

theorem lookup_by_name_in_use (table : InfUserTable) (name : Option String)
    (exclude : Option InfUserPtr)
    (h : ∀ i, exclude = some (.held i) → i < table.length →
      (table.map (fun u => u.name)).Nodup) :
    (inf_user_table_lookup_user_by_name table name ≠ none
        ∧ inf_user_table_lookup_user_by_name table name ≠ exclude)
      ↔ name_in_use table name exclude := by
  cases name with
  | none => simp [inf_user_table_lookup_user_by_name, name_in_use]
  | some n =>
    have := lookup_ptr_in_use (fun u => u.name) table n exclude h
    simpa [inf_user_table_lookup_user_by_name, name_in_use] using this

theorem validate_eq_reference (priv : InfSessionPrivate) (params : List GParameter)
    (exclude : Option InfUserPtr)
    (hinv : ∀ i, exclude = some (.held i) → i < priv.user_table.length →
      user_table_invariant priv.user_table) :
    inf_session_validate_user_props_impl priv params exclude
      = validate_user_props_reference priv.user_table params exclude := by
  have hi : ∀ i, exclude = some (.held i) → i < priv.user_table.length →
      (priv.user_table.map (fun u => u.id)).Nodup :=
    fun i h hl => (hinv i h hl).1
  have hn : ∀ i, exclude = some (.held i) → i < priv.user_table.length →
      (priv.user_table.map (fun u => u.name)).Nodup :=
    fun i h hl => (hinv i h hl).2
  unfold inf_session_validate_user_props_impl validate_user_props_reference
  cases hid : inf_session_lookup_user_property params "id" with
  | none => rfl
  | some idp =>
    simp only [lookup_by_id_in_use priv.user_table _ exclude hi]
    by_cases h1 : id_in_use priv.user_table (g_value_get_uint idp.value) exclude
    · simp [h1]
    · simp only [h1, if_false]
      cases hname : inf_session_lookup_user_property params "name" with
      | none => rfl
      | some namep =>
        simp only [lookup_by_name_in_use priv.user_table _ exclude hn]

theorem lookup_by_id_none_iff (table : InfUserTable) (id : Nat) :
    inf_user_table_lookup_user_by_id table id = none ↔ id ∉ table.map (fun u => u.id) := by
  constructor
  · intro h hm
    obtain ⟨u, hu, hid⟩ := List.mem_map.mp hm
    simp only [inf_user_table_lookup_user_by_id, Option.map_eq_none',
      List.findIdx?_eq_none_iff] at h
    have := h u hu
    simp [hid] at this
  · exact find_id_none table id

theorem lookup_by_name_none_iff (table : InfUserTable) (name : String) :
    inf_user_table_lookup_user_by_name table (some name) = none
      ↔ name ∉ table.map (fun u => u.name) := by
  constructor
  · intro h hm
    obtain ⟨u, hu, hid⟩ := List.mem_map.mp hm
    simp only [inf_user_table_lookup_user_by_name, Option.map_eq_none',
      List.findIdx?_eq_none_iff] at h
    have := h u hu
    simp [hid] at this
  · exact find_name_none table name
/-! ## Well-formed outbound records -/

theorem mem_update_sync (syncs : List InfSessionSync) (c : InfXmlConnection)
    (f : InfSessionSync → InfSessionSync) (s2 : InfSessionSync)
    (h : s2 ∈ update_sync syncs c f) :
    s2 ∈ syncs ∨ ∃ s, syncs.find? (fun s => some s.conn == some c) = some s ∧ s2 = f s := by
  induction syncs with
  | nil => simp [update_sync] at h
  | cons s rest ih =>
    by_cases hc : s.conn = c
    · simp only [update_sync, hc, if_true, List.mem_cons] at h
      rcases h with h | h
      · exact Or.inr ⟨s, by simp [hc], h⟩
      · exact Or.inl (List.mem_cons_of_mem _ h)
    · simp only [update_sync, hc, if_false, List.mem_cons] at h
      rcases h with h | h
      · exact Or.inl (by simp [h])
      · rcases ih h with h1 | ⟨s0, h1, h2⟩
        · exact Or.inl (List.mem_cons_of_mem _ h1)
        · refine Or.inr ⟨s0, ?_, h2⟩
          rw [List.find?_cons_of_neg _ (by simp [hc])]
          exact h1

theorem roster_sound_erase (p : InfSessionPrivate) (P : InfSessionSync → Bool)
    (h : roster_sound p) : ∀ s ∈ p.run_syncs.eraseP P, record_sound s :=
  fun s hs => h s ((List.eraseP_sublist _).subset hs)

/-- One callback on a Running session keeps every record of the roster
well-formed, when the content enumerator of the class never produces more
items than the message counter can count. -/
theorem running_step_sound (klass : InfSessionClass)
    (hk : ∀ s, (klass.to_xml_sync s).length + 2 < 2 ^ 32)
    (p q : InfSessionPrivate) (cb : Callback)
    (hs : p.status = .RUNNING) (hsound : roster_sound p) (h : perform klass p cb = .ok q) :
    roster_sound q := by
  cases cb with
  | synchronize_to g c2 =>
    simp only [perform] at h
    cases hf : inf_session_find_sync_by_connection p (some c2) with
    | some sync =>
      have : inf_session_synchronize_to klass p g c2 = .ok p := by
        simp [inf_session_synchronize_to, hs, hf, pure, Except.pure]
      rw [this] at h
      cases h
      exact hsound
    | none =>
      cases hm : inf_connection_manager_group_has_connection g c2 with
      | false =>
        have : inf_session_synchronize_to klass p g c2 = .error Fault.assertion := by
          simp [inf_session_synchronize_to, hs, hf, hm, throw, throwThe, MonadExceptOf.throw]
        rw [this] at h
        cases h
      | true =>
        rw [synchronize_to_general klass p g c2 _ hs hf hm rfl] at h
        cases h
        intro s hmem
        simp only [List.mem_cons] at hmem
        rcases hmem with hmem | hmem
        · subst hmem
          have hcount := count_messages (klass.to_xml_sync { p with
              run_syncs := ⟨g, c2, 2, 0, .IN_PROGRESS⟩ :: p.run_syncs,
              trace := p.trace ++ [.object_ref c2, .signal_connect c2, .group_ref g] }) 2
          have hlen := hk { p with
              run_syncs := ⟨g, c2, 2, 0, .IN_PROGRESS⟩ :: p.run_syncs,
              trace := p.trace ++ [.object_ref c2, .signal_connect c2, .group_ref g] }
          have h2 : guint 2 = 2 := by decide
          rw [h2] at hcount
          refine ⟨Or.inl rfl, Nat.zero_le _, ?_, ?_⟩
          · show 2 ≤ List.foldl _ 2 _
            rw [hcount]
            unfold guint
            omega
          · show List.foldl _ 2 _ < 2 ^ 32
            rw [hcount]
            unfold guint
            omega
        · exact hsound s hmem
  | sent c2 node =>
    simp only [perform] at h
    cases hf : inf_session_find_sync_by_connection p (some c2) with
    | none =>
      rw [sent_no_record p c2 node hf] at h
      cases h
      exact hsound
    | some sync =>
      rw [sent_running p c2 node sync hs hf] at h
      split_ifs at h with hlt
      cases h
      intro s hmem
      rcases mem_update_sync _ _ _ _ hmem with h1 | ⟨s0, h1, h2⟩
      · exact hsound s h1
      · have hs0 : s0 ∈ p.run_syncs := List.mem_of_find?_eq_some h1
        have hsync : sync = s0 := by
          rw [find_sync_running p _ hs, h1] at hf
          exact (Option.some.inj hf).symm
        subst hsync
        obtain ⟨i1, i2, i3, i4⟩ := hsound sync hs0
        subst h2
        refine ⟨i1, ?_, i3, i4⟩
        show guint (sync.messages_sent + 1) ≤ sync.messages_total
        unfold guint
        omega
  | enqueued c2 node =>
    simp only [perform, inf_session_net_object_enqueued] at h
    split_ifs at h
    · split at h
      · cases h
      · split_ifs at h
        cases h
        intro s hmem
        rcases mem_update_sync _ _ _ _ hmem with h1 | ⟨s0, h1, h2⟩
        · exact hsound s h1
        · obtain ⟨-, i2, i3, i4⟩ := hsound s0 (List.mem_of_find?_eq_some h1)
          subst h2
          exact ⟨Or.inr rfl, i2, i3, i4⟩
    · cases h
      exact hsound
  | received c2 node =>
    simp only [perform] at h
    cases hf : inf_session_find_sync_by_connection p (some c2) with
    | none =>
      rw [received_running_no_record klass p c2 node hs hf] at h
      cases h
      exact hsound
    | some sync =>
      by_cases hn1 : node.name = "sync-error"
      · rw [received_running_sync_error klass p c2 node sync hs hf hn1] at h
        cases h
        exact roster_sound_erase p _ hsound
      · by_cases hn2 : node.name = "sync-ack" ∧ sync.status = .AWAITING_ACK
        · rw [received_running_sync_ack klass p c2 node sync hs hf hn2.1 hn2.2] at h
          cases h
          exact roster_sound_erase p _ hsound
        · rw [received_running_ignored klass p c2 node sync hs hf hn1 hn2] at h
          cases h
          exact hsound
  | notify_status c2 st =>
    simp only [perform] at h
    by_cases hst : st = .CLOSED ∨ st = .CLOSING
    · cases hf : inf_session_find_sync_by_connection p (some c2) with
      | none =>
        simp [inf_session_connection_notify_status_cb, hst, hs, hf, throw, throwThe,
          MonadExceptOf.throw] at h
      | some sync =>
        rw [notify_status_running p c2 st sync hs hf hst] at h
        cases h
        exact roster_sound_erase p _ hsound
    · rw [notify_status_other p c2 st hst] at h
      cases h
      exact hsound
  | close =>
    simp only [perform] at h
    rw [close_running p hs] at h
    cases h
    intro s hmem
    simp at hmem

/-- A sequence of callbacks that all return keeps the roster of a Running or
Closed session well-formed. -/
theorem perform_all_sound (klass : InfSessionClass)
    (hk : ∀ s, (klass.to_xml_sync s).length + 2 < 2 ^ 32) (cbs : List Callback) :
    ∀ (p q : InfSessionPrivate), (p.status = .RUNNING ∨ p.status = .CLOSED) →
      roster_sound p → perform_all klass p cbs = .ok q →
      (q.status = .RUNNING ∨ q.status = .CLOSED) ∧ roster_sound q := by
  induction cbs with
  | nil =>
    intro p q hs hnd h
    simp [perform_all, pure, Except.pure] at h
    subst h
    exact ⟨hs, hnd⟩
  | cons cb rest ih =>
    intro p q hs hnd h
    simp only [perform_all, bind, Except.bind] at h
    cases h1 : perform klass p cb with
    | error e => simp [h1] at h
    | ok p1 =>
      rw [h1] at h
      rcases hs with hs | hs
      · obtain ⟨hs1, -, -⟩ := running_step klass p p1 cb hs h1
        exact ih p1 q hs1 (running_step_sound klass hk p p1 cb hs hnd h1) h
      · have := closed_step klass p p1 cb hs h1
        subst this
        exact ih p1 q (Or.inr hs) hnd h

theorem status_running (p : InfSessionPrivate) (c : InfXmlConnection)
    (hs : p.status = .RUNNING) :
    inf_session_get_synchronization_status p c
      = match inf_session_find_sync_by_connection p (some c) with
        | none => .NONE
        | some sync => sync.status := by
  simp [inf_session_get_synchronization_status, hs]

theorem find_sync_none_iff (p : InfSessionPrivate) (c : InfXmlConnection)
    (hs : p.status = .RUNNING) :
    inf_session_find_sync_by_connection p (some c) = none ↔ c ∉ roster_connections p := by
  constructor
  · exact find_sync_none_not_mem p c hs
  · intro hn
    rw [find_sync_running p _ hs, List.find?_eq_none]
    intro s hmem hc
    exact hn (List.mem_map.mpr ⟨s, hmem, by simpa using hc⟩)

/-! ## Construction and the two-user run -/

theorem constructor_sync (c : InfXmlConnection) (g : InfConnectionManagerGroup) :
    inf_session_constructor [.connection_manager, .sync_connection (some c),
        .sync_group (some g)]
      = .ok (registered_session c g) := by
  simp [inf_session_constructor, List.foldlM, inf_session_set_property, inf_session_init,
    inf_session_init_sync, inf_session_register_sync, InfSessionPrivate.log, bind, Except.bind,
    pure, Except.pure, registered_session]

theorem deliver_two_users (c : InfXmlConnection) (g : InfConnectionManagerGroup) :
    deliver example_class c (registered_session c g) example_two_users
      = .ok { registered_session c g with
          user_table := [⟨1, "Ann", .AVAILABLE⟩, ⟨2, "Bob", .AVAILABLE⟩],
          status := .RUNNING, sync_conn := none, sync_group := none,
          sync_messages_total := 4, sync_messages_received := 4, run_syncs := [],
          trace := (registered_session c g).trace
            ++ [.emit (.synchronization_progress c 1 4),
              .emit (.synchronization_progress c 2 4),
              .emit (.synchronization_progress c 3 4),
              .send_to_connection g c (xmlNewNode "sync-ack"),
              .emit (.synchronization_complete c), .group_unref g,
              .signal_disconnect c, .object_unref c, .notify "status"] } := by
  have hb := sync_begin_received example_class (registered_session c g) c
    ⟨"sync-begin", [("num-messages", "2")]⟩ 2 rfl rfl rfl rfl (by decide) (by decide)
  have ha : sync_user_frame ⟨1, "Ann", .AVAILABLE⟩
      = ⟨"sync-user", [("id", "1"), ("name", "Ann"), ("status", "available")]⟩ := by decide
  have hbo : sync_user_frame ⟨2, "Bob", .AVAILABLE⟩
      = ⟨"sync-user", [("id", "2"), ("name", "Bob"), ("status", "available")]⟩ := by decide
  simp only [example_two_users, deliver_cons, hb, ← ha, ← hbo, bind, Except.bind]
  rw [received_sync_user _ c ⟨1, "Ann", .AVAILABLE⟩ rfl rfl (by show 0 < _; norm_num) (by show _ < (2 + 2 : Nat); norm_num)
    (by show (2 + 2 : Nat) < _; norm_num)
    (by decide) (by simp [registered_session, inf_session_init])
    (by simp [registered_session, inf_session_init])]
  simp only
  rw [received_sync_user _ c ⟨2, "Bob", .AVAILABLE⟩ rfl rfl (by show 0 < _; norm_num) (by show _ < (2 + 2 : Nat); norm_num)
    (by show (2 + 2 : Nat) < _; norm_num)
    (by decide) (by simp [registered_session, inf_session_init])
    (by simp [registered_session, inf_session_init])]
  simp only
  rw [received_sync_end example_class _ c g ⟨"sync-end", []⟩ rfl rfl rfl
    (by show (1 + 1 + 1 : Nat) < _; norm_num) (by show (2 + 2 : Nat) < _; norm_num) rfl
    (by show (1 + 1 + 1 : Nat) = guint_sub (2 + 2) 1; norm_num [guint_sub])]
  simp [deliver_nil, registered_session, inf_session_init, xmlNewNode]

/-! ## Connection-status handlers of a Running session -/

theorem count_sends (items : List XmlNode) (g : InfConnectionManagerGroup)
    (c : InfXmlConnection) (e : Effect) (he : ∀ xml, e ≠ Effect.send_to_connection g c xml) :
    (items.map (fun xml => Effect.send_to_connection g c xml)).count e = 0 := by
  apply List.count_eq_zero_of_not_mem
  intro hm
  obtain ⟨xml, -, hx⟩ := List.mem_map.mp hm
  exact he xml hx.symm

theorem count_close_records (syncs : List InfSessionSync) (c : InfXmlConnection) :
    (close_records_trace syncs).count (.signal_connect c) = 0
      ∧ (close_records_trace syncs).count (.signal_disconnect c)
        = (syncs.map (fun s => s.conn)).count c := by
  induction syncs with
  | nil => simp [close_records_trace]
  | cons s rest ih =>
    rw [close_records_trace_cons, List.count_append, List.count_append, ih.1, ih.2]
    constructor
    · unfold close_record_trace
      split_ifs <;> simp [List.count_cons]
    · by_cases hc : s.conn = c
      · unfold close_record_trace
        split_ifs <;> simp [List.count_cons, hc] <;> omega
      · have hc2 : ¬ c = s.conn := fun e => hc e.symm
        unfold close_record_trace
        split_ifs <;> simp [List.count_cons, hc, hc2]

theorem count_subscription_release (sub : Option InfConnectionManagerGroup)
    (c : InfXmlConnection) :
    (subscription_release sub).count (.signal_connect c) = 0
      ∧ (subscription_release sub).count (.signal_disconnect c) = 0 := by
  cases sub <;> simp [subscription_release, List.count_cons]

theorem count_erase_conns (syncs : List InfSessionSync) (c c2 : InfXmlConnection)
    (hm : c2 ∈ syncs.map (fun s => s.conn)) :
    ((syncs.eraseP (fun s => some s.conn == some c2)).map (fun s => s.conn)).count c
        + (if c2 = c then 1 else 0)
      = (syncs.map (fun s => s.conn)).count c := by
  induction syncs with
  | nil => simp at hm
  | cons s rest ih =>
    by_cases hc : s.conn = c2
    · simp only [List.eraseP_cons, hc, beq_self_eq_true, cond_true, List.map_cons,
        List.count_cons]
      by_cases h2 : c2 = c
      · simp [h2]
      · simp [h2]
    · have hb : (some s.conn == some c2) = false := by simp [hc]
      have hm2 : c2 ∈ rest.map (fun s => s.conn) := by
        rw [List.map_cons, List.mem_cons] at hm
        rcases hm with hm | hm
        · exact absurd hm.symm hc
        · exact hm
      simp only [List.eraseP_cons, hb, cond_false, List.map_cons, List.count_cons]
      have := ih hm2
      omega

theorem balanced_erase (p : InfSessionPrivate) (c2 : InfXmlConnection)
    (t1 : List Effect) (g : InfConnectionManagerGroup)
    (ht1 : ∀ c, t1.count (.signal_connect c) = 0 ∧ t1.count (.signal_disconnect c) = 0)
    (hm : c2 ∈ roster_connections p) (hb : watch_balanced p) :
    watch_balanced { p with
      run_syncs := p.run_syncs.eraseP (fun s => some s.conn == some c2),
      trace := p.trace ++ (t1 ++ [.group_unref g, .signal_disconnect c2, .object_unref c2]) } := by
  intro c
  have h1 := hb c
  have h2 := count_erase_conns p.run_syncs c c2 hm
  obtain ⟨h3, h4⟩ := ht1 c
  simp only [roster_connections] at h1 ⊢
  simp only [List.count_append, List.count_cons, List.count_nil, h3, h4]
  by_cases hc : c2 = c
  · simp [hc] at h2 ⊢
    omega
  · simp [hc] at h2 ⊢
    omega

/-- One callback on a Running session keeps the connection-status handlers
in step with the roster. -/
theorem running_step_balanced (klass : InfSessionClass) (p q : InfSessionPrivate)
    (cb : Callback) (hs : p.status = .RUNNING) (hb : watch_balanced p)
    (h : perform klass p cb = .ok q) : watch_balanced q := by
  cases cb with
  | synchronize_to g c2 =>
    simp only [perform] at h
    cases hf : inf_session_find_sync_by_connection p (some c2) with
    | some sync =>
      have : inf_session_synchronize_to klass p g c2 = .ok p := by
        simp [inf_session_synchronize_to, hs, hf, pure, Except.pure]
      rw [this] at h
      cases h
      exact hb
    | none =>
      cases hm : inf_connection_manager_group_has_connection g c2 with
      | false =>
        have : inf_session_synchronize_to klass p g c2 = .error Fault.assertion := by
          simp [inf_session_synchronize_to, hs, hf, hm, throw, throwThe, MonadExceptOf.throw]
        rw [this] at h
        cases h
      | true =>
        rw [synchronize_to_general klass p g c2 _ hs hf hm rfl] at h
        cases h
        intro c
        have h1 := hb c
        simp only [roster_connections] at h1 ⊢
        simp only [List.count_append, List.count_cons, List.count_nil, List.map_cons,
          count_sends _ g c2 (.signal_connect c) (fun _ => by simp),
          count_sends _ g c2 (.signal_disconnect c) (fun _ => by simp)]
        by_cases hc : c2 = c
        · simp [hc]
          omega
        · simp [hc]
          omega
  | sent c2 node =>
    simp only [perform] at h
    cases hf : inf_session_find_sync_by_connection p (some c2) with
    | none =>
      rw [sent_no_record p c2 node hf] at h
      cases h
      exact hb
    | some sync =>
      rw [sent_running p c2 node sync hs hf] at h
      split_ifs at h with hlt
      cases h
      intro c
      have h1 := hb c
      simp only [roster_connections] at h1 ⊢
      rw [update_sync_conns p.run_syncs c2
        (fun s => { s with messages_sent := guint (sync.messages_sent + 1) }) (fun _ => rfl)]
      simpa [List.count_append, List.count_cons] using h1
  | enqueued c2 node =>
    simp only [perform, inf_session_net_object_enqueued] at h
    split_ifs at h
    · split at h
      · cases h
      · split_ifs at h
        cases h
        intro c
        have h1 := hb c
        simp only [roster_connections] at h1 ⊢
        rw [update_sync_conns p.run_syncs c2
          (fun s => { s with status := .AWAITING_ACK }) (fun _ => rfl)]
        exact h1
    · cases h
      exact hb
  | received c2 node =>
    simp only [perform] at h
    cases hf : inf_session_find_sync_by_connection p (some c2) with
    | none =>
      rw [received_running_no_record klass p c2 node hs hf] at h
      cases h
      exact hb
    | some sync =>
      have hmem : c2 ∈ roster_connections p := by
        obtain ⟨h1, h2⟩ := find_sync_some_conn p c2 sync hf
        exact List.mem_map.mpr ⟨sync, h2, h1⟩
      by_cases hn1 : node.name = "sync-error"
      · rw [received_running_sync_error klass p c2 node sync hs hf hn1] at h
        cases h
        exact balanced_erase p c2
          [.clear_queue sync.group c2,
            .emit (.synchronization_failed (some c2) (remote_sync_error node))]
          sync.group (fun c => by simp [List.count_cons]) hmem hb
      · by_cases hn2 : node.name = "sync-ack" ∧ sync.status = .AWAITING_ACK
        · rw [received_running_sync_ack klass p c2 node sync hs hf hn2.1 hn2.2] at h
          cases h
          exact balanced_erase p c2 [.emit (.synchronization_complete c2)]
            sync.group (fun c => by simp [List.count_cons]) hmem hb
        · rw [received_running_ignored klass p c2 node sync hs hf hn1 hn2] at h
          cases h
          exact hb
  | notify_status c2 st =>
    simp only [perform] at h
    by_cases hst : st = .CLOSED ∨ st = .CLOSING
    · cases hf : inf_session_find_sync_by_connection p (some c2) with
      | none =>
        simp [inf_session_connection_notify_status_cb, hst, hs, hf, throw, throwThe,
          MonadExceptOf.throw] at h
      | some sync =>
        have hmem : c2 ∈ roster_connections p := by
          obtain ⟨h1, h2⟩ := find_sync_some_conn p c2 sync hf
          exact List.mem_map.mpr ⟨sync, h2, h1⟩
        rw [notify_status_running p c2 st sync hs hf hst] at h
        cases h
        exact balanced_erase p c2
          [.emit (.synchronization_failed (some c2) (sync_error .CONNECTION_CLOSED))]
          sync.group (fun c => by simp [List.count_cons]) hmem hb
    · rw [notify_status_other p c2 st hst] at h
      cases h
      exact hb
  | close =>
    simp only [perform] at h
    rw [close_running p hs] at h
    cases h
    intro c
    have h1 := hb c
    obtain ⟨h2, h3⟩ := count_close_records p.run_syncs c
    obtain ⟨h4, h5⟩ := count_subscription_release p.subscription_group c
    simp only [roster_connections] at h1 ⊢
    simp only [List.count_append, List.count_cons, List.count_nil, h2, h3, h4, h5,
      List.map_nil]
    simp
    omega

/-- A sequence of callbacks that all return keeps the connection-status
handlers of a Running or Closed session in step with its roster. -/
theorem perform_all_balanced (klass : InfSessionClass) (cbs : List Callback) :
    ∀ (p q : InfSessionPrivate), (p.status = .RUNNING ∨ p.status = .CLOSED) →
      watch_balanced p → perform_all klass p cbs = .ok q →
      (q.status = .RUNNING ∨ q.status = .CLOSED) ∧ watch_balanced q := by
  induction cbs with
  | nil =>
    intro p q hs hnd h
    simp [perform_all, pure, Except.pure] at h
    subst h
    exact ⟨hs, hnd⟩
  | cons cb rest ih =>
    intro p q hs hnd h
    simp only [perform_all, bind, Except.bind] at h
    cases h1 : perform klass p cb with
    | error e => simp [h1] at h
    | ok p1 =>
      rw [h1] at h
      rcases hs with hs | hs
      · obtain ⟨hs1, -, -⟩ := running_step klass p p1 cb hs h1
        exact ih p1 q hs1 (running_step_balanced klass p p1 cb hs hnd h1) h
      · have := closed_step klass p p1 cb hs h1
        subst this
        exact ih p1 q (Or.inr hs) hnd h

/-- Close of a Running session whose handlers are those of its roster leaves
no connection-status handler connected and no record. -/
theorem close_running_unwatched (p : InfSessionPrivate) (hs : p.status = .RUNNING)
    (hb : watch_balanced p) :
    ∃ q, inf_session_close p = .ok q ∧ q.status = .CLOSED ∧ q.run_syncs = []
      ∧ ∀ c, watched q.trace c = false := by
  refine ⟨_, close_running p hs, rfl, rfl, fun c => ?_⟩
  have h1 := hb c
  obtain ⟨h2, h3⟩ := count_close_records p.run_syncs c
  obtain ⟨h4, h5⟩ := count_subscription_release p.subscription_group c
  simp only [roster_connections] at h1
  simp only [watched, decide_eq_false_iff_not, List.count_append, List.count_cons,
    List.count_nil, h2, h3, h4, h5]
  simp
  omega

theorem init_balanced : watch_balanced inf_session_init := by
  intro c
  simp [inf_session_init, roster_connections]

/-! ## Progress fractions without wrap-around -/

theorem running_progress_in_unit (p : InfSessionPrivate) (c : InfXmlConnection)
    (sync : InfSessionSync) (hs : p.status = .RUNNING)
    (hf : inf_session_find_sync_by_connection p (some c) = some sync)
    (hsound : roster_sound p) :
    inf_session_get_synchronization_progress p c
        = .ok (sync.messages_sent, sync.messages_total)
      ∧ fraction_in_unit (sync.messages_sent, sync.messages_total) := by
  obtain ⟨i1, i2, i3, -⟩ := hsound sync (find_sync_some_conn p c sync hf).2
  have hst : inf_session_get_synchronization_status p c = sync.status := by
    rw [status_running p c hs, hf]
  have hne : sync.status ≠ .NONE := by
    rcases i1 with h | h <;> rw [h] <;> decide
  constructor
  · simp [inf_session_get_synchronization_progress, hst, hne, hs, hf, pure, Except.pure]
  · exact ⟨by show 0 < sync.messages_total; omega, i2⟩

theorem progress_fractions_append (t1 t2 : List Effect) (c : InfXmlConnection) :
    progress_fractions (t1 ++ t2) c = progress_fractions t1 c ++ progress_fractions t2 c := by
  simp [progress_fractions, List.filterMap_append]

/-- Outbound: a frame-sent callback for a well-formed record with s < T emits
the fraction (s + 1) / T, which lies in [0, 1] and is not below s / T. -/
theorem sent_progress_fraction (p q : InfSessionPrivate) (c : InfXmlConnection)
    (node : XmlNode) (sync : InfSessionSync) (hs : p.status = .RUNNING)
    (hf : inf_session_find_sync_by_connection p (some c) = some sync)
    (hsound : roster_sound p) (h : inf_session_net_object_sent p c node = .ok q) :
    progress_fractions q.trace c
        = progress_fractions p.trace c ++ [(sync.messages_sent + 1, sync.messages_total)]
      ∧ fraction_in_unit (sync.messages_sent + 1, sync.messages_total)
      ∧ fraction_le (sync.messages_sent, sync.messages_total)
          (sync.messages_sent + 1, sync.messages_total) := by
  obtain ⟨-, i2, i3, i4⟩ := hsound sync (find_sync_some_conn p c sync hf).2
  rw [sent_running p c node sync hs hf] at h
  split_ifs at h with hlt
  cases h
  have hg : guint (sync.messages_sent + 1) = sync.messages_sent + 1 := by
    unfold guint
    omega
  refine ⟨?_, ⟨by show 0 < sync.messages_total; omega, by show _ ≤ sync.messages_total; omega⟩,
    ?_⟩
  · simp [progress_fractions_append, progress_fractions, hg]
  · show sync.messages_sent * sync.messages_total
      ≤ (sync.messages_sent + 1) * sync.messages_total
    exact Nat.mul_le_mul_right _ (Nat.le_succ _)

/-- Inbound: a content frame that the processor accepts inside the window
0 < r, r + 1 < M emits the fraction (r + 1) / M, which lies in [0, 1] and is
not below r / M. -/
theorem received_content_progress (klass : InfSessionClass) (p : InfSessionPrivate)
    (c : InfXmlConnection) (node : XmlNode)
    (hs : p.status = .SYNCHRONIZING) (hc : p.sync_conn = some c)
    (hn : is_content_frame node)
    (h0 : 0 < p.sync_messages_received)
    (h1 : p.sync_messages_received + 1 < p.sync_messages_total)
    (hM : p.sync_messages_total < 2 ^ 32)
    (hacc : (klass.process_xml_sync p c node).1 = true) :
    inf_session_net_object_received klass p c node
        = .ok (false, none, { p with
            user_table := (klass.process_xml_sync p c node).2.2,
            sync_messages_received := p.sync_messages_received + 1,
            trace := p.trace ++ [.emit (.synchronization_progress c
              (p.sync_messages_received + 1) p.sync_messages_total)] })
      ∧ fraction_in_unit (p.sync_messages_received + 1, p.sync_messages_total)
      ∧ fraction_le (p.sync_messages_received, p.sync_messages_total)
          (p.sync_messages_received + 1, p.sync_messages_total) := by
  have hh := handle_content_window klass p c node hs hn h0 h1 hM
  rw [if_pos hacc] at hh
  refine ⟨?_, ⟨by show 0 < p.sync_messages_total; omega,
    by show _ ≤ p.sync_messages_total; omega⟩, ?_⟩
  · simp [inf_session_net_object_received, hs, hc, hh, bind, Except.bind, pure, Except.pure]
  · show p.sync_messages_received * p.sync_messages_total
      ≤ (p.sync_messages_received + 1) * p.sync_messages_total
    exact Nat.mul_le_mul_right _ (Nat.le_succ _)

/-! ## Inbound failures -/

theorem received_failure (klass : InfSessionClass)
    (p p1 : InfSessionPrivate) (c : InfXmlConnection) (g : InfConnectionManagerGroup)
    (node : XmlNode) (e : GError)
    (hs : p.status = .SYNCHRONIZING) (hc : p.sync_conn = some c) (hg : p.sync_group = some g)
    (hcl : p.sync_closing = false)
    (hfail : inf_session_handle_received_sync_message klass p c node
      = .ok (false, some e, p1)) :
    inf_session_net_object_received klass p c node
      = .ok (false, none, { p1 with
          status := .CLOSED, sync_closing := true, subscription_group := none,
          trace := p.trace ++ [.send_to_connection g c (sync_error_frame e),
            .emit (.synchronization_failed (some c) e), .emit .close, .group_unref g]
            ++ subscription_release p.subscription_group ++ [.notify "status"] }) := by
  obtain ⟨f1, f2, f3, f4, f5, f6, -, -⟩ := handle_error_frame klass p p1 c node e hfail
  have hsend : inf_session_send_sync_error p1 e
      = { p1 with trace := p1.trace ++ [.send_to_connection g c (sync_error_frame e)] } := by
    simp [inf_session_send_sync_error, f1, f2, f3, hs, hc, hg, sync_error_frame, xmlNewProp,
      xmlNewNode, inf_connection_manager_group_send_to_connection, InfSessionPrivate.log]
  simp only [inf_session_net_object_received, hs, hc, hfail, bind, Except.bind]
  simp only [ne_eq, not_true_eq_false, if_false, hsend]
  rw [g_signal_emit_failed_synchronizing _ c g e (by simp [f1, hs]) (by simp [f2, hc])
    (by simp [f3, hg]) (by simp [f4, hcl])]
  simp [pure, Except.pure, f5, f6]

theorem received_without_error (klass : InfSessionClass)
    (p p1 : InfSessionPrivate) (c : InfXmlConnection) (node : XmlNode) (b : Bool)
    (hs : p.status = .SYNCHRONIZING) (hc : p.sync_conn = some c)
    (h : inf_session_handle_received_sync_message klass p c node = .ok (b, none, p1)) :
    inf_session_net_object_received klass p c node = .ok (false, none, p1) := by
  simp only [inf_session_net_object_received, hs, hc, h, bind, Except.bind]
  cases b <;> simp [pure, Except.pure]

theorem handle_begin_missing (klass : InfSessionClass) (p : InfSessionPrivate)
    (c : InfXmlConnection) (node : XmlNode)
    (hs : p.status = .SYNCHRONIZING) (hM : p.sync_messages_total = 0)
    (hname : node.name = "sync-begin") (hattr : xmlGetProp node "num-messages" = none) :
    inf_session_handle_received_sync_message klass p c node
      = .ok (false, some (sync_error .NUM_MESSAGES_MISSING), p) := by
  simp [inf_session_handle_received_sync_message, hs, hname, hM, hattr, pure, Except.pure]

theorem handle_begin_duplicate (klass : InfSessionClass) (p : InfSessionPrivate)
    (c : InfXmlConnection) (node : XmlNode)
    (hs : p.status = .SYNCHRONIZING) (hM : 0 < p.sync_messages_total)
    (hname : node.name = "sync-begin") :
    inf_session_handle_received_sync_message klass p c node
      = .ok (false, some (sync_error .UNEXPECTED_BEGIN_OF_SYNC), p) := by
  simp [inf_session_handle_received_sync_message, hs, hname, hM, pure, Except.pure]

/-- A handling that fails without an error, for a frame other than
sync-cancel, is a content frame inside the window whose processor returned
FALSE and set no error; only the user table can differ afterwards. -/
theorem handle_silent_frame (klass : InfSessionClass) (p p1 : InfSessionPrivate)
    (c : InfXmlConnection) (node : XmlNode)
    (hn : node.name ≠ "sync-cancel")
    (h : inf_session_handle_received_sync_message klass p c node = .ok (false, none, p1)) :
    is_content_frame node
      ∧ (klass.process_xml_sync p c node).1 = false
      ∧ (klass.process_xml_sync p c node).2.1 = none
      ∧ p1 = { p with user_table := (klass.process_xml_sync p c node).2.2 } := by
  unfold inf_session_handle_received_sync_message at h
  by_cases h1 : p.status ≠ .SYNCHRONIZING
  · simp [h1, throw, throwThe, MonadExceptOf.throw] at h
  rw [if_neg h1, if_neg hn] at h
  by_cases h3 : node.name = "sync-begin"
  · rw [if_pos h3] at h
    by_cases h4 : p.sync_messages_total > 0
    · simp [h4, pure, Except.pure] at h
    · cases hx : xmlGetProp node "num-messages" with
      | none => simp [h4, hx, pure, Except.pure] at h
      | some v =>
        simp [h4, hx, g_signal_emit_progress, bind, Except.bind, pure, Except.pure] at h
  rw [if_neg h3] at h
  by_cases h5 : node.name = "sync-end"
  · rw [if_pos h5] at h
    simp only at h
    split_ifs at h
    · simp [pure, Except.pure] at h
    · simp only [bind, Except.bind, pure, Except.pure] at h
      split at h <;> simp at h
  rw [if_neg h5] at h
  by_cases h6 : p.sync_messages_received = 0
  · simp [h6, pure, Except.pure] at h
  rw [if_neg h6] at h
  by_cases h7 : p.sync_messages_received = guint_sub p.sync_messages_total 1
  · simp [h7, pure, Except.pure] at h
  rw [if_neg h7] at h
  by_cases h8 : (klass.process_xml_sync p c node).1 = false
  · simp only [h8, if_true, pure, Except.pure, Except.ok.injEq, Prod.mk.injEq, true_and] at h
    exact ⟨⟨hn, h3, h5⟩, h8, h.1, h.2.symm⟩
  · simp [h8, g_signal_emit_progress, bind, Except.bind, pure, Except.pure] at h

theorem signals_emitted_append (t1 t2 : List Effect) :
    signals_emitted (t1 ++ t2) = signals_emitted t1 ++ signals_emitted t2 := by
  simp [signals_emitted, List.filterMap_append]

theorem signals_emitted_subscription_release (sub : Option InfConnectionManagerGroup) :
    signals_emitted (subscription_release sub) = [] := by
  cases sub <;> simp [signals_emitted, subscription_release]

/-- Explicit close of a Synchronizing session with a clear closing flag, for
any synchronizer and group fields: one close event, then one
synchronization-failed event, status Closed. -/
theorem close_synchronizing_signals (p : InfSessionPrivate)
    (hs : p.status = .SYNCHRONIZING) (hcl : p.sync_closing = false) :
    ∃ q, inf_session_close p = .ok q ∧ q.status = .CLOSED ∧ q.sync_closing = true
      ∧ signals_emitted q.trace
        = signals_emitted p.trace
          ++ [.close, .synchronization_failed p.sync_conn (sync_error .RECEIVER_CANCELLED)] := by
  obtain ⟨ut, st, sub, sg, sc, mt, mr, cl, rs, tr⟩ := p
  simp only at hs hcl
  subst hs hcl
  unfold inf_session_close g_signal_emit
  rw [signal_emission_succ]
  cases sub <;> cases sg <;> cases sc <;>
  simp [inf_session_close_handler, InfSessionPrivate.log,
    inf_session_send_sync_error, inf_connection_manager_group_send_to_connection,
    signal_emission, inf_session_synchronization_failed_handler,
    inf_connection_manager_group_unref, bind, Except.bind, pure, Except.pure,
    signals_emitted, List.filterMap_append]

/-- A synchronization-failed emission for the synchronizer on a Synchronizing
session with a clear closing flag, for any group field: one
synchronization-failed event, then one close event, status Closed. -/
theorem failed_synchronizing_signals (p : InfSessionPrivate) (c : Option InfXmlConnection)
    (e : GError)
    (hs : p.status = .SYNCHRONIZING) (hc : p.sync_conn = c) (hcl : p.sync_closing = false) :
    ∃ q, g_signal_emit (.synchronization_failed c e) p = .ok q ∧ q.status = .CLOSED
      ∧ q.sync_closing = true
      ∧ signals_emitted q.trace
        = signals_emitted p.trace ++ [.synchronization_failed c e, .close] := by
  obtain ⟨ut, st, sub, sg, sc, mt, mr, cl, rs, tr⟩ := p
  simp only at hs hc hcl
  subst hs hc hcl
  unfold g_signal_emit
  rw [signal_emission_succ]
  cases sub <;> cases sg <;>
  simp [inf_session_close_handler, InfSessionPrivate.log, inf_session_close_with,
    signal_emission, inf_session_synchronization_failed_handler,
    inf_connection_manager_group_unref, bind, Except.bind, pure, Except.pure,
    signals_emitted, List.filterMap_append]

/-- With the closing flag set, close emits no synchronization-failed and
synchronization-failed emits no close. -/
theorem closing_set_signals (p : InfSessionPrivate) (e : GError)
    (hs : p.status = .SYNCHRONIZING) (hcl : p.sync_closing = true) :
    (∃ q, inf_session_close p = .ok q ∧ q.status = .CLOSED
        ∧ signals_emitted q.trace = signals_emitted p.trace ++ [.close])
      ∧ g_signal_emit (.synchronization_failed p.sync_conn e) p
        = .ok (p.log (.emit (.synchronization_failed p.sync_conn e))) := by
  obtain ⟨ut, st, sub, sg, sc, mt, mr, cl, rs, tr⟩ := p
  simp only at hs hcl
  subst hs hcl
  constructor
  · unfold inf_session_close g_signal_emit
    rw [signal_emission_succ]
    cases sub <;> cases sg <;>
    simp [inf_session_close_handler, InfSessionPrivate.log,
      inf_connection_manager_group_unref, bind, Except.bind, pure, Except.pure,
      signals_emitted, List.filterMap_append]
  · unfold g_signal_emit
    rw [signal_emission_succ]
    simp [inf_session_synchronization_failed_handler, InfSessionPrivate.log, pure, Except.pure]

/-! ## Reading num-messages -/

theorem decimal_digit_char (ch : Char) (h : is_decimal_digit ch) :
    ∃ d, d < 10 ∧ ch = Nat.digitChar d ∧ ch.toNat - 48 = d := by
  have h1 : Char.ofNat ch.toNat = ch := Char.ofNat_toNat ch
  obtain ⟨lo, hi⟩ := h
  generalize ch.toNat = n at h1 lo hi
  subst h1
  interval_cases n <;> exact ⟨_, by decide, by decide, rfl⟩

theorem strtoul_scan_decimal (cs : List Char) (h : ∀ ch ∈ cs, is_decimal_digit ch) :
    ∀ acc, strtoul_scan 10 acc cs
      = cs.foldl (fun a ch => a * 10 + (ch.toNat - 48)) acc := by
  induction cs with
  | nil => intro acc; rfl
  | cons ch cs ih =>
    intro acc
    obtain ⟨d, hd, hch, hv⟩ := decimal_digit_char ch (h ch (List.mem_cons_self _ _))
    have ih2 := ih (fun x hx => h x (List.mem_cons_of_mem _ hx))
    simp only [List.foldl_cons, hv]
    rw [← ih2]
    simp [strtoul_scan, hch, c_digit_value_digitChar d hd, hd]

theorem strtoul_decimal_digits (d : String) (ch : Char) (cs : List Char)
    (hd : d.data = ch :: cs) (hdigits : ∀ x ∈ d.data, is_decimal_digit x)
    (hlead : ch ≠ '0') (hv : decimal_value d ≤ ULONG_MAX) :
    strtoul d 0 = decimal_value d := by
  obtain ⟨k, hk, hch, -⟩ := decimal_digit_char ch (hdigits ch (by simp [hd]))
  have hk0 : 0 < k := by
    rcases Nat.eq_zero_or_pos k with h0 | h0
    · subst h0
      exact absurd hch hlead
    · exact h0
  have hsp := c_isspace_digitChar k hk
  have hsg : strtoul_sign (Nat.digitChar k :: cs) = (false, Nat.digitChar k :: cs) := by
    interval_cases k <;> rfl
  have hscan := strtoul_scan_decimal d.data hdigits 0
  have hnot : ¬ ULONG_MAX < decimal_value d := by omega
  unfold strtoul
  rw [hd, hch] at hscan ⊢
  simp only [List.dropWhile, hsp, hsg, strtoul_radix_digit 0 k cs hk0 hk (Or.inl rfl)]
  rw [hscan]
  have hval : decimal_value d
      = List.foldl (fun a ch => a * 10 + (ch.toNat - 48)) 0 (Nat.digitChar k :: cs) := by
    unfold decimal_value
    rw [hd, hch]
  rw [← hval]
  simp [hnot]

theorem strtoul_leading_zero (d : String) (cs : List Char)
    (hd : d.data = '0' :: cs) (hdigits : ∀ x ∈ d.data, is_decimal_digit x)
    (hv : strtoul_scan 8 0 d.data ≤ ULONG_MAX) :
    strtoul d 0 = strtoul_scan 8 0 d.data := by
  have hradix : strtoul_radix 0 ('0' :: cs) = (8, '0' :: cs) := by
    cases cs with
    | nil => rfl
    | cons x xs =>
      obtain ⟨k, hk, hx, -⟩ := decimal_digit_char x (hdigits x (by simp [hd]))
      subst hx
      interval_cases k <;> rfl
  have hnot : ¬ ULONG_MAX < strtoul_scan 8 0 ('0' :: cs) := by
    rw [hd] at hv
    omega
  unfold strtoul
  rw [hd]
  have hsp : c_isspace '0' = false := by decide
  have hsg : strtoul_sign ('0' :: cs) = (false, '0' :: cs) := rfl
  simp only [List.dropWhile, hsp, hsg, hradix]
  simp [hnot]

theorem sync_begin_received_value (klass : InfSessionClass) (p : InfSessionPrivate)
    (c : InfXmlConnection) (node : XmlNode) (v : String) (N : Nat)
    (hs : p.status = .SYNCHRONIZING) (hc : p.sync_conn = some c)
    (hM : p.sync_messages_total = 0)
    (hname : node.name = "sync-begin")
    (hattr : xmlGetProp node "num-messages" = some v)
    (hv : strtoul v 0 = N) (hN : N + 2 < 2 ^ 32) :
    inf_session_net_object_received klass p c node
      = .ok (false, none, { p with
          sync_messages_total := N + 2, sync_messages_received := 1,
          trace := p.trace ++ [.emit (.synchronization_progress c 1 (N + 2))] }) := by
  have ht : guint ((2 + N) % (ULONG_MAX + 1)) = N + 2 := by
    unfold guint ULONG_MAX
    omega
  have hh : inf_session_handle_received_sync_message klass p c node
      = .ok (true, none, { p with
          sync_messages_total := N + 2, sync_messages_received := 1,
          trace := p.trace ++ [.emit (.synchronization_progress c 1 (N + 2))] }) := by
    simp [inf_session_handle_received_sync_message, hs, hname, hM, hattr, hv, ht,
      g_signal_emit_progress, InfSessionPrivate.log, bind, Except.bind, pure, Except.pure]
  simp [inf_session_net_object_received, hs, hc, hh, bind, Except.bind, pure, Except.pure]

/-! ## Parameter arrays -/

theorem findIdx_some_find (f : GParameter → Bool) :
    ∀ (l : List GParameter) (i : Nat), l.findIdx? f = some i →
      l[i]? = l.find? f ∧ i < l.length := by
  intro l
  induction l with
  | nil => intro i h; simp at h
  | cons x xs ih =>
    intro i h
    rw [List.findIdx?_cons] at h
    by_cases hx : f x = true
    · simp only [hx, if_true, Option.some.injEq] at h
      subst h
      simp [List.find?_cons, hx]
    · simp only [hx, Bool.false_eq_true, if_false, List.findIdx?_succ, Option.map_eq_some'] at h
      obtain ⟨j, hj, rfl⟩ := h
      obtain ⟨h1, h2⟩ := ih j hj
      have hx2 : f x = false := by simpa using hx
      refine ⟨?_, by simp [h2]⟩
      rw [List.getElem?_cons_succ, h1, List.find?_cons, hx2]

theorem findIdx_none_find (f : GParameter → Bool) (l : List GParameter) :
    l.findIdx? f = none ↔ l.find? f = none := by
  simp [List.findIdx?_eq_none_iff, List.find?_eq_none]

theorem get_user_property_present (array : List GParameter) (name : String)
    (param : GParameter) (h : inf_session_lookup_user_property array name = some param) :
    ∃ i, inf_session_get_user_property array name = (array, i) ∧ array[i]? = some param
      ∧ i < array.length := by
  unfold inf_session_lookup_user_property at h
  unfold inf_session_get_user_property
  cases hidx : array.findIdx? (fun p => p.name == name) with
  | none =>
    rw [findIdx_none_find] at hidx
    rw [hidx] at h
    cases h
  | some i =>
    obtain ⟨h1, h2⟩ := findIdx_some_find _ array i hidx
    exact ⟨i, rfl, by rw [h1, h], h2⟩

theorem get_user_property_absent (array : List GParameter) (name : String)
    (h : inf_session_lookup_user_property array name = none) :
    inf_session_get_user_property array name
      = (array ++ [⟨name, .unset⟩], array.length) := by
  unfold inf_session_lookup_user_property at h
  unfold inf_session_get_user_property
  rw [(findIdx_none_find _ array).mpr h]

theorem lookup_after_append (array : List GParameter) (name : String) (v : GValue)
    (h : inf_session_lookup_user_property array name = none) :
    inf_session_lookup_user_property (array ++ [⟨name, v⟩]) name = some ⟨name, v⟩ := by
  unfold inf_session_lookup_user_property at h ⊢
  rw [List.find?_append, h]
  simp

theorem lookup_name (array : List GParameter) (name : String) (param : GParameter)
    (h : inf_session_lookup_user_property array name = some param) :
    param.name = name ∧ param ∈ array := by
  unfold inf_session_lookup_user_property at h
  exact ⟨by simpa using List.find?_some h, List.mem_of_find?_eq_some h⟩

theorem lookup_none_iff (array : List GParameter) (name : String) :
    inf_session_lookup_user_property array name = none ↔ ∀ param ∈ array, param.name ≠ name := by
  unfold inf_session_lookup_user_property
  simp [List.find?_eq_none]

/-! ## One record of the roster -/

theorem update_sync_split (pre post : List InfSessionSync) (s : InfSessionSync)
    (f : InfSessionSync → InfSessionSync) (h : ∀ r ∈ pre, r.conn ≠ s.conn) :
    update_sync (pre ++ s :: post) s.conn f = pre ++ f s :: post := by
  induction pre with
  | nil => simp [update_sync]
  | cons r rest ih =>
    have hr : r.conn ≠ s.conn := h r (List.mem_cons_self _ _)
    simp [update_sync, hr, ih (fun x hx => h x (List.mem_cons_of_mem _ hx))]

theorem find_sync_split (p : InfSessionPrivate) (c : InfXmlConnection) (sync : InfSessionSync)
    (hf : inf_session_find_sync_by_connection p (some c) = some sync) :
    sync.conn = c ∧ ∃ pre post, p.run_syncs = pre ++ sync :: post ∧ ∀ r ∈ pre, r.conn ≠ c := by
  have hc := (find_sync_some_conn p c sync hf).1
  refine ⟨hc, ?_⟩
  unfold inf_session_find_sync_by_connection at hf
  split_ifs at hf
  rw [List.find?_eq_some] at hf
  obtain ⟨-, pre, post, h1, h2⟩ := hf
  refine ⟨pre, post, h1, fun r hr => ?_⟩
  have := h2 r hr
  simpa using this

theorem findIdx_split (f : GParameter → Bool) (pre post : List GParameter) (a : GParameter)
    (hpre : ∀ x ∈ pre, f x = false) (ha : f a = true) :
    (pre ++ a :: post).findIdx? f = some pre.length := by
  induction pre with
  | nil => simp [List.findIdx?_cons, ha]
  | cons x xs ih =>
    have hx : f x = false := hpre x (List.mem_cons_self _ _)
    have := ih (fun y hy => hpre y (List.mem_cons_of_mem _ hy))
    rw [List.cons_append, List.findIdx?_cons, List.findIdx?_succ, this]
    simp [hx]

theorem lookup_split (array : List GParameter) (name : String) (param : GParameter)
    (h : inf_session_lookup_user_property array name = some param) :
    ∃ pre post, array = pre ++ param :: post ∧ (∀ x ∈ pre, x.name ≠ name)
      ∧ param.name = name
      ∧ inf_session_get_user_property array name = (array, pre.length) := by
  have hl := h
  unfold inf_session_lookup_user_property at h
  rw [List.find?_eq_some] at h
  obtain ⟨h0, pre, post, h1, h2⟩ := h
  have hname : param.name = name := by simpa using h0
  have hpre : ∀ x ∈ pre, x.name ≠ name := fun x hx => by simpa using h2 x hx
  refine ⟨pre, post, h1, hpre, hname, ?_⟩
  unfold inf_session_get_user_property
  have := findIdx_split (fun p => p.name == name) pre post param
    (fun x hx => by simpa using hpre x hx) (by simpa using hname)
  rw [h1, this]

theorem get_user_property_twice (array : List GParameter) (name : String) :
    inf_session_get_user_property (inf_session_get_user_property array name).1 name
      = inf_session_get_user_property array name := by
  cases h : inf_session_lookup_user_property array name with
  | some param =>
    obtain ⟨pre, post, -, -, -, h4⟩ := lookup_split array name param h
    rw [h4]
    exact h4
  | none =>
    rw [get_user_property_absent array name h]
    have hpre := (lookup_none_iff array name).mp h
    have := findIdx_split (fun p => p.name == name) array [] ⟨name, .unset⟩
      (fun x hx => by simpa using hpre x hx) (by simp)
    simp only [inf_session_get_user_property, this]

/-! ## The user constructor -/

theorem validate_true_no_error (priv : InfSessionPrivate) (params : List GParameter)
    (exclude : Option InfUserPtr)
    (h : (inf_session_validate_user_props_impl priv params exclude).1 = true) :
    inf_session_validate_user_props_impl priv params exclude = (true, none) := by
  unfold inf_session_validate_user_props_impl at h ⊢
  cases hid : inf_session_lookup_user_property params "id" with
  | none => simp [hid] at h
  | some idp =>
    simp only [hid] at h ⊢
    by_cases h1 : inf_user_table_lookup_user_by_id priv.user_table (g_value_get_uint idp.value)
        ≠ none
      ∧ inf_user_table_lookup_user_by_id priv.user_table (g_value_get_uint idp.value) ≠ exclude
    · rw [if_pos h1] at h
      simp at h
    · rw [if_neg h1] at h ⊢
      cases hname : inf_session_lookup_user_property params "name" with
      | none => simp [hname] at h
      | some namep =>
        simp only [hname] at h ⊢
        by_cases h2 : inf_user_table_lookup_user_by_name priv.user_table
              (g_value_get_string namep.value) ≠ none
            ∧ inf_user_table_lookup_user_by_name priv.user_table
              (g_value_get_string namep.value) ≠ exclude
        · rw [if_pos h2] at h
          simp at h
        · rw [if_neg h2]

theorem add_user_no_user
    (user_new : Option (InfSessionPrivate → List GParameter → Option InfUser))
    (p : InfSessionPrivate) (params : List GParameter)
    (hnew : user_new = none ∨ ∃ f, user_new = some f
      ∧ (inf_session_validate_user_props_impl p params none).1 = true ∧ f p params = none) :
    inf_session_add_user (inf_session_class_init user_new).user p params = (none, none, p) := by
  rcases hnew with h | ⟨f, h, hv, hf⟩
  · subst h
    rfl
  · subst h
    have hv2 := validate_true_no_error p params none hv
    simp [inf_session_add_user, inf_session_class_init, hv2, hf, inf_user_table_add_user]

theorem process_sync_user_no_user
    (user_new : Option (InfSessionPrivate → List GParameter → Option InfUser))
    (p : InfSessionPrivate) (c : InfXmlConnection) (node : XmlNode)
    (hs : p.status = .SYNCHRONIZING) (hc : p.sync_conn = some c)
    (hname : node.name = "sync-user")
    (hnew : user_new = none ∨ ∃ f, user_new = some f
      ∧ (inf_session_validate_user_props_impl p
          (inf_session_get_xml_user_props_impl p c node) none).1 = true
      ∧ f p (inf_session_get_xml_user_props_impl p c node) = none) :
    (inf_session_class_init user_new).process_xml_sync p c node
      = (false, none, p.user_table) := by
  have h := add_user_no_user user_new p (inf_session_get_xml_user_props_impl p c node) hnew
  simp only [inf_session_class_init] at h ⊢
  simp [inf_session_process_xml_sync_impl, hs, hc, hname, h]

theorem received_silent (klass : InfSessionClass) (p : InfSessionPrivate)
    (c : InfXmlConnection) (node : XmlNode)
    (hs : p.status = .SYNCHRONIZING) (hc : p.sync_conn = some c)
    (hn : is_content_frame node)
    (h0 : p.sync_messages_received ≠ 0)
    (h1 : p.sync_messages_received ≠ guint_sub p.sync_messages_total 1)
    (hproc : klass.process_xml_sync p c node = (false, none, p.user_table)) :
    inf_session_net_object_received klass p c node = .ok (false, none, p) := by
  obtain ⟨n1, n2, n3⟩ := hn
  have hh : inf_session_handle_received_sync_message klass p c node = .ok (false, none, p) := by
    unfold inf_session_handle_received_sync_message
    rw [if_neg (by simp [hs]), if_neg n1, if_neg n2, if_neg n3, if_neg h0, if_neg h1]
    simp [hproc, pure, Except.pure]
  exact received_without_error klass p p c node false hs hc hh

/-! ## Claims -/

/-- C1 (transfer fidelity): a Running session S1 whose user table has unique
ids and unique names (ids in the `guint` range, and few enough users for the
`guint` message counter) synchronizes to peer p; the frames it enqueues to p
are delivered in order to a fresh Synchronizing session S2 (empty user table,
no begin accepted) of the base class with a user constructor that builds the
user from the decoded properties. Then S2 ends Running with the user table of
S1 and has enqueued exactly one frame, a sync-ack to its synchronizer; and
once the transport has reported the frames as enqueued, delivering the
sync-ack to S1 makes S1 emit synchronization-complete for p and retire the
record of p. -/
theorem transfer_fidelity (S1 S2 : InfSessionPrivate)
    (g1 g2 : InfConnectionManagerGroup) (p c : InfXmlConnection)
    (hids : (S1.user_table.map (fun u => u.id)).Nodup)
    (hnames : (S1.user_table.map (fun u => u.name)).Nodup)
    (hrange : ∀ u ∈ S1.user_table, u.id < 2 ^ 32)
    (hK : S1.user_table.length + 2 < 2 ^ 32)
    (h1s : S1.status = .RUNNING)
    (h1n : inf_session_find_sync_by_connection S1 (some p) = none)
    (hmem : inf_connection_manager_group_has_connection g1 p = true)
    (h2s : S2.status = .SYNCHRONIZING) (h2c : S2.sync_conn = some c)
    (h2g : S2.sync_group = some g2)
    (h2t : S2.user_table = []) (h2M : S2.sync_messages_total = 0) :
    ∃ S1a S2a S1b : InfSessionPrivate,
      inf_session_synchronize_to example_class S1 g1 p = .ok S1a
      ∧ deliver example_class c S2 (frames_to (S1a.trace.drop S1.trace.length) p) = .ok S2a
      ∧ S2a.status = .RUNNING
      ∧ S2a.user_table = S1.user_table
      ∧ frames_sent (S2a.trace.drop S2.trace.length) = [(g2, c, xmlNewNode "sync-ack")]
      ∧ (enqueue_all p S1a (frames_to (S1a.trace.drop S1.trace.length) p) >>= fun q =>
          inf_session_net_object_received example_class q p (xmlNewNode "sync-ack"))
        = .ok (false, none, S1b)
      ∧ signals_emitted (S1b.trace.drop S1a.trace.length) = [.synchronization_complete p]
      ∧ inf_session_find_sync_by_connection S1b (some p) = none := by
  -- the sender
  have hitems : example_class.to_xml_sync { S1 with
      run_syncs := ⟨g1, p, 2, 0, .IN_PROGRESS⟩ :: S1.run_syncs,
      trace := S1.trace ++ [.object_ref p, .signal_connect p, .group_ref g1] }
      = S1.user_table.map sync_user_frame := by
    simp [example_class, to_xml_sync_class_init]
  have hsync := synchronize_to_ok example_class S1 g1 p (S1.user_table.map sync_user_frame)
    h1s h1n hmem hitems (by simpa using hK)
  simp only [List.length_map] at hsync
  -- the frames
  have hframes : frames_to
      (([Effect.object_ref p, .signal_connect p, .group_ref g1]
          ++ [Effect.send_to_connection g1 p
                ⟨"sync-begin", [("num-messages", Nat.repr S1.user_table.length)]⟩]
          ++ (S1.user_table.map sync_user_frame).map
                (fun xml => Effect.send_to_connection g1 p xml)
          ++ [Effect.send_to_connection g1 p ⟨"sync-end", []⟩])) p
      = ⟨"sync-begin", [("num-messages", Nat.repr S1.user_table.length)]⟩
          :: S1.user_table.map sync_user_frame ++ [⟨"sync-end", []⟩] :=
    frames_to_synchronize g1 p _ _ _
  -- the receiver: begin
  have hbegin := sync_begin_received example_class S2 c
    ⟨"sync-begin", [("num-messages", Nat.repr S1.user_table.length)]⟩ S1.user_table.length
    h2s h2c h2M rfl (by simp [xmlGetProp]) hK
  -- the receiver: content
  have husers := deliver_sync_users c S1.user_table
    { S2 with
      sync_messages_total := S1.user_table.length + 2, sync_messages_received := 1,
      trace := S2.trace
        ++ [Effect.emit (.synchronization_progress c 1 (S1.user_table.length + 2))] }
    h2s h2c (by simp) (by simp; omega) (by simpa using hK) hrange
    (by simpa [h2t] using hids) (by simpa [h2t] using hnames)
  simp only [h2t, List.nil_append] at husers hbegin
  -- the receiver: end
  have hend := received_sync_end example_class
    { S2 with
      user_table := S1.user_table,
      sync_messages_total := S1.user_table.length + 2,
      sync_messages_received := 1 + S1.user_table.length,
      trace := S2.trace
        ++ [Effect.emit (.synchronization_progress c 1 (S1.user_table.length + 2))]
        ++ progress_events c 1 S1.user_table.length (S1.user_table.length + 2) }
    c g2 ⟨"sync-end", []⟩ h2s h2c h2g (by simp; omega) (by simpa using hK) rfl
    (by simp only [guint_sub]; omega)
  have hdrop : ∀ (l : List Effect),
      (S1.trace ++ [Effect.object_ref p, .signal_connect p, .group_ref g1]
          ++ [Effect.send_to_connection g1 p
                ⟨"sync-begin", [("num-messages", Nat.repr S1.user_table.length)]⟩]
          ++ (S1.user_table.map sync_user_frame).map
                (fun xml => Effect.send_to_connection g1 p xml)
          ++ l).drop S1.trace.length
        = [Effect.object_ref p, .signal_connect p, .group_ref g1]
          ++ [Effect.send_to_connection g1 p
                ⟨"sync-begin", [("num-messages", Nat.repr S1.user_table.length)]⟩]
          ++ (S1.user_table.map sync_user_frame).map
                (fun xml => Effect.send_to_connection g1 p xml)
          ++ l := by
    intro l
    simp only [List.append_assoc, List.drop_left]
  have hdeliver : deliver example_class c S2
      (⟨"sync-begin", [("num-messages", Nat.repr S1.user_table.length)]⟩
          :: S1.user_table.map sync_user_frame ++ [⟨"sync-end", []⟩])
      = .ok { S2 with
          user_table := S1.user_table,
          sync_messages_total := S1.user_table.length + 2,
          sync_messages_received := S1.user_table.length + 2,
          status := .RUNNING, run_syncs := [], sync_conn := none, sync_group := none,
          trace := S2.trace
            ++ [Effect.emit (.synchronization_progress c 1 (S1.user_table.length + 2))]
            ++ progress_events c 1 S1.user_table.length (S1.user_table.length + 2)
            ++ [Effect.send_to_connection g2 c (xmlNewNode "sync-ack"),
              .emit (.synchronization_complete c), .group_unref g2,
              .signal_disconnect c, .object_unref c, .notify "status"] } := by
    rw [deliver_append, deliver_cons, hbegin]
    simp only [bind, Except.bind]
    rw [husers]
    simp only [deliver_cons, deliver_nil, bind, Except.bind]
    rw [hend]
  have hnames_ne : ∀ x ∈ (⟨"sync-begin", [("num-messages", Nat.repr S1.user_table.length)]⟩
      :: S1.user_table.map sync_user_frame : List XmlNode), x.name ≠ "sync-end" := by
    intro x hx
    rcases List.mem_cons.mp hx with rfl | hx
    · show "sync-begin" ≠ "sync-end"
      decide
    · obtain ⟨u, -, rfl⟩ := List.mem_map.mp hx
      show "sync-user" ≠ "sync-end"
      decide
  have hsender : (enqueue_all p
        { S1 with
          run_syncs := ⟨g1, p, S1.user_table.length + 2, 0, .IN_PROGRESS⟩ :: S1.run_syncs,
          trace := S1.trace ++ [.object_ref p, .signal_connect p, .group_ref g1]
            ++ [Effect.send_to_connection g1 p
                  ⟨"sync-begin", [("num-messages", Nat.repr S1.user_table.length)]⟩]
            ++ (S1.user_table.map sync_user_frame).map
                  (fun xml => Effect.send_to_connection g1 p xml)
            ++ [Effect.send_to_connection g1 p ⟨"sync-end", []⟩] }
        (⟨"sync-begin", [("num-messages", Nat.repr S1.user_table.length)]⟩
          :: S1.user_table.map sync_user_frame ++ [⟨"sync-end", []⟩]) >>= fun q =>
        inf_session_net_object_received example_class q p (xmlNewNode "sync-ack"))
      = .ok (false, none, { S1 with
          trace := (S1.trace ++ [.object_ref p, .signal_connect p, .group_ref g1]
            ++ [Effect.send_to_connection g1 p
                  ⟨"sync-begin", [("num-messages", Nat.repr S1.user_table.length)]⟩]
            ++ (S1.user_table.map sync_user_frame).map
                  (fun xml => Effect.send_to_connection g1 p xml)
            ++ [Effect.send_to_connection g1 p ⟨"sync-end", []⟩])
            ++ [Effect.emit (.synchronization_complete p), .group_unref g1,
              .signal_disconnect p, .object_unref p] }) := by
    have hE : ∀ tr : List Effect,
        inf_session_net_object_enqueued
          { S1 with
            run_syncs := ⟨g1, p, S1.user_table.length + 2, 0, .IN_PROGRESS⟩ :: S1.run_syncs,
            trace := tr } p ⟨"sync-end", []⟩
        = .ok { S1 with
            run_syncs := ⟨g1, p, S1.user_table.length + 2, 0, .AWAITING_ACK⟩ :: S1.run_syncs,
            trace := tr } :=
      fun tr => enqueued_sync_end
        { S1 with
          run_syncs := ⟨g1, p, S1.user_table.length + 2, 0, .IN_PROGRESS⟩ :: S1.run_syncs,
          trace := tr }
        ⟨g1, p, S1.user_table.length + 2, 0, .IN_PROGRESS⟩ S1.run_syncs h1s rfl rfl
    have hA : ∀ tr : List Effect,
        inf_session_net_object_received example_class
          { S1 with
            run_syncs := ⟨g1, p, S1.user_table.length + 2, 0, .AWAITING_ACK⟩ :: S1.run_syncs,
            trace := tr } p (xmlNewNode "sync-ack")
        = .ok (false, none, { S1 with
            trace := tr ++ [Effect.emit (.synchronization_complete p), .group_unref g1,
              .signal_disconnect p, .object_unref p] }) :=
      fun tr => received_sync_ack example_class
        { S1 with
          run_syncs := ⟨g1, p, S1.user_table.length + 2, 0, .AWAITING_ACK⟩ :: S1.run_syncs,
          trace := tr }
        ⟨g1, p, S1.user_table.length + 2, 0, .AWAITING_ACK⟩ S1.run_syncs h1s rfl rfl
    rw [enqueue_all_append, enqueue_all_other p _ hnames_ne]
    simp only [bind, Except.bind, enqueue_all, hE, hA, pure, Except.pure]
  refine ⟨_,
    { S2 with
      user_table := S1.user_table,
      sync_messages_total := S1.user_table.length + 2,
      sync_messages_received := S1.user_table.length + 2,
      status := .RUNNING, run_syncs := [], sync_conn := none, sync_group := none,
      trace := S2.trace
        ++ [Effect.emit (.synchronization_progress c 1 (S1.user_table.length + 2))]
        ++ progress_events c 1 S1.user_table.length (S1.user_table.length + 2)
        ++ [Effect.send_to_connection g2 c (xmlNewNode "sync-ack"),
          .emit (.synchronization_complete c), .group_unref g2,
          .signal_disconnect c, .object_unref c, .notify "status"] },
    { S1 with
      trace := (S1.trace ++ [.object_ref p, .signal_connect p, .group_ref g1]
        ++ [Effect.send_to_connection g1 p
              ⟨"sync-begin", [("num-messages", Nat.repr S1.user_table.length)]⟩]
        ++ (S1.user_table.map sync_user_frame).map
              (fun xml => Effect.send_to_connection g1 p xml)
        ++ [Effect.send_to_connection g1 p ⟨"sync-end", []⟩])
        ++ [Effect.emit (.synchronization_complete p), .group_unref g1,
          .signal_disconnect p, .object_unref p] },
    hsync, ?_, rfl, rfl, ?_, ?_, ?_, ?_⟩
  · simp only [hdrop, hframes]
    exact hdeliver
  · simp [frames_sent, List.filterMap_append, progress_events, List.filterMap_map,
      Function.comp_def]
  · simp only [hdrop, hframes]
    exact hsender
  · rw [List.drop_left]
    simp [signals_emitted]
  · simpa [inf_session_find_sync_by_connection, h1s] using h1n

/-- Witness of C1: Ann and Bob are transferred from `example_running` to `example_fresh` over peer 7. -/
theorem transfer_fidelity_witness :
    (example_running.user_table.map (fun u => u.id)).Nodup
      ∧ (example_running.user_table.map (fun u => u.name)).Nodup
      ∧ (∀ u ∈ example_running.user_table, u.id < 2 ^ 32)
      ∧ example_running.status = .RUNNING
      ∧ inf_session_find_sync_by_connection example_running (some 7) = none
      ∧ inf_connection_manager_group_has_connection example_group 7 = true
      ∧ example_fresh.status = .SYNCHRONIZING ∧ example_fresh.sync_conn = some 7
      ∧ example_fresh.user_table = [] ∧ example_fresh.sync_messages_total = 0
      ∧ ∃ S1a S2a S1b : InfSessionPrivate,
          inf_session_synchronize_to example_class example_running example_group 7 = .ok S1a
          ∧ deliver example_class 7 example_fresh
              (frames_to (S1a.trace.drop example_running.trace.length) 7) = .ok S2a
          ∧ S2a.status = .RUNNING
          ∧ S2a.user_table = example_running.user_table
          ∧ frames_sent (S2a.trace.drop example_fresh.trace.length)
              = [(example_group, 7, xmlNewNode "sync-ack")]
          ∧ (enqueue_all 7 S1a (frames_to (S1a.trace.drop example_running.trace.length) 7)
                >>= fun q =>
              inf_session_net_object_received example_class q 7 (xmlNewNode "sync-ack"))
            = .ok (false, none, S1b)
          ∧ signals_emitted (S1b.trace.drop S1a.trace.length) = [.synchronization_complete 7]
          ∧ inf_session_find_sync_by_connection S1b (some 7) = none :=
  ⟨by decide, by decide, by decide, by decide, by decide, by decide, by decide, by decide,
    by decide, by decide,
    transfer_fidelity example_running example_fresh example_group example_group 7 7
      (by decide) (by decide) (by decide) (by decide) (by decide) (by decide) (by decide)
      (by decide) (by decide) (by decide) (by decide) (by decide)⟩

/-- C2: a sync-begin frame whose num-messages attribute is the decimal
rendering of N (with N + 2 < 2^32), received from the synchronizer before any
begin was accepted, sets M = N + 2 and r = 1, emits exactly one
synchronization-progress with fraction 1/M, sends no frame and leaves the
session Synchronizing: the session afterwards differs from the one before in
the two counters and in one trace entry only. -/
theorem sync_begin_sets_counters (klass : InfSessionClass) (p : InfSessionPrivate)
    (c : InfXmlConnection) (node : XmlNode) (N : Nat)
    (hs : p.status = .SYNCHRONIZING) (hc : p.sync_conn = some c)
    (hM : p.sync_messages_total = 0)
    (hname : node.name = "sync-begin")
    (hattr : xmlGetProp node "num-messages" = some (Nat.repr N))
    (hN : N + 2 < 2 ^ 32) :
    inf_session_net_object_received klass p c node
      = .ok (false, none, { p with
          sync_messages_total := N + 2, sync_messages_received := 1,
          trace := p.trace ++ [.emit (.synchronization_progress c 1 (N + 2))] }) :=
  sync_begin_received klass p c node N hs hc hM hname hattr hN

/-- Witness of C2: sync-begin with num-messages 5 on `example_fresh`. -/
theorem sync_begin_sets_counters_witness :
    example_fresh.status = .SYNCHRONIZING ∧ example_fresh.sync_conn = some 7
      ∧ example_fresh.sync_messages_total = 0
      ∧ xmlGetProp ⟨"sync-begin", [("num-messages", "5")]⟩ "num-messages" = some (Nat.repr 5)
      ∧ inf_session_net_object_received example_class example_fresh 7
          ⟨"sync-begin", [("num-messages", "5")]⟩
        = .ok (false, none, { example_fresh with
            sync_messages_total := 5 + 2, sync_messages_received := 1,
            trace := example_fresh.trace ++ [.emit (.synchronization_progress 7 1 (5 + 2))] }) :=
  ⟨by decide, by decide, by decide, by decide,
    sync_begin_sets_counters example_class example_fresh 7 ⟨"sync-begin", [("num-messages", "5")]⟩ 5
      (by decide) (by decide) (by decide) (by decide) (by decide) (by decide)⟩

/-- C3: a sync-end frame from the synchronizer is accepted exactly when
r = M - 1 held before the frame (in `guint` arithmetic, which for M ≥ 1 is
r + 1 = M). When it is accepted the session enqueues one sync-ack to the
synchronizer, then emits synchronization-complete, and ends Running with an
empty outbound roster; otherwise the handling fails with
UnexpectedEndOfSync. -/
theorem sync_end_accepted_iff (klass : InfSessionClass) (p : InfSessionPrivate)
    (c : InfXmlConnection) (g : InfConnectionManagerGroup) (node : XmlNode)
    (hs : p.status = .SYNCHRONIZING) (hc : p.sync_conn = some c) (hg : p.sync_group = some g)
    (hr : p.sync_messages_received < 2 ^ 32) (hM : p.sync_messages_total < 2 ^ 32)
    (hname : node.name = "sync-end") :
    (inf_session_handle_received_sync_message klass p c node
      = if p.sync_messages_received = guint_sub p.sync_messages_total 1 then
          .ok (true, none, { p with
            sync_messages_received := p.sync_messages_total,
            status := .RUNNING, run_syncs := [], sync_conn := none, sync_group := none,
            trace := p.trace ++ [.send_to_connection g c (xmlNewNode "sync-ack"),
              .emit (.synchronization_complete c), .group_unref g,
              .signal_disconnect c, .object_unref c, .notify "status"] })
        else
          .ok (false, some (sync_error .UNEXPECTED_END_OF_SYNC), { p with
            sync_messages_received := guint (p.sync_messages_received + 1) }))
    ∧ (1 ≤ p.sync_messages_total →
        (p.sync_messages_received = guint_sub p.sync_messages_total 1
          ↔ p.sync_messages_received + 1 = p.sync_messages_total)) := by
  refine ⟨handle_sync_end klass p c g node hs hc hg hr hM hname, ?_⟩
  intro h1
  unfold guint_sub
  omega

/-- Witness of C3: sync-end after begin(0) is accepted. -/
theorem sync_end_accepted_iff_witness :
    example_all_received.status = .SYNCHRONIZING
      ∧ example_all_received.sync_conn = some 7
      ∧ example_all_received.sync_group = some example_group
      ∧ (inf_session_handle_received_sync_message example_class example_all_received 7
            ⟨"sync-end", []⟩
          = .ok (true, none, { example_all_received with
              sync_messages_received := 2,
              status := .RUNNING, run_syncs := [], sync_conn := none, sync_group := none,
              trace := example_all_received.trace
                ++ [.send_to_connection example_group 7 (xmlNewNode "sync-ack"),
                  .emit (.synchronization_complete 7), .group_unref example_group,
                  .signal_disconnect 7, .object_unref 7, .notify "status"] })) :=
  ⟨by decide, by decide, by decide,
    (sync_end_accepted_iff example_class example_all_received 7 example_group ⟨"sync-end", []⟩
      (by decide) (by decide) (by decide) (by decide) (by decide) (by decide)).1⟩

/-- C4: a frame from the synchronizer that is none of sync-begin, sync-end and
sync-cancel fails with ExpectedBeginOfSync when r = 0 and with
ExpectedEndOfSync when r = M - 1 (with a begin accepted, r ≠ 0). The session
afterwards is the session before, whatever the class: the content processor
has no part in the result, and the user table and both counters are
unchanged. -/
theorem content_frame_outside_window (klass : InfSessionClass) (p : InfSessionPrivate)
    (c : InfXmlConnection) (node : XmlNode)
    (hs : p.status = .SYNCHRONIZING) (hn : is_content_frame node) :
    (p.sync_messages_received = 0 →
      inf_session_handle_received_sync_message klass p c node
        = .ok (false, some (sync_error .EXPECTED_BEGIN_OF_SYNC), p))
    ∧ (p.sync_messages_received ≠ 0 →
        p.sync_messages_received = guint_sub p.sync_messages_total 1 →
        inf_session_handle_received_sync_message klass p c node
          = .ok (false, some (sync_error .EXPECTED_END_OF_SYNC), p)) :=
  ⟨handle_content_no_begin klass p c node hs hn,
    handle_content_all_received klass p c node hs hn⟩

/-- Witness of C4: a sync-user frame before any begin, and one after begin(0). -/
theorem content_frame_outside_window_witness :
    example_fresh.status = .SYNCHRONIZING
      ∧ is_content_frame ⟨"sync-user", [("id", "1"), ("name", "Ann")]⟩
      ∧ example_all_received.status = .SYNCHRONIZING
      ∧ example_fresh.sync_messages_received = 0
      ∧ example_all_received.sync_messages_received ≠ 0
      ∧ example_all_received.sync_messages_received
          = guint_sub example_all_received.sync_messages_total 1
      ∧ inf_session_handle_received_sync_message example_class example_fresh 7
            ⟨"sync-user", [("id", "1"), ("name", "Ann")]⟩
          = .ok (false, some (sync_error .EXPECTED_BEGIN_OF_SYNC), example_fresh)
      ∧ inf_session_handle_received_sync_message example_class example_all_received 7
            ⟨"sync-user", [("id", "1"), ("name", "Ann")]⟩
          = .ok (false, some (sync_error .EXPECTED_END_OF_SYNC), example_all_received) :=
  ⟨by decide, by decide, by decide, by decide, by decide, by decide,
    (content_frame_outside_window example_class example_fresh 7
      ⟨"sync-user", [("id", "1"), ("name", "Ann")]⟩ (by decide)
      (by decide)).1 (by decide),
    (content_frame_outside_window example_class example_all_received 7
      ⟨"sync-user", [("id", "1"), ("name", "Ann")]⟩ (by decide)
      (by decide)).2 (by decide) (by decide)⟩

/-- C5: with 0 < r < M - 1 a content frame from the synchronizer is handed to
the content processor of the class. If the processor succeeds, r grows by
exactly 1, M stays, and exactly one synchronization-progress with fraction
(r + 1)/M is emitted; if it fails, r and M stay and nothing is emitted. The
content processor of the base class fails with UnexpectedNode for every
element name other than sync-user, so it accepts sync-user frames only. -/
theorem content_frame_delegated (klass : InfSessionClass) (p : InfSessionPrivate)
    (c : InfXmlConnection) (node : XmlNode)
    (hs : p.status = .SYNCHRONIZING) (hc : p.sync_conn = some c) (hn : is_content_frame node)
    (h0 : 0 < p.sync_messages_received)
    (h1 : p.sync_messages_received + 1 < p.sync_messages_total)
    (hM : p.sync_messages_total < 2 ^ 32) :
    (inf_session_handle_received_sync_message klass p c node
      = if (klass.process_xml_sync p c node).1 = true then
          .ok (true, none, { p with
            user_table := (klass.process_xml_sync p c node).2.2,
            sync_messages_received := p.sync_messages_received + 1,
            trace := p.trace ++ [.emit (.synchronization_progress c
              (p.sync_messages_received + 1) p.sync_messages_total)] })
        else
          .ok (false, (klass.process_xml_sync p c node).2.1, { p with
            user_table := (klass.process_xml_sync p c node).2.2 }))
    ∧ (∀ uk : InfSessionUserClass, node.name ≠ "sync-user" →
        inf_session_process_xml_sync_impl uk p c node
          = (false, some (sync_error .UNEXPECTED_NODE), p.user_table))
    ∧ (∀ uk : InfSessionUserClass,
        (inf_session_process_xml_sync_impl uk p c node).1 = true → node.name = "sync-user") :=
  ⟨handle_content_window klass p c node hs hn h0 h1 hM,
    fun uk hne => process_xml_sync_impl_other uk p c node hs hc hne,
    fun uk h => process_xml_sync_impl_accepts uk p c node h⟩

/-- Witness of C5: a second sync-user frame after begin(5) and one user. -/
theorem content_frame_delegated_witness :
    example_midstream.status = .SYNCHRONIZING
      ∧ example_midstream.sync_conn = some 7
      ∧ is_content_frame ⟨"sync-user", [("id", "2"), ("name", "Bob")]⟩
      ∧ 0 < example_midstream.sync_messages_received
      ∧ example_midstream.sync_messages_received + 1 < example_midstream.sync_messages_total
      ∧ (example_class.process_xml_sync example_midstream 7
            ⟨"sync-user", [("id", "2"), ("name", "Bob")]⟩).1 = true
      ∧ inf_session_handle_received_sync_message example_class example_midstream 7
            ⟨"sync-user", [("id", "2"), ("name", "Bob")]⟩
          = .ok (true, none, { example_midstream with
              user_table := [⟨1, "Ann", .UNAVAILABLE⟩, ⟨2, "Bob", .UNAVAILABLE⟩],
              sync_messages_received := 3,
              trace := example_midstream.trace ++ [.emit (.synchronization_progress 7 3 7)] }) :=
  ⟨by decide, by decide, by decide, by decide, by decide, by decide,
    ((content_frame_delegated example_class example_midstream 7
      ⟨"sync-user", [("id", "2"), ("name", "Bob")]⟩ (by decide) (by decide)
      (by decide) (by decide) (by decide) (by decide)).1).trans
      (by decide)⟩

/-- C6 (the code at the failing input): a fresh Synchronizing session accepts
sync-begin with num-messages 4294967294; afterwards M = 0 and r = 1, so
neither M ≥ 2 nor r ≤ M holds, and the progress event divides by 0. -/
theorem sync_begin_overflow :
    inf_session_net_object_received example_class example_fresh 7
        ⟨"sync-begin", [("num-messages", "4294967294")]⟩
      = .ok (false, none, { example_fresh with
          sync_messages_total := 0, sync_messages_received := 1,
          trace := [.emit (.synchronization_progress 7 1 0)] }) := by
  decide

/-- C7: when the handling of a frame from the synchronizer fails with an error
E, the session enqueues exactly one sync-error frame to the synchronizer,
carrying the domain string of E and the decimal rendering of its code, then
emits exactly one synchronization-failed(synchronizer, E), whose default
handler closes the session: the status afterwards is Closed. -/
theorem sync_failure_reported_then_closed (klass : InfSessionClass)
    (p p1 : InfSessionPrivate) (c : InfXmlConnection) (g : InfConnectionManagerGroup)
    (node : XmlNode) (e : GError)
    (hs : p.status = .SYNCHRONIZING) (hc : p.sync_conn = some c) (hg : p.sync_group = some g)
    (hcl : p.sync_closing = false)
    (hfail : inf_session_handle_received_sync_message klass p c node
      = .ok (false, some e, p1)) :
    inf_session_net_object_received klass p c node
        = .ok (false, none, { p1 with
            status := .CLOSED, sync_closing := true, subscription_group := none,
            trace := p.trace ++ [.send_to_connection g c (sync_error_frame e),
              .emit (.synchronization_failed (some c) e), .emit .close, .group_unref g]
              ++ subscription_release p.subscription_group ++ [.notify "status"] })
      ∧ xmlGetProp (sync_error_frame e) "domain" = some e.domain
      ∧ (e.code < 2 ^ 32 → xmlGetProp (sync_error_frame e) "code" = some (Nat.repr e.code)) := by
  obtain ⟨f1, f2, f3, f4, f5, f6, -, -⟩ := handle_error_frame klass p p1 c node e hfail
  refine ⟨?_, by simp [sync_error_frame, xmlGetProp], ?_⟩
  · have hsend : inf_session_send_sync_error p1 e
        = { p1 with trace := p1.trace ++ [.send_to_connection g c (sync_error_frame e)] } := by
      simp [inf_session_send_sync_error, f1, f2, f3, hs, hc, hg, sync_error_frame, xmlNewProp,
        xmlNewNode, inf_connection_manager_group_send_to_connection, InfSessionPrivate.log]
    simp only [inf_session_net_object_received, hs, hc, hfail, bind, Except.bind]
    simp only [ne_eq, not_true_eq_false, if_false, hsend]
    rw [g_signal_emit_failed_synchronizing _ c g e (by simp [f1, hs]) (by simp [f2, hc])
      (by simp [f3, hg]) (by simp [f4, hcl])]
    simp [pure, Except.pure, f5, f6]
  · intro h
    simp [sync_error_frame, xmlGetProp, sprintf_u_eq_repr e.code h]

/-- Witness of C7: sync-begin without num-messages on `example_fresh`. -/
theorem sync_failure_reported_then_closed_witness :
    example_fresh.status = .SYNCHRONIZING ∧ example_fresh.sync_conn = some 7
      ∧ example_fresh.sync_group = some example_group ∧ example_fresh.sync_closing = false
      ∧ inf_session_handle_received_sync_message example_class example_fresh 7 ⟨"sync-begin", []⟩
          = .ok (false, some (sync_error .NUM_MESSAGES_MISSING), example_fresh)
      ∧ inf_session_net_object_received example_class example_fresh 7 ⟨"sync-begin", []⟩
        = .ok (false, none, { example_fresh with
            status := .CLOSED, sync_closing := true, subscription_group := none,
            trace := example_fresh.trace
              ++ [.send_to_connection example_group 7
                    (sync_error_frame (sync_error .NUM_MESSAGES_MISSING)),
                .emit (.synchronization_failed (some 7) (sync_error .NUM_MESSAGES_MISSING)),
                .emit .close, .group_unref example_group]
              ++ subscription_release example_fresh.subscription_group
              ++ [.notify "status"] }) :=
  ⟨by decide, by decide, by decide, by decide, by decide,
    (sync_failure_reported_then_closed example_class example_fresh example_fresh 7 example_group
      ⟨"sync-begin", []⟩ (sync_error .NUM_MESSAGES_MISSING)
      (by decide) (by decide) (by decide) (by decide) (by decide)).1⟩

/-- C8: in any inbound state (before begin, mid-stream, all items received) a
sync-cancel frame from the synchronizer emits exactly one
synchronization-failed(synchronizer, SenderCancelled), enqueues no frame at
all (neither the frame handling nor the close it triggers sends a sync-error)
and ends with status Closed. -/
theorem sync_cancel_closes_without_frame (klass : InfSessionClass) (p : InfSessionPrivate)
    (c : InfXmlConnection) (g : InfConnectionManagerGroup) (node : XmlNode)
    (hs : p.status = .SYNCHRONIZING) (hc : p.sync_conn = some c) (hg : p.sync_group = some g)
    (hcl : p.sync_closing = false) (hname : node.name = "sync-cancel") :
    inf_session_net_object_received klass p c node
        = .ok (false, none, { p with
            status := .CLOSED, sync_closing := true, subscription_group := none,
            trace := p.trace
              ++ [.emit (.synchronization_failed (some c) (sync_error .SENDER_CANCELLED)),
                .emit .close, .group_unref g]
              ++ subscription_release p.subscription_group ++ [.notify "status"] })
      ∧ frames_sent
          ([.emit (.synchronization_failed (some c) (sync_error .SENDER_CANCELLED)),
              .emit .close, .group_unref g]
            ++ subscription_release p.subscription_group ++ [.notify "status"]) = []
      ∧ signals_emitted
          ([.emit (.synchronization_failed (some c) (sync_error .SENDER_CANCELLED)),
              .emit .close, .group_unref g]
            ++ subscription_release p.subscription_group ++ [.notify "status"])
          = [.synchronization_failed (some c) (sync_error .SENDER_CANCELLED), .close] := by
  refine ⟨?_, ?_, ?_⟩
  · have hh : inf_session_handle_received_sync_message klass p c node
        = .ok (false, none, { p with
            status := .CLOSED, sync_closing := true, subscription_group := none,
            trace := p.trace
              ++ [.emit (.synchronization_failed (some c) (sync_error .SENDER_CANCELLED)),
                .emit .close, .group_unref g]
              ++ subscription_release p.subscription_group ++ [.notify "status"] }) := by
      simp only [inf_session_handle_received_sync_message, hs, hname, ne_eq,
        not_true_eq_false, if_false, if_true]
      rw [g_signal_emit_failed_synchronizing p c g _ hs hc hg hcl]
      rfl
    simp [inf_session_net_object_received, hs, hc, hh, bind, Except.bind, pure, Except.pure]
  · cases p.subscription_group <;> simp [frames_sent, subscription_release]
  · cases p.subscription_group <;> simp [signals_emitted, subscription_release]

/-- Witness of C8: sync-cancel after sync-begin with num-messages 5 and one sync-user. -/
theorem sync_cancel_closes_without_frame_witness :
    (deliver example_class 7 example_fresh
        [⟨"sync-begin", [("num-messages", "5")]⟩, ⟨"sync-user", [("id", "1"), ("name", "Ann")]⟩]
      = .ok example_midstream)
      ∧ example_midstream.status = .SYNCHRONIZING ∧ example_midstream.sync_conn = some 7
      ∧ example_midstream.sync_group = some example_group
      ∧ example_midstream.sync_closing = false
      ∧ inf_session_net_object_received example_class example_midstream 7 ⟨"sync-cancel", []⟩
        = .ok (false, none, { example_midstream with
            status := .CLOSED, sync_closing := true, subscription_group := none,
            trace := example_midstream.trace
              ++ [.emit (.synchronization_failed (some 7) (sync_error .SENDER_CANCELLED)),
                .emit .close, .group_unref example_group]
              ++ subscription_release example_midstream.subscription_group
              ++ [.notify "status"] }) :=
  ⟨by decide, by decide, by decide, by decide, by decide,
    (sync_cancel_closes_without_frame example_class example_midstream 7 example_group
      ⟨"sync-cancel", []⟩ (by decide) (by decide) (by decide) (by decide) (by decide)).1⟩

/-- C9: on a Running session without a record for peer p, with p a member of
group g and the content enumerator producing the items i_1..i_K (K + 2 within
the `guint` range of the message counter), `inf_session_synchronize_to`
prepends exactly one record for p with T = K + 2, s = 0 and status InProgress,
and enqueues to p exactly sync-begin with num-messages = decimal K, then
i_1..i_K in enumeration order, then sync-end. The enumerator of the base
class produces one sync-user per user of the user table, so an empty table
gives T = 2 and the frames begin(0), end. -/
theorem synchronize_to_frames (klass : InfSessionClass) (p : InfSessionPrivate)
    (g : InfConnectionManagerGroup) (c : InfXmlConnection) (items : List XmlNode)
    (hs : p.status = .RUNNING)
    (hnone : inf_session_find_sync_by_connection p (some c) = none)
    (hmem : inf_connection_manager_group_has_connection g c = true)
    (hitems : klass.to_xml_sync { p with
        run_syncs := ⟨g, c, 2, 0, .IN_PROGRESS⟩ :: p.run_syncs,
        trace := p.trace ++ [.object_ref c, .signal_connect c, .group_ref g] } = items)
    (hK : items.length + 2 < 2 ^ 32) :
    inf_session_synchronize_to klass p g c
        = .ok { p with
            run_syncs := ⟨g, c, items.length + 2, 0, .IN_PROGRESS⟩ :: p.run_syncs,
            trace := p.trace ++ [.object_ref c, .signal_connect c, .group_ref g]
              ++ [.send_to_connection g c
                    ⟨"sync-begin", [("num-messages", Nat.repr items.length)]⟩]
              ++ items.map (fun xml => Effect.send_to_connection g c xml)
              ++ [.send_to_connection g c ⟨"sync-end", []⟩] }
      ∧ frames_to
          ([Effect.object_ref c, .signal_connect c, .group_ref g]
            ++ [Effect.send_to_connection g c
                  ⟨"sync-begin", [("num-messages", Nat.repr items.length)]⟩]
            ++ items.map (fun xml => Effect.send_to_connection g c xml)
            ++ [Effect.send_to_connection g c ⟨"sync-end", []⟩]) c
          = ⟨"sync-begin", [("num-messages", Nat.repr items.length)]⟩ :: items
              ++ [⟨"sync-end", []⟩]
      ∧ (∀ (user_new : Option (InfSessionPrivate → List GParameter → Option InfUser))
            (q : InfSessionPrivate),
          (inf_session_class_init user_new).to_xml_sync q = q.user_table.map sync_user_frame) :=
  ⟨synchronize_to_ok klass p g c items hs hnone hmem hitems hK,
    frames_to_synchronize g c _ _ items,
    to_xml_sync_class_init⟩

/-- Witness of C9: the empty user table gives T = 2 and the frames begin(0), end. -/
theorem synchronize_to_frames_witness :
    example_running_empty.status = .RUNNING
      ∧ inf_session_find_sync_by_connection example_running_empty (some 7) = none
      ∧ inf_connection_manager_group_has_connection example_group 7 = true
      ∧ inf_session_synchronize_to example_class example_running_empty example_group 7
        = .ok { example_running_empty with
            run_syncs := [⟨example_group, 7, 2, 0, .IN_PROGRESS⟩],
            trace := [.object_ref 7, .signal_connect 7, .group_ref example_group,
              .send_to_connection example_group 7 ⟨"sync-begin", [("num-messages", "0")]⟩,
              .send_to_connection example_group 7 ⟨"sync-end", []⟩] } :=
  ⟨by decide, by decide, by decide,
    (synchronize_to_frames example_class example_running_empty example_group 7 []
      (by decide) (by decide) (by decide) (by decide) (by decide)).1⟩

/-- C10 (amended): when the status is not Running, or a record for p exists
already, `inf_session_synchronize_to` returns with the session unchanged (no
record, no frame). When p is not a member of g while the other two
preconditions hold, the call does not return: the membership assertion
aborts. -/
theorem synchronize_to_preconditions (klass : InfSessionClass) (p : InfSessionPrivate)
    (g : InfConnectionManagerGroup) (c : InfXmlConnection) :
    (p.status ≠ .RUNNING → inf_session_synchronize_to klass p g c = .ok p)
    ∧ (inf_session_find_sync_by_connection p (some c) ≠ none →
        inf_session_synchronize_to klass p g c = .ok p)
    ∧ (p.status = .RUNNING → inf_session_find_sync_by_connection p (some c) = none →
        inf_connection_manager_group_has_connection g c = false →
        inf_session_synchronize_to klass p g c = .error Fault.assertion) := by
  refine ⟨?_, ?_, ?_⟩
  · intro h
    simp [inf_session_synchronize_to, h, pure, Except.pure]
  · intro h
    unfold inf_session_synchronize_to
    by_cases hs : p.status ≠ .RUNNING
    · simp [hs, pure, Except.pure]
    · simp [hs, h, pure, Except.pure]
  · intro hs hn hm
    simp [inf_session_synchronize_to, hs, hn, hm, throw, throwThe, MonadExceptOf.throw]

/-- Witness of C10 (amended): a session that is not Running, and one that already synchronizes to peer 7. -/
theorem synchronize_to_preconditions_witness :
    example_fresh.status ≠ .RUNNING
      ∧ inf_session_synchronize_to example_class example_fresh example_group 7
          = .ok example_fresh
      ∧ inf_session_find_sync_by_connection example_synchronizing_to (some 7) ≠ none
      ∧ inf_session_synchronize_to example_class example_synchronizing_to example_group 7
          = .ok example_synchronizing_to :=
  ⟨by decide,
    (synchronize_to_preconditions example_class example_fresh example_group 7).1 (by decide),
    by decide,
    (synchronize_to_preconditions example_class example_synchronizing_to example_group 7).2.1
      (by decide)⟩

/-- C10 (counterexample): peer 8 is not a member of the group; the call on a
Running session without a record for 8 does not return the session
unchanged, it aborts on the membership assertion. -/
theorem synchronize_to_nonmember_aborts :
    example_running.status = .RUNNING
      ∧ inf_session_find_sync_by_connection example_running (some 8) = none
      ∧ inf_connection_manager_group_has_connection example_group 8 = false
      ∧ inf_session_synchronize_to example_class example_running example_group 8
          = .error Fault.assertion
      ∧ inf_session_synchronize_to example_class example_running example_group 8
          ≠ .ok example_running := by
  decide

/-- C11: starting from a Running session whose outbound roster has at most one
record per connection (the empty roster of a new session in particular), every
sequence of synchronize-to, frame-sent, frame-enqueued, frame-received,
connection-status and close callbacks that returns leaves a roster with at
most one record per connection. -/
theorem roster_one_record_per_peer (klass : InfSessionClass) (p q : InfSessionPrivate)
    (cbs : List Callback) (hs : p.status = .RUNNING) (hnd : (roster_connections p).Nodup)
    (h : perform_all klass p cbs = .ok q) :
    (roster_connections q).Nodup ∧ ∀ c, (roster_connections q).count c ≤ 1 := by
  have hq := (perform_all_roster klass cbs p q (Or.inl hs) hnd h).2
  exact ⟨hq, fun c => List.nodup_iff_count_le_one.mp hq c⟩

/-- Witness of C11: a transmission to peer 7 with synchronize-to called twice. -/
theorem roster_one_record_per_peer_witness :
    example_running_empty.status = .RUNNING
      ∧ (roster_connections example_running_empty).Nodup
      ∧ perform_all example_class example_running_empty example_handshake
        = .ok example_awaiting_ack
      ∧ (roster_connections example_awaiting_ack).Nodup :=
  ⟨by decide, by decide, by decide,
    (roster_one_record_per_peer example_class example_running_empty example_awaiting_ack
      example_handshake (by decide) (by decide) (by decide)).1⟩

/-- C12: the claim fails. Once the record of peer c has s = T (all T frames of
the transmission were reported sent), one more frame-sent callback for c, for
any frame, fails the assertion s < T. -/
theorem frame_sent_beyond_total_aborts (p : InfSessionPrivate) (c : InfXmlConnection)
    (node : XmlNode) (sync : InfSessionSync) (hs : p.status = .RUNNING)
    (hf : inf_session_find_sync_by_connection p (some c) = some sync)
    (hfull : sync.messages_sent = sync.messages_total) :
    inf_session_net_object_sent p c node = .error Fault.assertion := by
  rw [sent_running p c node sync hs hf, if_neg]
  omega

/-- Failing run of C12: after the transmission to peer 7 (s = T = 2) the
transport reports an unrelated frame to peer 7 as sent. -/
theorem frame_sent_beyond_total_aborts_witness :
    perform_all example_class example_running_empty example_handshake
        = .ok example_awaiting_ack
      ∧ example_awaiting_ack.status = .RUNNING
      ∧ inf_session_find_sync_by_connection example_awaiting_ack (some 7)
        = some ⟨example_group, 7, 2, 2, .AWAITING_ACK⟩
      ∧ inf_session_net_object_sent example_awaiting_ack 7 ⟨"request", []⟩
        = .error Fault.assertion :=
  ⟨by decide, by decide, by decide,
    frame_sent_beyond_total_aborts example_awaiting_ack 7 ⟨"request", []⟩
      ⟨example_group, 7, 2, 2, .AWAITING_ACK⟩ (by decide) (by decide) rfl⟩

/-- C13: for a callback on a Running session, the effects it adds contain
synchronization-complete(c) if and only if the callback is the receipt of a
sync-ack from c while the record of c is AwaitingAck; that receipt retires the
record of c. A sync-ack while the record is InProgress leaves the session as
it was, and a frame-sent callback never emits complete. -/
theorem complete_iff_awaited_ack (klass : InfSessionClass) (p q : InfSessionPrivate)
    (cb : Callback) (hs : p.status = .RUNNING) (h : perform klass p cb = .ok q) :
    (∃ t, q.trace = p.trace ++ t
        ∧ ∀ c, (Effect.emit (.synchronization_complete c) ∈ t ↔ ack_while_awaiting p cb c))
      ∧ (∀ c node sync, cb = .received c node → node.name = "sync-ack" →
          inf_session_find_sync_by_connection p (some c) = some sync →
          (sync.status = .AWAITING_ACK →
            q = { p with
                run_syncs := p.run_syncs.eraseP (fun s => some s.conn == some c),
                trace := p.trace ++ [.emit (.synchronization_complete c),
                  .group_unref sync.group, .signal_disconnect c, .object_unref c] }
              ∧ ((roster_connections p).Nodup → c ∉ roster_connections q))
          ∧ (sync.status = .IN_PROGRESS → q = p))
      ∧ (∀ c node, cb = .sent c node →
          ∀ c2, Effect.emit (.synchronization_complete c2) ∉ q.trace.drop p.trace.length) := by
  obtain ⟨-, -, t, ht, hiff⟩ := running_step klass p q cb hs h
  refine ⟨⟨t, ht, hiff⟩, ?_, ?_⟩
  · intro c node sync hcb hname hf
    subst hcb
    simp only [perform, bind, Except.bind] at h
    refine ⟨fun hst => ?_, fun hst => ?_⟩
    · rw [received_running_sync_ack klass p c node sync hs hf hname hst] at h
      simp only [pure, Except.pure, Except.ok.injEq] at h
      subst h
      refine ⟨rfl, fun hnd => ?_⟩
      have hm : c ∈ roster_connections p := by
        obtain ⟨h1, h2⟩ := find_sync_some_conn p c sync hf
        exact List.mem_map.mpr ⟨sync, h2, h1⟩
      exact erase_conns_not_mem p.run_syncs c hnd hm
    · have hna : ¬ (node.name = "sync-ack" ∧ sync.status = .AWAITING_ACK) := by
        rw [hst]
        simp
      have hne : node.name ≠ "sync-error" := by
        rw [hname]
        decide
      rw [received_running_ignored klass p c node sync hs hf hne hna] at h
      simp only [pure, Except.pure, Except.ok.injEq] at h
      exact h.symm
  · intro c node hcb c2
    rw [ht, List.drop_left, hiff]
    rintro ⟨n, s, h1, -⟩
    rw [hcb] at h1
    cases h1

/-- Witness of C13: the sync-ack of peer 7 arrives while its record awaits it. -/
theorem complete_iff_awaited_ack_witness :
    example_awaiting_ack.status = .RUNNING
      ∧ perform example_class example_awaiting_ack (.received 7 ⟨"sync-ack", []⟩)
        = .ok { example_awaiting_ack with
            run_syncs := [],
            trace := example_awaiting_ack.trace ++ [.emit (.synchronization_complete 7),
              .group_unref example_group, .signal_disconnect 7, .object_unref 7] }
      ∧ ∃ t, ({ example_awaiting_ack with
            run_syncs := [],
            trace := example_awaiting_ack.trace ++ [.emit (.synchronization_complete 7),
              .group_unref example_group, .signal_disconnect 7, .object_unref 7] }
            : InfSessionPrivate).trace = example_awaiting_ack.trace ++ t
          ∧ ∀ c, (Effect.emit (.synchronization_complete c) ∈ t
            ↔ ack_while_awaiting example_awaiting_ack (.received 7 ⟨"sync-ack", []⟩) c) :=
  ⟨by decide, by decide,
    (complete_iff_awaited_ack example_class example_awaiting_ack _
      (.received 7 ⟨"sync-ack", []⟩) (by decide) (by decide)).1⟩

/-- C14: on a Running session with a record for peer c, in either record
status, a sync-error frame from c clears the queue of c, emits exactly one
synchronization-failed(c, E) and retires the record of c; E carries the domain
attribute and the code that strtoul reads from the code attribute (the number
itself for a decimal numeral, also for domains and codes the session does not
know) when both attributes are present, and is the session's FAILED error when
either is missing. -/
theorem sync_error_received_while_running (klass : InfSessionClass) (p : InfSessionPrivate)
    (c : InfXmlConnection) (node : XmlNode) (sync : InfSessionSync)
    (hs : p.status = .RUNNING)
    (hf : inf_session_find_sync_by_connection p (some c) = some sync)
    (hname : node.name = "sync-error") :
    ∃ E, inf_session_net_object_received klass p c node
        = .ok (false, none, { p with
            run_syncs := p.run_syncs.eraseP (fun s => some s.conn == some c),
            trace := p.trace ++ [.clear_queue sync.group c,
              .emit (.synchronization_failed (some c) E),
              .group_unref sync.group, .signal_disconnect c, .object_unref c] })
      ∧ (∀ d cs, xmlGetProp node "domain" = some d → xmlGetProp node "code" = some cs →
          E = ⟨d, guint (strtoul cs 0),
            inf_session_get_sync_error_message d (guint (strtoul cs 0))⟩)
      ∧ (∀ d n, n < 2 ^ 32 → xmlGetProp node "domain" = some d →
          xmlGetProp node "code" = some (sprintf_u n) → E.domain = d ∧ E.code = n)
      ∧ (xmlGetProp node "domain" = none ∨ xmlGetProp node "code" = none →
          E = sync_error .FAILED)
      ∧ ((roster_connections p).Nodup →
          c ∉ (p.run_syncs.eraseP (fun s => some s.conn == some c)).map (fun s => s.conn)) := by
  refine ⟨remote_sync_error node, received_running_sync_error klass p c node sync hs hf hname,
    ?_, ?_, ?_, ?_⟩
  · intro d cs hd hc
    simp [remote_sync_error, hd, hc]
  · intro d n hn hd hc
    have h1 : strtoul (sprintf_u n) 0 = n := by
      rw [sprintf_u_eq_repr n hn]
      exact strtoul_repr n 0 hn (Or.inl rfl)
    have h2 : guint n = n := Nat.mod_eq_of_lt hn
    simp [remote_sync_error, hd, hc, h1, h2]
  · intro h
    rcases h with h | h
    · simp [remote_sync_error, h]
    · cases hd : xmlGetProp node "domain" <;> simp [remote_sync_error, h]
  · intro hnd
    have hm : c ∈ roster_connections p := by
      obtain ⟨h1, h2⟩ := find_sync_some_conn p c sync hf
      exact List.mem_map.mpr ⟨sync, h2, h1⟩
    exact erase_conns_not_mem p.run_syncs c hnd hm

/-- Witness of C14: peer 7 reports an error of a domain the session does not
know, code 42, while the session synchronises to it. -/
theorem sync_error_received_while_running_witness :
    example_synchronizing_to.status = .RUNNING
      ∧ inf_session_find_sync_by_connection example_synchronizing_to (some 7)
        = some ⟨example_group, 7, 4, 0, .IN_PROGRESS⟩
      ∧ ∃ E, inf_session_net_object_received example_class example_synchronizing_to 7
            ⟨"sync-error", [("domain", "OTHER_DOMAIN"), ("code", "42")]⟩
          = .ok (false, none, { example_synchronizing_to with
              run_syncs := [],
              trace := [.clear_queue example_group 7,
                .emit (.synchronization_failed (some 7) E),
                .group_unref example_group, .signal_disconnect 7, .object_unref 7] })
        ∧ E.domain = "OTHER_DOMAIN" ∧ E.code = 42 :=
  ⟨by decide, by decide,
    (sync_error_received_while_running example_class example_synchronizing_to 7
      ⟨"sync-error", [("domain", "OTHER_DOMAIN"), ("code", "42")]⟩
      ⟨example_group, 7, 4, 0, .IN_PROGRESS⟩ (by decide) (by decide) rfl).imp
      (fun _ hE => ⟨hE.1, hE.2.2.1 "OTHER_DOMAIN" 42 (by decide) (by decide) (by decide)⟩)⟩

/-- C15, as the code has it: on a Running session with a record for peer c, a
frame from c that is neither sync-ack nor sync-error is dropped: the handler
returns FALSE without an error and the session is unchanged, whatever the
run-time content processor of the class would do. Only a frame from a
connection without a record goes to the processor, whose result is returned. -/
theorem other_frames_from_sync_peer_dropped (klass : InfSessionClass) (p : InfSessionPrivate)
    (c : InfXmlConnection) (node : XmlNode) (sync : InfSessionSync)
    (hs : p.status = .RUNNING)
    (hf : inf_session_find_sync_by_connection p (some c) = some sync)
    (hne : node.name ≠ "sync-error") (hna : node.name ≠ "sync-ack") :
    inf_session_net_object_received klass p c node = .ok (false, none, p)
      ∧ ∀ c2, inf_session_find_sync_by_connection p (some c2) = none →
        inf_session_net_object_received klass p c2 node
          = .ok ((klass.process_xml_run p c2 node).1, (klass.process_xml_run p c2 node).2.1,
              { p with user_table := (klass.process_xml_run p c2 node).2.2 }) :=
  ⟨received_running_ignored klass p c node sync hs hf hne (fun h => hna h.1),
    fun c2 h2 => received_running_no_record klass p c2 node hs h2⟩

/-- Witness of C15 as amended: a request frame from peer 7 while the session
synchronises to it. -/
theorem other_frames_from_sync_peer_dropped_witness :
    example_synchronizing_to.status = .RUNNING
      ∧ inf_session_find_sync_by_connection example_synchronizing_to (some 7)
        = some ⟨example_group, 7, 4, 0, .IN_PROGRESS⟩
      ∧ inf_session_net_object_received example_class_accepting example_synchronizing_to 7
          ⟨"request", []⟩ = .ok (false, none, example_synchronizing_to) :=
  ⟨by decide, by decide,
    (other_frames_from_sync_peer_dropped example_class_accepting example_synchronizing_to 7
      ⟨"request", []⟩ ⟨example_group, 7, 4, 0, .IN_PROGRESS⟩ (by decide) (by decide)
      (by decide) (by decide)).1⟩

/-- Counterexample to C15: the processor of the class accepts the request
frame (TRUE, no error), yet the handler returns FALSE for it when it comes
from peer 7, to which the session synchronises; from peer 8, which has no
record, the processor's TRUE is returned. -/
theorem sync_peer_frame_not_delegated :
    example_synchronizing_to.status = .RUNNING
      ∧ inf_session_find_sync_by_connection example_synchronizing_to (some 7)
        = some ⟨example_group, 7, 4, 0, .IN_PROGRESS⟩
      ∧ example_class_accepting.process_xml_run example_synchronizing_to 7 ⟨"request", []⟩
        = (true, none, example_synchronizing_to.user_table)
      ∧ inf_session_net_object_received example_class_accepting example_synchronizing_to 7
          ⟨"request", []⟩ = .ok (false, none, example_synchronizing_to)
      ∧ inf_session_net_object_received example_class_accepting example_synchronizing_to 8
          ⟨"request", []⟩ = .ok (true, none, example_synchronizing_to) := by
  decide

/-- C16: close of a Running session handles a record that is InProgress by
clearing the queue of its peer, enqueuing one sync-cancel frame to the peer and
emitting synchronization-failed(peer, ReceiverCancelled), in this order, before
it releases the record; when the other records belong to other connections,
this sync-cancel is the only frame enqueued to the peer. -/
theorem close_cancels_in_progress (p : InfSessionPrivate) (pre post : List InfSessionSync)
    (sync : InfSessionSync) (hs : p.status = .RUNNING)
    (hr : p.run_syncs = pre ++ sync :: post) (hst : sync.status = .IN_PROGRESS) :
    inf_session_close p
        = .ok { p with
            status := .CLOSED, run_syncs := [], subscription_group := none,
            trace := p.trace ++ [.emit .close] ++ close_records_trace pre
              ++ [.clear_queue sync.group sync.conn,
                .send_to_connection sync.group sync.conn (xmlNewNode "sync-cancel"),
                .emit (.synchronization_failed (some sync.conn)
                  (sync_error .RECEIVER_CANCELLED)),
                .group_unref sync.group, .signal_disconnect sync.conn,
                .object_unref sync.conn]
              ++ close_records_trace post
              ++ subscription_release p.subscription_group ++ [.notify "status"] }
      ∧ ((∀ r ∈ pre ++ post, r.conn ≠ sync.conn) →
          ∀ g n, Effect.send_to_connection g sync.conn n
            ∉ close_records_trace pre ++ close_records_trace post
              ++ subscription_release p.subscription_group) := by
  constructor
  · rw [close_running p hs, hr, close_records_trace_append, close_records_trace_cons]
    simp [close_record_trace, hst]
  · intro hother g n
    have h1 := (close_records_trace_no_send pre sync.conn
      (fun r hr => hother r (List.mem_append_left _ hr)) g n).1
    have h2 := (close_records_trace_no_send post sync.conn
      (fun r hr => hother r (List.mem_append_right _ hr)) g n).1
    simp only [List.mem_append, not_or]
    refine ⟨⟨h1, h2⟩, ?_⟩
    cases p.subscription_group <;> simp [subscription_release]

/-- Witness of C16: close while peer 7 awaits its ack and peer 9 is InProgress. -/
theorem close_cancels_in_progress_witness :
    example_two_peers.status = .RUNNING
      ∧ example_two_peers.run_syncs
        = [⟨example_group, 7, 2, 2, .AWAITING_ACK⟩] ++ ⟨⟨"sync", [9]⟩, 9, 3, 1, .IN_PROGRESS⟩ :: []
      ∧ inf_session_close example_two_peers
        = .ok { example_two_peers with
            status := .CLOSED, run_syncs := [], subscription_group := none,
            trace := example_two_peers.trace ++ [.emit .close]
              ++ close_records_trace [⟨example_group, 7, 2, 2, .AWAITING_ACK⟩]
              ++ [.clear_queue ⟨"sync", [9]⟩ 9,
                .send_to_connection ⟨"sync", [9]⟩ 9 (xmlNewNode "sync-cancel"),
                .emit (.synchronization_failed (some 9) (sync_error .RECEIVER_CANCELLED)),
                .group_unref ⟨"sync", [9]⟩, .signal_disconnect 9, .object_unref 9]
              ++ close_records_trace []
              ++ subscription_release example_two_peers.subscription_group
              ++ [.notify "status"] } :=
  ⟨by decide, by decide,
    (close_cancels_in_progress example_two_peers [⟨example_group, 7, 2, 2, .AWAITING_ACK⟩] []
      ⟨⟨"sync", [9]⟩, 9, 3, 1, .IN_PROGRESS⟩ (by decide) (by decide) (by decide)).1⟩

/-- C17, as the code has it: close of a Running session emits
synchronization-failed(peer, ReceiverCancelled) for every outbound record. For
a record that is AwaitingAck it clears no queue and sends no sync-cancel, but
it does emit the failure and releases the record. -/
theorem close_fails_awaiting_ack (p : InfSessionPrivate) (pre post : List InfSessionSync)
    (sync : InfSessionSync) (hs : p.status = .RUNNING)
    (hr : p.run_syncs = pre ++ sync :: post) (hst : sync.status = .AWAITING_ACK) :
    inf_session_close p
        = .ok { p with
            status := .CLOSED, run_syncs := [], subscription_group := none,
            trace := p.trace ++ [.emit .close] ++ close_records_trace pre
              ++ [.emit (.synchronization_failed (some sync.conn)
                  (sync_error .RECEIVER_CANCELLED)),
                .group_unref sync.group, .signal_disconnect sync.conn,
                .object_unref sync.conn]
              ++ close_records_trace post
              ++ subscription_release p.subscription_group ++ [.notify "status"] }
      ∧ ((∀ r ∈ pre ++ post, r.conn ≠ sync.conn) →
          ∀ g n, Effect.send_to_connection g sync.conn n
              ∉ close_records_trace pre ++ close_records_trace post
                ++ subscription_release p.subscription_group
            ∧ Effect.clear_queue g sync.conn
              ∉ close_records_trace pre ++ close_records_trace post
                ++ subscription_release p.subscription_group) := by
  constructor
  · rw [close_running p hs, hr, close_records_trace_append, close_records_trace_cons]
    simp [close_record_trace, hst]
  · intro hother g n
    have h1 := close_records_trace_no_send pre sync.conn
      (fun r hr => hother r (List.mem_append_left _ hr)) g n
    have h2 := close_records_trace_no_send post sync.conn
      (fun r hr => hother r (List.mem_append_right _ hr)) g n
    simp only [List.mem_append, not_or]
    refine ⟨⟨⟨h1.1, h2.1⟩, ?_⟩, ⟨h1.2.1, h2.2.1⟩, ?_⟩ <;>
    cases p.subscription_group <;> simp [subscription_release]

/-- Witness of C17 as amended: close while the only record, of peer 7, awaits
its ack. -/
theorem close_fails_awaiting_ack_witness :
    example_awaiting_ack.status = .RUNNING
      ∧ example_awaiting_ack.run_syncs = [] ++ ⟨example_group, 7, 2, 2, .AWAITING_ACK⟩ :: []
      ∧ inf_session_close example_awaiting_ack
        = .ok { example_awaiting_ack with
            status := .CLOSED, run_syncs := [], subscription_group := none,
            trace := example_awaiting_ack.trace ++ [.emit .close] ++ close_records_trace []
              ++ [.emit (.synchronization_failed (some 7) (sync_error .RECEIVER_CANCELLED)),
                .group_unref example_group, .signal_disconnect 7, .object_unref 7]
              ++ close_records_trace []
              ++ subscription_release example_awaiting_ack.subscription_group
              ++ [.notify "status"] } :=
  ⟨by decide, by decide,
    (close_fails_awaiting_ack example_awaiting_ack [] [] ⟨example_group, 7, 2, 2, .AWAITING_ACK⟩
      (by decide) (by decide) (by decide)).1⟩

/-- Counterexample to C17: close of the session whose record for peer 7 is
AwaitingAck emits synchronization-failed(7, ReceiverCancelled). -/
theorem close_emits_failed_for_awaiting_ack :
    inf_session_find_sync_by_connection example_awaiting_ack (some 7)
        = some ⟨example_group, 7, 2, 2, .AWAITING_ACK⟩
      ∧ inf_session_close example_awaiting_ack
        = .ok { example_awaiting_ack with
            status := .CLOSED,
            run_syncs := [],
            trace := example_awaiting_ack.trace ++ [.emit .close,
              .emit (.synchronization_failed (some 7) (sync_error .RECEIVER_CANCELLED)),
              .group_unref example_group, .signal_disconnect 7, .object_unref 7,
              .notify "status"] } := by
  decide

/-- C18: a connection-status notification with status closed or closing for a
watched connection c emits exactly one synchronization-failed(c,
ConnectionClosed). For the synchronizer of a Synchronizing session the session
is then closed; for the peer of an outbound record of a Running session the
record of c is retired and no frame at all is enqueued, so no sync-cancel
either, whatever the record's status. A notification with another connection
status leaves the session unchanged. -/
theorem connection_lost_reported (p : InfSessionPrivate) (c : InfXmlConnection)
    (st : InfXmlConnectionStatus) :
    (∀ g, (st = .CLOSED ∨ st = .CLOSING) → p.status = .SYNCHRONIZING →
        p.sync_conn = some c → p.sync_group = some g → p.sync_closing = false →
        inf_session_connection_notify_status_cb p c st
          = .ok { p with
              status := .CLOSED, sync_closing := true, subscription_group := none,
              trace := p.trace
                ++ [.emit (.synchronization_failed (some c) (sync_error .CONNECTION_CLOSED)),
                  .emit .close, .group_unref g]
                ++ subscription_release p.subscription_group ++ [.notify "status"] })
      ∧ (∀ sync, (st = .CLOSED ∨ st = .CLOSING) → p.status = .RUNNING →
          inf_session_find_sync_by_connection p (some c) = some sync →
          inf_session_connection_notify_status_cb p c st
              = .ok { p with
                  run_syncs := p.run_syncs.eraseP (fun s => some s.conn == some c),
                  trace := p.trace ++ [.emit (.synchronization_failed (some c)
                      (sync_error .CONNECTION_CLOSED)),
                    .group_unref sync.group, .signal_disconnect c, .object_unref c] }
            ∧ ((roster_connections p).Nodup →
                c ∉ (p.run_syncs.eraseP (fun s => some s.conn == some c)).map
                  (fun s => s.conn)))
      ∧ (¬ (st = .CLOSED ∨ st = .CLOSING) →
          inf_session_connection_notify_status_cb p c st = .ok p) := by
  refine ⟨?_, ?_, notify_status_other p c st⟩
  · intro g hst hs hc hg hcl
    have h := g_signal_emit_failed_synchronizing p c g (sync_error .CONNECTION_CLOSED)
      hs hc hg hcl
    simp only [inf_session_connection_notify_status_cb, hst, if_true, hs, hc, ne_eq,
      not_true_eq_false, if_false]
    rw [h]
    simp [hs, hc]
  · intro sync hst hs hf
    refine ⟨notify_status_running p c st sync hs hf hst, fun hnd => ?_⟩
    have hm : c ∈ roster_connections p := by
      obtain ⟨h1, h2⟩ := find_sync_some_conn p c sync hf
      exact List.mem_map.mpr ⟨sync, h2, h1⟩
    exact erase_conns_not_mem p.run_syncs c hnd hm

/-- Witness of C18: the connection of peer 7 closes while its record awaits the
ack. -/
theorem connection_lost_reported_witness :
    example_awaiting_ack.status = .RUNNING
      ∧ inf_session_find_sync_by_connection example_awaiting_ack (some 7)
        = some ⟨example_group, 7, 2, 2, .AWAITING_ACK⟩
      ∧ inf_session_connection_notify_status_cb example_awaiting_ack 7 .CLOSED
        = .ok { example_awaiting_ack with
            run_syncs := example_awaiting_ack.run_syncs.eraseP
              (fun s => some s.conn == some 7),
            trace := example_awaiting_ack.trace ++ [.emit (.synchronization_failed (some 7)
                (sync_error .CONNECTION_CLOSED)),
              .group_unref example_group, .signal_disconnect 7, .object_unref 7] }
      ∧ example_fresh.status = .SYNCHRONIZING
      ∧ inf_session_connection_notify_status_cb example_fresh 7 .CLOSING
        = .ok { example_fresh with
            status := .CLOSED, sync_closing := true, subscription_group := none,
            trace := example_fresh.trace
              ++ [.emit (.synchronization_failed (some 7) (sync_error .CONNECTION_CLOSED)),
                .emit .close, .group_unref example_group]
              ++ subscription_release example_fresh.subscription_group
              ++ [.notify "status"] } :=
  ⟨by decide, by decide,
    ((connection_lost_reported example_awaiting_ack 7 .CLOSED).2.1
      ⟨example_group, 7, 2, 2, .AWAITING_ACK⟩ (by decide) (by decide) (by decide)).1,
    by decide,
    (connection_lost_reported example_fresh 7 .CLOSING).1 example_group (by decide)
      (by decide) (by decide) (by decide) (by decide)⟩

/-- C19, as the code has it: when the connection of a peer with an InProgress
record becomes closed or closing, the session emits
synchronization-failed(peer, ConnectionClosed) and retires the record; it
clears no queue and enqueues no frame, so no sync-cancel, and the error is not
ReceiverCancelled. -/
theorem connection_lost_in_progress (p : InfSessionPrivate) (c : InfXmlConnection)
    (st : InfXmlConnectionStatus) (g : InfConnectionManagerGroup) (total sent : Nat)
    (hs : p.status = .RUNNING)
    (hf : inf_session_find_sync_by_connection p (some c)
      = some ⟨g, c, total, sent, .IN_PROGRESS⟩)
    (hlost : st = .CLOSED ∨ st = .CLOSING) :
    ∃ t, inf_session_connection_notify_status_cb p c st
        = .ok { p with
            run_syncs := p.run_syncs.eraseP (fun s => some s.conn == some c),
            trace := p.trace ++ t }
      ∧ signals_emitted t = [.synchronization_failed (some c) (sync_error .CONNECTION_CLOSED)]
      ∧ frames_sent t = []
      ∧ (∀ g2 c2, Effect.clear_queue g2 c2 ∉ t)
      ∧ sync_error .CONNECTION_CLOSED ≠ sync_error .RECEIVER_CANCELLED :=
  ⟨[.emit (.synchronization_failed (some c) (sync_error .CONNECTION_CLOSED)),
      .group_unref g, .signal_disconnect c, .object_unref c],
    notify_status_running p c st _ hs hf hlost, by simp [signals_emitted],
    by simp [frames_sent], by simp, by decide⟩

/-- Witness of C19 as amended: the connection of peer 7 closes while the
session synchronises to it. -/
theorem connection_lost_in_progress_witness :
    example_synchronizing_to.status = .RUNNING
      ∧ inf_session_find_sync_by_connection example_synchronizing_to (some 7)
        = some ⟨example_group, 7, 4, 0, .IN_PROGRESS⟩
      ∧ ∃ t, inf_session_connection_notify_status_cb example_synchronizing_to 7 .CLOSED
          = .ok { example_synchronizing_to with
              run_syncs := example_synchronizing_to.run_syncs.eraseP
                (fun s => some s.conn == some 7),
              trace := example_synchronizing_to.trace ++ t }
        ∧ frames_sent t = [] :=
  ⟨by decide, by decide,
    (connection_lost_in_progress example_synchronizing_to 7 .CLOSED example_group 4 0
      (by decide) (by decide) (Or.inl rfl)).imp (fun _ ht => ⟨ht.1, ht.2.2.1⟩)⟩

/-- Counterexample to C19: the connection of peer 7 closes while its record is
InProgress; the session emits synchronization-failed(7, ConnectionClosed) and
releases the record, with no clear-queue and no sync-cancel frame. -/
theorem connection_lost_sends_no_cancel :
    inf_session_find_sync_by_connection example_synchronizing_to (some 7)
        = some ⟨example_group, 7, 4, 0, .IN_PROGRESS⟩
      ∧ inf_session_connection_notify_status_cb example_synchronizing_to 7 .CLOSED
        = .ok { example_synchronizing_to with
            run_syncs := [],
            trace := [.emit (.synchronization_failed (some 7)
                (sync_error .CONNECTION_CLOSED)),
              .group_unref example_group, .signal_disconnect 7, .object_unref 7] } := by
  decide

/-- C20: close of a Running session returns, for every roster, with status
Closed, an empty roster and no subscription group; close of a Synchronizing
session returns with status Closed and no subscription group. -/
theorem close_terminates_closed (p : InfSessionPrivate) :
    (p.status = .RUNNING →
        ∃ q, inf_session_close p = .ok q ∧ q.status = .CLOSED ∧ q.run_syncs = []
          ∧ q.subscription_group = none)
      ∧ (p.status = .SYNCHRONIZING →
        ∃ q, inf_session_close p = .ok q ∧ q.status = .CLOSED
          ∧ q.subscription_group = none) :=
  ⟨fun hs => ⟨_, close_running p hs, rfl, rfl, rfl⟩, close_synchronizing p⟩

/-- Witness of C20: close with one record AwaitingAck and one InProgress, and
close of a session that is being synchronised. -/
theorem close_terminates_closed_witness :
    example_two_peers.status = .RUNNING
      ∧ (∃ q, inf_session_close example_two_peers = .ok q ∧ q.status = .CLOSED
          ∧ q.run_syncs = [] ∧ q.subscription_group = none)
      ∧ example_midstream.status = .SYNCHRONIZING
      ∧ (∃ q, inf_session_close example_midstream = .ok q ∧ q.status = .CLOSED
          ∧ q.subscription_group = none) :=
  ⟨by decide, (close_terminates_closed example_two_peers).1 (by decide), by decide,
    (close_terminates_closed example_midstream).2 (by decide)⟩

/-- C21: the claim fails. On a Closed session the frame-received callback, the
connection-status callback for status closed or closing, and the
frame-enqueued callback for a sync-end frame each fail an assertion; only the
frame-sent callback, the frame-enqueued callback for other frames and the
connection-status callback for other statuses leave the session as it is. -/
theorem closed_session_callbacks_abort (klass : InfSessionClass) (p : InfSessionPrivate)
    (c : InfXmlConnection) (node : XmlNode) (st : InfXmlConnectionStatus)
    (hs : p.status = .CLOSED) :
    inf_session_net_object_received klass p c node = .error Fault.assertion
      ∧ ((st = .CLOSED ∨ st = .CLOSING) →
          inf_session_connection_notify_status_cb p c st = .error Fault.assertion)
      ∧ (node.name = "sync-end" →
          inf_session_net_object_enqueued p c node = .error Fault.assertion)
      ∧ inf_session_net_object_sent p c node = .ok p
      ∧ (node.name ≠ "sync-end" → inf_session_net_object_enqueued p c node = .ok p)
      ∧ (¬ (st = .CLOSED ∨ st = .CLOSING) →
          inf_session_connection_notify_status_cb p c st = .ok p) := by
  refine ⟨closed_received klass p c node hs, closed_notify_status p c st hs, ?_,
    closed_sent p c node hs, ?_, notify_status_other p c st⟩
  · intro hn
    rw [closed_enqueued p c node hs, if_pos hn]
  · intro hn
    rw [closed_enqueued p c node hs, if_neg hn]

/-- Failing run of C21: a session is constructed to be synchronised from peer
7 and is closed; its connection-status handler is still connected to
connection 7, and when that connection closes the handler fails the
assertion; so does a frame received on the Closed session. -/
theorem closed_session_callbacks_abort_witness :
    inf_session_constructor example_construct_properties = .ok example_registered
      ∧ inf_session_close example_registered = .ok example_closed
      ∧ example_closed.status = .CLOSED
      ∧ watched example_closed.trace 7 = true
      ∧ inf_session_connection_notify_status_cb example_closed 7 .CLOSED
        = .error Fault.assertion
      ∧ inf_session_net_object_received example_class example_closed 7 ⟨"sync-end", []⟩
        = .error Fault.assertion :=
  ⟨by decide, by decide, by decide, by decide,
    (closed_session_callbacks_abort example_class example_closed 7 ⟨"sync-end", []⟩ .CLOSED
      (by decide)).2.1 (Or.inl rfl),
    (closed_session_callbacks_abort example_class example_closed 7 ⟨"sync-end", []⟩ .CLOSED
      (by decide)).1⟩

/-- C22: the claim fails for a session that is closed while Synchronizing. After
an explicit close, and likewise after the synchronization-failed signal of an
inbound failure, the session is Closed but still holds the synchronization
connection and group in its record, and the connection-status handler it
connected to the synchronizer is still connected: the trace gains neither a
disconnect nor an unref of the connection. A later closed notification of that
connection reaches the Closed session and fails its assertion. Close of a
Running session whose handlers are those of its roster does disconnect them
all and leaves no record. -/
theorem close_from_synchronizing_keeps_watcher (p : InfSessionPrivate)
    (c : InfXmlConnection) (g : InfConnectionManagerGroup) (e : GError)
    (hs : p.status = .SYNCHRONIZING) (hc : p.sync_conn = some c) (hg : p.sync_group = some g)
    (hcl : p.sync_closing = false) (hw : watched p.trace c = true) :
    (∃ q, inf_session_close p = .ok q
        ∧ q.status = .CLOSED ∧ q.sync_conn = some c ∧ q.sync_group = some g
        ∧ watched q.trace c = true
        ∧ inf_session_connection_notify_status_cb q c .CLOSED = .error Fault.assertion)
      ∧ (∃ q, g_signal_emit (.synchronization_failed (some c) e) p = .ok q
        ∧ q.status = .CLOSED ∧ q.sync_conn = some c ∧ q.sync_group = some g
        ∧ watched q.trace c = true
        ∧ inf_session_connection_notify_status_cb q c .CLOSED = .error Fault.assertion)
      ∧ (∀ r, r.status = .RUNNING → watch_balanced r →
        ∃ q, inf_session_close r = .ok q ∧ q.status = .CLOSED ∧ q.run_syncs = []
          ∧ ∀ c2, watched q.trace c2 = false) := by
  refine ⟨?_, ?_, fun r hr hb => close_running_unwatched r hr hb⟩
  · obtain ⟨q, h1, h2, h3, h4, h5⟩ := close_synchronizing_watcher p c g hs hc hg hcl hw
    exact ⟨q, h1, h2, h3, h4, h5, closed_notify_status q c .CLOSED h2 (Or.inl rfl)⟩
  · obtain ⟨q, h1, h2, h3, h4, h5⟩ :=
      failed_synchronizing_keeps_watcher p c g e hs hc hg hcl hw
    exact ⟨q, h1, h2, h3, h4, h5, closed_notify_status q c .CLOSED h2 (Or.inl rfl)⟩

/-- Failing run of C22: the session constructed to be synchronised from peer 7
is closed. -/
theorem close_from_synchronizing_keeps_watcher_witness :
    inf_session_constructor example_construct_properties = .ok example_registered
      ∧ example_registered.status = .SYNCHRONIZING
      ∧ example_registered.sync_conn = some 7
      ∧ example_registered.sync_group = some example_group
      ∧ example_registered.sync_closing = false
      ∧ watched example_registered.trace 7 = true
      ∧ ∃ q, inf_session_close example_registered = .ok q
        ∧ q.status = .CLOSED ∧ q.sync_conn = some 7 ∧ q.sync_group = some example_group
        ∧ watched q.trace 7 = true
        ∧ inf_session_connection_notify_status_cb q 7 .CLOSED = .error Fault.assertion :=
  ⟨by decide, by decide, by decide, by decide, by decide, by decide,
    (close_from_synchronizing_keeps_watcher example_registered 7 example_group
      (sync_error .FAILED) (by decide) (by decide) (by decide) (by decide) (by decide)).1⟩

/-- C23: `inf_session_get_synchronization_status` returns, in Synchronizing,
InProgress for the synchronizer connection and None for any other; in Running,
the status of the record that the roster holds for the connection, which is
InProgress or AwaitingAck when the roster is well-formed, and None when the
roster has no record for it; in Closed, None. It is a function of the session
record that returns the status only, so it leaves the session as it is. -/
theorem synchronization_status_cases (p : InfSessionPrivate) (c : InfXmlConnection) :
    (p.status = .SYNCHRONIZING →
        inf_session_get_synchronization_status p c
          = if p.sync_conn = some c then .IN_PROGRESS else .NONE)
      ∧ (p.status = .RUNNING →
        (∀ sync, inf_session_find_sync_by_connection p (some c) = some sync →
            sync ∈ p.run_syncs ∧ sync.conn = c
              ∧ inf_session_get_synchronization_status p c = sync.status)
          ∧ (c ∉ roster_connections p → inf_session_get_synchronization_status p c = .NONE)
          ∧ (roster_sound p →
            (c ∈ roster_connections p
              ↔ inf_session_get_synchronization_status p c = .IN_PROGRESS
                ∨ inf_session_get_synchronization_status p c = .AWAITING_ACK)))
      ∧ (p.status = .CLOSED → inf_session_get_synchronization_status p c = .NONE) := by
  refine ⟨fun hs => ?_, fun hs => ⟨fun sync hf => ?_, fun hn => ?_, fun hsound => ?_⟩,
    fun hs => ?_⟩
  · by_cases h : p.sync_conn = some c
    · simp [inf_session_get_synchronization_status, hs, h]
    · have h2 : ¬ some c = p.sync_conn := fun e => h e.symm
      simp [inf_session_get_synchronization_status, hs, h, h2]
  · obtain ⟨h1, h2⟩ := find_sync_some_conn p c sync hf
    refine ⟨h2, h1, ?_⟩
    rw [status_running p c hs, hf]
  · rw [status_running p c hs, (find_sync_none_iff p c hs).mpr hn]
  · rw [status_running p c hs]
    cases hf : inf_session_find_sync_by_connection p (some c) with
    | none =>
      have := (find_sync_none_iff p c hs).mp hf
      simp [this]
    | some sync =>
      obtain ⟨h1, h2⟩ := find_sync_some_conn p c sync hf
      have hmem : c ∈ roster_connections p := List.mem_map.mpr ⟨sync, h2, h1⟩
      simp only [hmem, true_iff]
      exact (hsound sync h2).1
  · simp [inf_session_get_synchronization_status, hs]

/-- Witness of C23: the record of peer 7 awaits the ack; peer 8 has no record. -/
theorem synchronization_status_cases_witness :
    example_awaiting_ack.status = .RUNNING
      ∧ inf_session_find_sync_by_connection example_awaiting_ack (some 7)
        = some ⟨example_group, 7, 2, 2, .AWAITING_ACK⟩
      ∧ inf_session_get_synchronization_status example_awaiting_ack 7 = .AWAITING_ACK
      ∧ 8 ∉ roster_connections example_awaiting_ack
      ∧ inf_session_get_synchronization_status example_awaiting_ack 8 = .NONE :=
  ⟨by decide, by decide,
    (((synchronization_status_cases example_awaiting_ack 7).2.1 (by decide)).1
      ⟨example_group, 7, 2, 2, .AWAITING_ACK⟩ (by decide)).2.2,
    by decide,
    ((synchronization_status_cases example_awaiting_ack 8).2.1 (by decide)).2.1 (by decide)⟩

/-- C24: the claim fails before the begin frame. For a Synchronizing session
whose message total is still 0, as `inf_session_init_sync` sets it, the
synchronization status of the synchronizer is InProgress and
`inf_session_get_synchronization_progress` returns the quotient r / 0, which is
no number between 0.0 and 1.0. -/
theorem progress_before_begin_divides_by_zero (p : InfSessionPrivate) (c : InfXmlConnection)
    (hs : p.status = .SYNCHRONIZING) (hc : p.sync_conn = some c)
    (hM : p.sync_messages_total = 0) :
    inf_session_get_synchronization_status p c = .IN_PROGRESS
      ∧ inf_session_get_synchronization_progress p c = .ok (p.sync_messages_received, 0)
      ∧ ¬ fraction_in_unit (p.sync_messages_received, 0) := by
  have h1 : inf_session_get_synchronization_status p c = .IN_PROGRESS := by
    simp [inf_session_get_synchronization_status, hs, hc]
  refine ⟨h1, ?_, by simp [fraction_in_unit]⟩
  simp [inf_session_get_synchronization_progress, h1, hs, hc, hM, pure, Except.pure]

/-- Failing input of C24: the session as the constructor builds it, before
any frame. -/
theorem progress_before_begin_divides_by_zero_witness :
    inf_session_constructor example_construct_properties = .ok example_registered
      ∧ example_registered.status = .SYNCHRONIZING
      ∧ example_registered.sync_conn = some 7
      ∧ example_registered.sync_messages_total = 0
      ∧ inf_session_get_synchronization_status example_registered 7 = .IN_PROGRESS
      ∧ inf_session_get_synchronization_progress example_registered 7 = .ok (0, 0) :=
  ⟨by decide, by decide, by decide, by decide,
    (progress_before_begin_divides_by_zero example_registered 7 (by decide) (by decide)
      (by decide)).1,
    (progress_before_begin_divides_by_zero example_registered 7 (by decide) (by decide)
      (by decide)).2.1⟩

/-- C25: the claim fails on a crafted begin frame. The session accepts
sync-begin with num-messages 4294967295, for which the message total wraps
around to 1 and the fraction of the begin is 1/1; the next content frame is
accepted and its progress event carries the fraction 2/1, which is above 1. -/
theorem progress_fraction_exceeds_one :
    deliver example_class 7 example_registered
        [⟨"sync-begin", [("num-messages", "4294967295")]⟩,
          ⟨"sync-user", [("id", "1"), ("name", "Ann"), ("status", "available")]⟩]
      = .ok { example_registered with
          user_table := [⟨1, "Ann", .AVAILABLE⟩],
          sync_messages_total := 1, sync_messages_received := 2,
          trace := example_registered.trace ++ [.emit (.synchronization_progress 7 1 1),
            .emit (.synchronization_progress 7 2 1)] }
      ∧ progress_fractions
          (example_registered.trace ++ [.emit (.synchronization_progress 7 1 1),
            .emit (.synchronization_progress 7 2 1)]) 7 = [(1, 1), (2, 1)]
      ∧ ¬ fraction_in_unit (2, 1) := by
  decide

/-- C26 (amended): when the exclude user is absent or points to no user of
the table, on every user table, and when it points to a user of the table, on
every user table with pairwise distinct ids and pairwise distinct names, the
validation of the base class returns what the reference returns: the first
applicable error in the order IdNotPresent, IdInUse, NameNotPresent,
NameInUse, and success exactly when the list has an id and a name and no user
other than exclude has that id or that name. Users are compared as objects:
a user that merely has the properties of exclude is another user. The result
is a verdict and an error only; the function has no user table to return. -/
theorem validate_user_props_refines (priv : InfSessionPrivate) (params : List GParameter)
    (exclude : Option InfUserPtr)
    (hinv : ∀ i, exclude = some (.held i) → i < priv.user_table.length →
      user_table_invariant priv.user_table) :
    inf_session_validate_user_props_impl priv params exclude
        = validate_user_props_reference priv.user_table params exclude
      ∧ ((inf_session_validate_user_props_impl priv params exclude).1 = true
        ↔ ∃ id name, inf_session_lookup_user_property params "id" = some id
            ∧ inf_session_lookup_user_property params "name" = some name
            ∧ ¬ id_in_use priv.user_table (g_value_get_uint id.value) exclude
            ∧ ¬ name_in_use priv.user_table (g_value_get_string name.value) exclude) := by
  have heq := validate_eq_reference priv params exclude hinv
  refine ⟨heq, ?_⟩
  rw [heq]
  unfold validate_user_props_reference
  cases hid : inf_session_lookup_user_property params "id" with
  | none => simp
  | some idp =>
    by_cases h1 : id_in_use priv.user_table (g_value_get_uint idp.value) exclude
    · simp [h1]
    · cases hname : inf_session_lookup_user_property params "name" with
      | none => simp [h1]
      | some namep =>
        by_cases h2 : name_in_use priv.user_table (g_value_get_string namep.value) exclude
        · simp [h1, h2]
        · simp [h1, h2]

/-- Witness of C26: the properties of Bob are validated against the table of
Ann and Bob with the user object of Bob excluded (accepted), with nobody
excluded (IdInUse), and with a user object outside the table excluded
(IdInUse). -/
theorem validate_user_props_refines_witness :
    user_table_invariant example_running.user_table
      ∧ inf_session_validate_user_props_impl example_running
          [⟨"id", .uint 2⟩, ⟨"name", .string "Bob"⟩] (some (.held 1))
        = validate_user_props_reference example_running.user_table
          [⟨"id", .uint 2⟩, ⟨"name", .string "Bob"⟩] (some (.held 1))
      ∧ inf_session_validate_user_props_impl example_running
          [⟨"id", .uint 2⟩, ⟨"name", .string "Bob"⟩] (some (.held 1))
        = (true, none)
      ∧ inf_session_validate_user_props_impl example_running
          [⟨"id", .uint 2⟩, ⟨"name", .string "Bob"⟩] none
        = (false, some (sync_error .ID_IN_USE))
      ∧ inf_session_validate_user_props_impl example_running
          [⟨"id", .uint 2⟩, ⟨"name", .string "Bob"⟩] (some .outside)
        = (false, some (sync_error .ID_IN_USE)) :=
  ⟨by decide,
    (validate_user_props_refines example_running [⟨"id", .uint 2⟩, ⟨"name", .string "Bob"⟩]
      (some (.held 1)) (fun _ _ _ => by decide)).1,
    by decide, by decide, by decide⟩

/-- Counterexample to C26: the table of `example_same_name` holds two user
objects named Ann. With the first of them excluded, its own properties pass
the validation of the code, although a user other than the excluded one has
the name: the reference answers NameInUse. -/
theorem validate_excluded_first_holder :
    ¬ user_table_invariant example_same_name.user_table
      ∧ inf_session_validate_user_props_impl example_same_name
          [⟨"id", .uint 1⟩, ⟨"name", .string "Ann"⟩] (some (.held 0))
        = (true, none)
      ∧ name_in_use example_same_name.user_table (some "Ann") (some (.held 0))
      ∧ validate_user_props_reference example_same_name.user_table
          [⟨"id", .uint 1⟩, ⟨"name", .string "Ann"⟩] (some (.held 0))
        = (false, some (sync_error .NAME_IN_USE)) := by
  decide

/-- C28: for every id below 2^32, every name and both statuses, decoding the
element that the base encoder produces from the property list [id, name,
status] on a new element gives back exactly this property list. -/
theorem user_props_round_trip (priv : InfSessionPrivate) (c : InfXmlConnection)
    (tag : String) (id : Nat) (name : String) (status : InfUserStatus)
    (hid : id < 2 ^ 32) :
    inf_session_get_xml_user_props_impl priv c
        (inf_session_set_xml_user_props_impl priv
          [⟨"id", .uint id⟩, ⟨"name", .string name⟩, ⟨"status", .status status⟩]
          (xmlNewNode tag))
      = [⟨"id", .uint id⟩, ⟨"name", .string name⟩, ⟨"status", .status status⟩] := by
  have h1 : sprintf_u id = Nat.repr id := sprintf_u_eq_repr _ hid
  have h2 : strtoul (Nat.repr id) 10 = id := strtoul_repr _ 10 hid (Or.inr rfl)
  have h3 : guint id = id := Nat.mod_eq_of_lt hid
  cases status <;>
  simp [inf_session_get_xml_user_props_impl, inf_session_set_xml_user_props_impl,
    xmlNewNode, xmlNewProp, xmlGetProp, inf_xml_util_set_attribute, g_value_get_uint,
    g_value_get_string, g_value_get_enum, h1, h2, h3, inf_session_get_user_property,
    g_value_init_set, List.findIdx?, List.modify]

/-- Witness of C28: the largest id, an empty name, status unavailable. -/
theorem user_props_round_trip_witness :
    4294967295 < 2 ^ 32
      ∧ inf_session_get_xml_user_props_impl example_running 7
          (inf_session_set_xml_user_props_impl example_running
            [⟨"id", .uint 4294967295⟩, ⟨"name", .string ""⟩, ⟨"status", .status .UNAVAILABLE⟩]
            (xmlNewNode "sync-user"))
        = [⟨"id", .uint 4294967295⟩, ⟨"name", .string ""⟩, ⟨"status", .status .UNAVAILABLE⟩] :=
  ⟨by decide,
    user_props_round_trip example_running 7 "sync-user" 4294967295 "" .UNAVAILABLE (by decide)⟩

/-- C29: an element without an id attribute decodes to a property list without
an id property, and adding a user from it fails with IdNotPresent; an element
with an id that no user has but without a name attribute decodes to a list
without a name property, and adding a user from it fails with NameNotPresent.
In both cases no user is returned and the session is unchanged. Decoding has
no error to report: it always returns a list. -/
theorem missing_attribute_fails_at_validation
    (user_new : InfSessionPrivate → List GParameter → Option InfUser)
    (priv : InfSessionPrivate) (c : InfXmlConnection) (xml : XmlNode) :
    (xmlGetProp xml "id" = none →
        inf_session_lookup_user_property
            (inf_session_get_xml_user_props_impl priv c xml) "id" = none
          ∧ inf_session_add_user (inf_session_class_init (some user_new)).user priv
              (inf_session_get_xml_user_props_impl priv c xml)
            = (none, some (sync_error .ID_NOT_PRESENT), priv))
      ∧ (xmlGetProp xml "name" = none →
        ∀ v, xmlGetProp xml "id" = some v →
          inf_user_table_lookup_user_by_id priv.user_table (guint (strtoul v 10)) = none →
          inf_session_lookup_user_property
              (inf_session_get_xml_user_props_impl priv c xml) "id"
              = some ⟨"id", .uint (guint (strtoul v 10))⟩
            ∧ inf_session_lookup_user_property
              (inf_session_get_xml_user_props_impl priv c xml) "name" = none
            ∧ inf_session_add_user (inf_session_class_init (some user_new)).user priv
                (inf_session_get_xml_user_props_impl priv c xml)
              = (none, some (sync_error .NAME_NOT_PRESENT), priv)) := by
  constructor
  · intro hid
    have hl : inf_session_lookup_user_property
        (inf_session_get_xml_user_props_impl priv c xml) "id" = none := by
      cases hn : xmlGetProp xml "name" <;> cases hst : xmlGetProp xml "status" <;>
      simp [inf_session_get_xml_user_props_impl, hid, hn, hst, inf_session_get_user_property,
        g_value_init_set, List.findIdx?, List.modify, inf_session_lookup_user_property] <;>
      split_ifs <;> simp [List.modify]
    refine ⟨hl, ?_⟩
    simp [inf_session_add_user, inf_session_class_init, inf_session_validate_user_props_impl,
      hl]
  · intro hname v hid hfree
    have hl1 : inf_session_lookup_user_property
        (inf_session_get_xml_user_props_impl priv c xml) "id"
        = some ⟨"id", .uint (guint (strtoul v 10))⟩ := by
      cases hst : xmlGetProp xml "status" with
      | none =>
        simp [inf_session_get_xml_user_props_impl, hid, hname, hst,
          inf_session_get_user_property, g_value_init_set, List.findIdx?, List.modify,
          inf_session_lookup_user_property]
      | some s =>
        simp [inf_session_get_xml_user_props_impl, hid, hname, hst,
          inf_session_get_user_property, g_value_init_set, List.findIdx?, List.modify,
          inf_session_lookup_user_property]
        split_ifs <;> simp [List.modify]
    have hl2 : inf_session_lookup_user_property
        (inf_session_get_xml_user_props_impl priv c xml) "name" = none := by
      cases hst : xmlGetProp xml "status" with
      | none =>
        simp [inf_session_get_xml_user_props_impl, hid, hname, hst,
          inf_session_get_user_property, g_value_init_set, List.findIdx?, List.modify,
          inf_session_lookup_user_property]
      | some s =>
        simp [inf_session_get_xml_user_props_impl, hid, hname, hst,
          inf_session_get_user_property, g_value_init_set, List.findIdx?, List.modify,
          inf_session_lookup_user_property]
        split_ifs <;> simp [List.modify]
    refine ⟨hl1, hl2, ?_⟩
    simp [inf_session_add_user, inf_session_class_init, inf_session_validate_user_props_impl,
      hl1, hl2, g_value_get_uint, hfree]

/-- Witness of C29: a sync-user element with a name only, and one with an id
only, for the session with Ann and Bob. -/
theorem missing_attribute_fails_at_validation_witness :
    xmlGetProp ⟨"sync-user", [("name", "Cy")]⟩ "id" = none
      ∧ inf_session_add_user example_class.user example_running
          (inf_session_get_xml_user_props_impl example_running 7
            ⟨"sync-user", [("name", "Cy")]⟩)
        = (none, some (sync_error .ID_NOT_PRESENT), example_running)
      ∧ xmlGetProp ⟨"sync-user", [("id", "3")]⟩ "name" = none
      ∧ inf_session_add_user example_class.user example_running
          (inf_session_get_xml_user_props_impl example_running 7
            ⟨"sync-user", [("id", "3")]⟩)
        = (none, some (sync_error .NAME_NOT_PRESENT), example_running) :=
  ⟨by decide,
    ((missing_attribute_fails_at_validation (fun _ params => some (inf_user_new params))
      example_running 7 ⟨"sync-user", [("name", "Cy")]⟩).1 (by decide)).2,
    by decide,
    ((missing_attribute_fails_at_validation (fun _ params => some (inf_user_new params))
      example_running 7 ⟨"sync-user", [("id", "3")]⟩).2 (by decide) "3" (by decide)
      (by decide)).2.2⟩

/-- C30, as the code has it: a session constructed to be synchronised from
connection c in group g receives sync-begin with num-messages 2, the sync-user
frames of Ann (id 1) and Bob (id 2), and sync-end. It emits the progress
fractions 1/4, 2/4, 3/4 in this order and none for sync-end, replies with one
sync-ack, emits synchronization-complete and ends Running with the user table
Ann, Bob. -/
theorem happy_path_two_users (c : InfXmlConnection) (g : InfConnectionManagerGroup) :
    inf_session_constructor [.connection_manager, .sync_connection (some c),
          .sync_group (some g)]
        = .ok (registered_session c g)
      ∧ deliver example_class c (registered_session c g) example_two_users
        = .ok { registered_session c g with
            user_table := [⟨1, "Ann", .AVAILABLE⟩, ⟨2, "Bob", .AVAILABLE⟩],
            status := .RUNNING, sync_conn := none, sync_group := none,
            sync_messages_total := 4, sync_messages_received := 4, run_syncs := [],
            trace := (registered_session c g).trace
              ++ [.emit (.synchronization_progress c 1 4),
                .emit (.synchronization_progress c 2 4),
                .emit (.synchronization_progress c 3 4),
                .send_to_connection g c (xmlNewNode "sync-ack"),
                .emit (.synchronization_complete c), .group_unref g,
                .signal_disconnect c, .object_unref c, .notify "status"] }
      ∧ progress_fractions
          ((registered_session c g).trace
            ++ [.emit (.synchronization_progress c 1 4),
              .emit (.synchronization_progress c 2 4),
              .emit (.synchronization_progress c 3 4),
              .send_to_connection g c (xmlNewNode "sync-ack"),
              .emit (.synchronization_complete c), .group_unref g,
              .signal_disconnect c, .object_unref c, .notify "status"]) c
        = [(1, 4), (2, 4), (3, 4)] :=
  ⟨constructor_sync c g, deliver_two_users c g, by
    simp [progress_fractions, registered_session, inf_session_init]⟩

/-- Counterexample to C30: in the run of the claim, with peer 7, the progress
events carry 1/4, 2/4, 3/4; there is no event with 4/4. -/
theorem happy_path_no_final_progress :
    ∃ q, deliver example_class 7 example_registered example_two_users = .ok q
      ∧ q.status = .RUNNING
      ∧ q.user_table = [⟨1, "Ann", .AVAILABLE⟩, ⟨2, "Bob", .AVAILABLE⟩]
      ∧ progress_fractions q.trace 7 = [(1, 4), (2, 4), (3, 4)]
      ∧ (4, 4) ∉ progress_fractions q.trace 7 :=
  ⟨_, deliver_two_users 7 example_group, rfl, rfl, by decide, by decide⟩

/-- C31: a Synchronizing session with M = 0 that receives from its synchronizer
a sync-begin frame without a num-messages attribute fails with
NumMessagesMissing: it enqueues one sync-error frame with the domain of the
session errors and the code of NumMessagesMissing, emits
synchronization-failed with that error, and closes. M, r and the user table
are what they were. -/
theorem begin_without_num_messages (klass : InfSessionClass) (p : InfSessionPrivate)
    (c : InfXmlConnection) (g : InfConnectionManagerGroup) (node : XmlNode)
    (hs : p.status = .SYNCHRONIZING) (hc : p.sync_conn = some c) (hg : p.sync_group = some g)
    (hcl : p.sync_closing = false) (hM : p.sync_messages_total = 0)
    (hname : node.name = "sync-begin") (hattr : xmlGetProp node "num-messages" = none) :
    inf_session_net_object_received klass p c node
        = .ok (false, none, { p with
            status := .CLOSED, sync_closing := true, subscription_group := none,
            trace := p.trace
              ++ [.send_to_connection g c (sync_error_frame (sync_error .NUM_MESSAGES_MISSING)),
                .emit (.synchronization_failed (some c) (sync_error .NUM_MESSAGES_MISSING)),
                .emit .close, .group_unref g]
              ++ subscription_release p.subscription_group ++ [.notify "status"] })
      ∧ xmlGetProp (sync_error_frame (sync_error .NUM_MESSAGES_MISSING)) "domain"
        = some inf_session_sync_error_quark
      ∧ xmlGetProp (sync_error_frame (sync_error .NUM_MESSAGES_MISSING)) "code"
        = some (Nat.repr InfSessionSyncError.NUM_MESSAGES_MISSING.toCode) :=
  ⟨received_failure klass p p c g node _ hs hc hg hcl
      (handle_begin_missing klass p c node hs hM hname hattr),
    by decide, by decide⟩

/-- Witness of C31: the newly constructed session receives an empty sync-begin. -/
theorem begin_without_num_messages_witness :
    example_registered.status = .SYNCHRONIZING ∧ example_registered.sync_conn = some 7
      ∧ example_registered.sync_group = some example_group
      ∧ example_registered.sync_closing = false
      ∧ example_registered.sync_messages_total = 0
      ∧ inf_session_net_object_received example_class example_registered 7 ⟨"sync-begin", []⟩
        = .ok (false, none, { example_registered with
            status := .CLOSED, sync_closing := true, subscription_group := none,
            trace := example_registered.trace
              ++ [.send_to_connection example_group 7
                    (sync_error_frame (sync_error .NUM_MESSAGES_MISSING)),
                .emit (.synchronization_failed (some 7) (sync_error .NUM_MESSAGES_MISSING)),
                .emit .close, .group_unref example_group]
              ++ subscription_release example_registered.subscription_group
              ++ [.notify "status"] }) :=
  ⟨by decide, by decide, by decide, by decide, by decide,
    (begin_without_num_messages example_class example_registered 7 example_group
      ⟨"sync-begin", []⟩ (by decide) (by decide) (by decide) (by decide) (by decide)
      (by decide) (by decide)).1⟩

/-- C32: the claim fails after a begin whose count wraps the total around. A
session with M > 0 rejects every further sync-begin with
UnexpectedBeginOfSync, M and r unchanged; but after sync-begin with
num-messages 4294967294, which is accepted with M = 0, a second sync-begin is
accepted as well and sets M anew. -/
theorem second_begin_after_wrapped_total :
    (∀ (klass : InfSessionClass) (p : InfSessionPrivate) (c : InfXmlConnection)
        (g : InfConnectionManagerGroup) (node : XmlNode),
        p.status = .SYNCHRONIZING → p.sync_conn = some c → p.sync_group = some g →
        p.sync_closing = false → 0 < p.sync_messages_total → node.name = "sync-begin" →
        inf_session_net_object_received klass p c node
          = .ok (false, none, { p with
              status := .CLOSED, sync_closing := true, subscription_group := none,
              trace := p.trace
                ++ [.send_to_connection g c
                      (sync_error_frame (sync_error .UNEXPECTED_BEGIN_OF_SYNC)),
                  .emit (.synchronization_failed (some c)
                    (sync_error .UNEXPECTED_BEGIN_OF_SYNC)),
                  .emit .close, .group_unref g]
                ++ subscription_release p.subscription_group ++ [.notify "status"] }))
      ∧ inf_session_net_object_received example_class example_registered 7
          ⟨"sync-begin", [("num-messages", "4294967294")]⟩
        = .ok (false, none, { example_registered with
            sync_messages_total := 0, sync_messages_received := 1,
            trace := example_registered.trace ++ [.emit (.synchronization_progress 7 1 0)] })
      ∧ inf_session_net_object_received example_class
          { example_registered with
            sync_messages_total := 0, sync_messages_received := 1,
            trace := example_registered.trace ++ [.emit (.synchronization_progress 7 1 0)] }
          7 ⟨"sync-begin", [("num-messages", "5")]⟩
        = .ok (false, none, { example_registered with
            sync_messages_total := 7, sync_messages_received := 1,
            trace := example_registered.trace ++ [.emit (.synchronization_progress 7 1 0),
              .emit (.synchronization_progress 7 1 7)] }) :=
  ⟨fun klass p c g node hs hc hg hcl hM hname =>
      received_failure klass p p c g node _ hs hc hg hcl
        (handle_begin_duplicate klass p c node hs hM hname),
    by decide, by decide⟩

/-- The rejection of C32 at a concrete input: a second sync-begin after
sync-begin with num-messages 2. -/
theorem second_begin_after_wrapped_total_witness :
    example_begun.status = .SYNCHRONIZING ∧ 0 < example_begun.sync_messages_total
      ∧ inf_session_net_object_received example_class example_begun 7
          ⟨"sync-begin", [("num-messages", "3")]⟩
        = .ok (false, none, { example_begun with
            status := .CLOSED, sync_closing := true, subscription_group := none,
            trace := example_begun.trace
              ++ [.send_to_connection example_group 7
                    (sync_error_frame (sync_error .UNEXPECTED_BEGIN_OF_SYNC)),
                .emit (.synchronization_failed (some 7)
                  (sync_error .UNEXPECTED_BEGIN_OF_SYNC)),
                .emit .close, .group_unref example_group]
              ++ subscription_release example_begun.subscription_group
              ++ [.notify "status"] }) :=
  ⟨by decide, by decide,
    second_begin_after_wrapped_total.1 example_class example_begun 7 example_group
      ⟨"sync-begin", [("num-messages", "3")]⟩ (by decide) (by decide) (by decide) (by decide)
      (by decide) (by decide)⟩

/-- C33, as the code has it: the num-messages attribute is read by `strtoul`
with base 0. For a non-empty string d of decimal digits that does not start
with 0 and denotes N in base ten, N + 2 < 2^32, accepting sync-begin
num-messages=d sets M = N + 2. A string of digits that starts with 0 is read
as an octal numeral up to its first digit above 7: with that value V,
V + 2 < 2^32, the frame sets M = V + 2. -/
theorem num_messages_base_zero (klass : InfSessionClass) (p : InfSessionPrivate)
    (c : InfXmlConnection) (node : XmlNode) (d : String) (ch : Char) (cs : List Char)
    (hs : p.status = .SYNCHRONIZING) (hc : p.sync_conn = some c)
    (hM : p.sync_messages_total = 0) (hname : node.name = "sync-begin")
    (hattr : xmlGetProp node "num-messages" = some d)
    (hd : d.data = ch :: cs) (hdigits : ∀ x ∈ d.data, is_decimal_digit x) :
    (ch ≠ '0' → decimal_value d + 2 < 2 ^ 32 →
        inf_session_net_object_received klass p c node
          = .ok (false, none, { p with
              sync_messages_total := decimal_value d + 2, sync_messages_received := 1,
              trace := p.trace
                ++ [.emit (.synchronization_progress c 1 (decimal_value d + 2))] }))
      ∧ (ch = '0' → strtoul_scan 8 0 d.data + 2 < 2 ^ 32 →
        inf_session_net_object_received klass p c node
          = .ok (false, none, { p with
              sync_messages_total := strtoul_scan 8 0 d.data + 2, sync_messages_received := 1,
              trace := p.trace
                ++ [.emit (.synchronization_progress c 1 (strtoul_scan 8 0 d.data + 2))] })) := by
  constructor
  · intro hlead hN
    exact sync_begin_received_value klass p c node d _ hs hc hM hname hattr
      (strtoul_decimal_digits d ch cs hd hdigits hlead (by unfold ULONG_MAX; omega)) hN
  · intro hlead hN
    subst hlead
    exact sync_begin_received_value klass p c node d _ hs hc hM hname hattr
      (strtoul_leading_zero d cs hd hdigits (by unfold ULONG_MAX; omega)) hN

/-- Witness of C33 as amended: num-messages 120 sets M = 122. -/
theorem num_messages_base_zero_witness :
    example_registered.status = .SYNCHRONIZING ∧ example_registered.sync_conn = some 7
      ∧ example_registered.sync_messages_total = 0
      ∧ decimal_value "120" + 2 = 122
      ∧ inf_session_net_object_received example_class example_registered 7
          ⟨"sync-begin", [("num-messages", "120")]⟩
        = .ok (false, none, { example_registered with
            sync_messages_total := decimal_value "120" + 2, sync_messages_received := 1,
            trace := example_registered.trace
              ++ [.emit (.synchronization_progress 7 1 (decimal_value "120" + 2))] }) :=
  ⟨by decide, by decide, by decide, by decide,
    (num_messages_base_zero example_class example_registered 7
      ⟨"sync-begin", [("num-messages", "120")]⟩ "120" '1' ['2', '0'] (by decide) (by decide)
      (by decide) (by decide) (by decide) rfl (by decide)).1 (by decide) (by decide)⟩

/-- Counterexample to C33: num-messages 010 denotes ten in base ten, but the
frame sets M = 10, not 12; num-messages 08 denotes eight, but sets M = 2. -/
theorem num_messages_leading_zero_is_octal :
    decimal_value "010" = 10
      ∧ inf_session_net_object_received example_class example_registered 7
          ⟨"sync-begin", [("num-messages", "010")]⟩
        = .ok (false, none, { example_registered with
            sync_messages_total := 10, sync_messages_received := 1,
            trace := example_registered.trace ++ [.emit (.synchronization_progress 7 1 10)] })
      ∧ decimal_value "08" = 8
      ∧ inf_session_net_object_received example_class example_registered 7
          ⟨"sync-begin", [("num-messages", "08")]⟩
        = .ok (false, none, { example_registered with
            sync_messages_total := 2, sync_messages_received := 1,
            trace := example_registered.trace ++ [.emit (.synchronization_progress 7 1 2)] }) := by
  decide

/-- C34: for every text user, position p in the `guint` range, length l in the
`gint` range (negative lengths included) and either value of by_request,
after `inf_text_user_set_selection` the caret position is p, the selection
length is l and the hue is what it was; the two properties are notified. A
freshly initialised user has caret 0, selection 0 and hue 0. -/
theorem text_user_selection (priv : InfTextUserPrivate) (position : Nat) (length : Int)
    (by_request : Bool)
    (hp : position < 2 ^ 32) (hl : -(2 ^ 31) ≤ length ∧ length < 2 ^ 31) :
    inf_text_user_get_caret_position
        (inf_text_user_set_selection priv position length by_request).1 = position
      ∧ inf_text_user_get_selection_length
        (inf_text_user_set_selection priv position length by_request).1 = length
      ∧ inf_text_user_get_hue (inf_text_user_set_selection priv position length by_request).1
        = inf_text_user_get_hue priv
      ∧ (inf_text_user_set_selection priv position length by_request).2
        = ["caret-position", "selection-length"]
      ∧ inf_text_user_get_caret_position inf_text_user_init = 0
      ∧ inf_text_user_get_selection_length inf_text_user_init = 0
      ∧ inf_text_user_get_hue inf_text_user_init = 0 := by
  refine ⟨?_, ?_, rfl, rfl, rfl, rfl, rfl⟩
  · show guint position = position
    exact Nat.mod_eq_of_lt hp
  · show gint_of_guint (guint_of_gint length) = length
    unfold gint_of_guint guint_of_gint
    have h1 : ((length % 2 ^ 32).toNat : Int) = length % 2 ^ 32 :=
      Int.toNat_of_nonneg (Int.emod_nonneg _ (by norm_num))
    obtain ⟨h2, h3⟩ := hl
    split_ifs with h <;> omega

/-- Witness of C34: a selection of three characters towards the beginning. -/
theorem text_user_selection_witness :
    (5 : Nat) < 2 ^ 32 ∧ (-(2 ^ 31) ≤ (-3 : Int) ∧ (-3 : Int) < 2 ^ 31)
      ∧ inf_text_user_get_caret_position
          (inf_text_user_set_selection inf_text_user_init 5 (-3) false).1 = 5
      ∧ inf_text_user_get_selection_length
          (inf_text_user_set_selection inf_text_user_init 5 (-3) false).1 = -3 :=
  ⟨by decide, by decide,
    (text_user_selection inf_text_user_init 5 (-3) false (by decide) (by decide)).1,
    (text_user_selection inf_text_user_init 5 (-3) false (by decide) (by decide)).2.1⟩

/-- C35: for a frame other than sync-cancel, a handling that fails with an
error set is reported: the session enqueues the sync-error frame of that
error, emits synchronization-failed with it and closes. A handling that
returns FALSE without an error is not reported at all, and one exists: a
content frame inside the window whose processor returned FALSE and set no
error. The base processor does so for a sync-user frame when the class has no
user constructor, as the base class, or when the properties pass the
validation and the constructor returns no user: `inf_session_add_user` then
returns NULL without an error, and the callback returns the session exactly as
it was, nothing sent, nothing emitted, r and M unchanged, still
Synchronizing. -/
theorem inbound_failure_reporting (klass : InfSessionClass)
    (user_new : Option (InfSessionPrivate → List GParameter → Option InfUser))
    (p p1 : InfSessionPrivate)
    (c : InfXmlConnection) (g : InfConnectionManagerGroup) (node : XmlNode)
    (e : Option GError)
    (hs : p.status = .SYNCHRONIZING) (hc : p.sync_conn = some c) (hg : p.sync_group = some g)
    (hcl : p.sync_closing = false) (hn : node.name ≠ "sync-cancel") :
    (inf_session_handle_received_sync_message klass p c node = .ok (false, e, p1) →
      (∀ err, e = some err →
        inf_session_net_object_received klass p c node
          = .ok (false, none, { p1 with
              status := .CLOSED, sync_closing := true, subscription_group := none,
              trace := p.trace ++ [.send_to_connection g c (sync_error_frame err),
                .emit (.synchronization_failed (some c) err), .emit .close, .group_unref g]
                ++ subscription_release p.subscription_group ++ [.notify "status"] }))
      ∧ (e = none →
        inf_session_net_object_received klass p c node
            = .ok (false, none, { p with user_table := (klass.process_xml_sync p c node).2.2 })
          ∧ is_content_frame node
          ∧ (klass.process_xml_sync p c node).1 = false
          ∧ (klass.process_xml_sync p c node).2.1 = none))
      ∧ (node.name = "sync-user" → p.sync_messages_received ≠ 0 →
        p.sync_messages_received ≠ guint_sub p.sync_messages_total 1 →
        (user_new = none ∨ ∃ f, user_new = some f
          ∧ (inf_session_validate_user_props_impl p
              (inf_session_get_xml_user_props_impl p c node) none).1 = true
          ∧ f p (inf_session_get_xml_user_props_impl p c node) = none) →
        inf_session_add_user (inf_session_class_init user_new).user p
            (inf_session_get_xml_user_props_impl p c node)
          = (none, none, p)
        ∧ inf_session_net_object_received (inf_session_class_init user_new) p c node
          = .ok (false, none, p)) := by
  refine ⟨fun h => ⟨?_, ?_⟩, ?_⟩
  · intro err he
    subst he
    exact received_failure klass p p1 c g node err hs hc hg hcl h
  · intro he
    subst he
    obtain ⟨h1, h2, h3, h4⟩ := handle_silent_frame klass p p1 c node hn h
    refine ⟨?_, h1, h2, h3⟩
    rw [received_without_error klass p p1 c node false hs hc h, h4]
  · intro hname h0 h1 hnew
    refine ⟨add_user_no_user user_new p _ hnew, ?_⟩
    apply received_silent _ p c node hs hc ⟨hn, by simp [hname], by simp [hname]⟩ h0 h1
    exact process_sync_user_no_user user_new p c node hs hc hname hnew

/-- Witness of C35: `example_begun` is the session after the begin frame. The
sync-user frame of Ann passes the validation; with a class whose constructor
returns no user, and with the base class, which has no constructor, no user is
added and the callback leaves the session as it was. An unknown element, whose
handling sets UnexpectedNode, is reported. -/
theorem inbound_failure_reporting_witness :
    example_begun.status = .SYNCHRONIZING ∧ example_begun.sync_conn = some 7
      ∧ example_begun.sync_group = some example_group ∧ example_begun.sync_closing = false
      ∧ deliver example_class_no_user 7 example_registered
          [⟨"sync-begin", [("num-messages", "2")]⟩] = .ok example_begun
      ∧ (inf_session_validate_user_props_impl example_begun
          (inf_session_get_xml_user_props_impl example_begun 7
            ⟨"sync-user", [("id", "1"), ("name", "Ann"), ("status", "available")]⟩) none).1
        = true
      ∧ inf_session_net_object_received example_class_no_user example_begun 7
          ⟨"sync-user", [("id", "1"), ("name", "Ann"), ("status", "available")]⟩
        = .ok (false, none, example_begun)
      ∧ inf_session_net_object_received (inf_session_class_init none) example_begun 7
          ⟨"sync-user", [("id", "1"), ("name", "Ann"), ("status", "available")]⟩
        = .ok (false, none, example_begun)
      ∧ inf_session_handle_received_sync_message example_class example_begun 7 ⟨"chat", []⟩
        = .ok (false, some (sync_error .UNEXPECTED_NODE), example_begun)
      ∧ inf_session_net_object_received example_class example_begun 7 ⟨"chat", []⟩
        = .ok (false, none, { example_begun with
            status := .CLOSED, sync_closing := true, subscription_group := none,
            trace := example_begun.trace
              ++ [.send_to_connection example_group 7
                    (sync_error_frame (sync_error .UNEXPECTED_NODE)),
                .emit (.synchronization_failed (some 7) (sync_error .UNEXPECTED_NODE)),
                .emit .close, .group_unref example_group]
              ++ subscription_release example_begun.subscription_group
              ++ [.notify "status"] }) :=
  ⟨by decide, by decide, by decide, by decide, by decide, by decide,
    ((inbound_failure_reporting example_class (some (fun _ _ => none)) example_begun
        example_begun 7 example_group
        ⟨"sync-user", [("id", "1"), ("name", "Ann"), ("status", "available")]⟩ none
        (by decide) (by decide) (by decide) (by decide) (by decide)).2
      (by decide) (by decide) (by decide) (Or.inr ⟨_, rfl, by decide, rfl⟩)).2,
    ((inbound_failure_reporting example_class none example_begun
        example_begun 7 example_group
        ⟨"sync-user", [("id", "1"), ("name", "Ann"), ("status", "available")]⟩ none
        (by decide) (by decide) (by decide) (by decide) (by decide)).2
      (by decide) (by decide) (by decide) (Or.inl rfl)).2,
    by decide,
    ((inbound_failure_reporting example_class none example_begun example_begun 7 example_group
      ⟨"chat", []⟩ (some (sync_error .UNEXPECTED_NODE)) (by decide) (by decide) (by decide)
      (by decide) (by decide)).1 (by decide)).1 _ rfl⟩

/-- C36: on a Synchronizing session with a clear closing flag, an explicit
close returns with exactly one close event followed by exactly one
synchronization-failed event, and a synchronization-failed emission for the
synchronizer returns with exactly one synchronization-failed event followed by
exactly one close event; each default handler runs once per event, the flag is
set and the status is Closed afterwards. With the flag set, close emits no
synchronization-failed and synchronization-failed emits no close. -/
theorem closing_flag_stops_recursion (p : InfSessionPrivate) (e : GError)
    (hs : p.status = .SYNCHRONIZING) (hcl : p.sync_closing = false) :
    (∃ q, inf_session_close p = .ok q ∧ q.status = .CLOSED ∧ q.sync_closing = true
        ∧ signals_emitted q.trace
          = signals_emitted p.trace
            ++ [.close, .synchronization_failed p.sync_conn (sync_error .RECEIVER_CANCELLED)])
      ∧ (∃ q, g_signal_emit (.synchronization_failed p.sync_conn e) p = .ok q
        ∧ q.status = .CLOSED ∧ q.sync_closing = true
        ∧ signals_emitted q.trace
          = signals_emitted p.trace ++ [.synchronization_failed p.sync_conn e, .close])
      ∧ (∀ r : InfSessionPrivate, r.status = .SYNCHRONIZING → r.sync_closing = true →
        (∃ q, inf_session_close r = .ok q ∧ q.status = .CLOSED
            ∧ signals_emitted q.trace = signals_emitted r.trace ++ [.close])
          ∧ g_signal_emit (.synchronization_failed r.sync_conn e) r
            = .ok (r.log (.emit (.synchronization_failed r.sync_conn e)))) :=
  ⟨close_synchronizing_signals p hs hcl, failed_synchronizing_signals p _ e hs rfl hcl,
    fun r hr hrc => closing_set_signals r e hr hrc⟩

/-- Witness of C36: explicit close of the newly constructed session. -/
theorem closing_flag_stops_recursion_witness :
    example_registered.status = .SYNCHRONIZING ∧ example_registered.sync_closing = false
      ∧ ∃ q, inf_session_close example_registered = .ok q ∧ q.status = .CLOSED
        ∧ q.sync_closing = true
        ∧ signals_emitted q.trace
          = signals_emitted example_registered.trace
            ++ [.close, .synchronization_failed example_registered.sync_conn
              (sync_error .RECEIVER_CANCELLED)] :=
  ⟨by decide, by decide,
    (closing_flag_stops_recursion example_registered (sync_error .FAILED) (by decide)
      (by decide)).1⟩

/-- C37: on a Running session (the only status in which the lookup finds a
record), the frame-enqueued callback for sync-end toward a peer whose record
is InProgress replaces that record by the same record with status AwaitingAck,
at its place in the roster, and changes nothing else; for a frame of any other
name it returns the session as it is. -/
theorem enqueued_changes_one_record (p : InfSessionPrivate) (c : InfXmlConnection)
    (node : XmlNode) (sync : InfSessionSync)
    (hf : inf_session_find_sync_by_connection p (some c) = some sync)
    (hst : sync.status = .IN_PROGRESS) :
    (node.name = "sync-end" →
        ∃ pre post, p.run_syncs = pre ++ sync :: post ∧ (∀ r ∈ pre, r.conn ≠ c)
          ∧ inf_session_net_object_enqueued p c node
            = .ok { p with
                run_syncs := pre
                  ++ ⟨sync.group, sync.conn, sync.messages_total, sync.messages_sent,
                      .AWAITING_ACK⟩ :: post })
      ∧ (node.name ≠ "sync-end" → inf_session_net_object_enqueued p c node = .ok p) := by
  constructor
  · intro hname
    obtain ⟨hc, pre, post, h1, h2⟩ := find_sync_split p c sync hf
    refine ⟨pre, post, h1, h2, ?_⟩
    have hne : ¬ (sync.status ≠ .IN_PROGRESS) := by simp [hst]
    simp only [inf_session_net_object_enqueued, hname, if_true, hf, hne, if_false, pure,
      Except.pure]
    subst hc
    rw [h1, update_sync_split pre post sync _ h2]
  · exact enqueued_other p c node

/-- Witness of C37: sync-end is enqueued toward peer 9 of `example_two_peers`. -/
theorem enqueued_changes_one_record_witness :
    example_two_peers.status = .RUNNING
      ∧ inf_session_find_sync_by_connection example_two_peers (some 9)
        = some ⟨⟨"sync", [9]⟩, 9, 3, 1, .IN_PROGRESS⟩
      ∧ ∃ pre post,
          example_two_peers.run_syncs = pre ++ ⟨⟨"sync", [9]⟩, 9, 3, 1, .IN_PROGRESS⟩ :: post
          ∧ (∀ r ∈ pre, r.conn ≠ 9)
          ∧ inf_session_net_object_enqueued example_two_peers 9 ⟨"sync-end", []⟩
            = .ok { example_two_peers with
                run_syncs := pre ++ ⟨⟨"sync", [9]⟩, 9, 3, 1, .AWAITING_ACK⟩ :: post } :=
  ⟨by decide, by decide,
    (enqueued_changes_one_record example_two_peers 9 ⟨"sync-end", []⟩
      ⟨⟨"sync", [9]⟩, 9, 3, 1, .IN_PROGRESS⟩ (by decide) (by decide)).1 rfl⟩

/-- C38: `inf_session_get_user_property` returns the first parameter of that
name and leaves the array as it is when there is one; otherwise it appends
exactly one parameter of that name, with a zero-filled value, at the end and
returns it. A second call with the same name returns the same parameter of the
same array, so the array grows at most once; afterwards
`inf_session_lookup_user_property` finds the returned parameter, and it finds
nothing for a name that no parameter of an array has. -/
theorem get_user_property_lookup_or_create (array : List GParameter) (name : String) :
    (∀ param, inf_session_lookup_user_property array name = some param →
        ∃ pre post, array = pre ++ param :: post ∧ (∀ x ∈ pre, x.name ≠ name)
          ∧ param.name = name
          ∧ inf_session_get_user_property array name = (array, pre.length))
      ∧ (inf_session_lookup_user_property array name = none →
        inf_session_get_user_property array name
          = (array ++ [⟨name, .unset⟩], array.length))
      ∧ inf_session_get_user_property (inf_session_get_user_property array name).1 name
        = inf_session_get_user_property array name
      ∧ (∃ param,
          (inf_session_get_user_property array name).1[
              (inf_session_get_user_property array name).2]? = some param
          ∧ param.name = name
          ∧ inf_session_lookup_user_property (inf_session_get_user_property array name).1 name
            = some param)
      ∧ (∀ other, (∀ param ∈ array, param.name ≠ other) →
        inf_session_lookup_user_property array other = none) := by
  refine ⟨fun param h => lookup_split array name param h,
    get_user_property_absent array name, get_user_property_twice array name, ?_,
    fun other h => (lookup_none_iff array other).mpr h⟩
  cases h : inf_session_lookup_user_property array name with
  | some param =>
    obtain ⟨i, h1, h2, -⟩ := get_user_property_present array name param h
    rw [h1]
    exact ⟨param, h2, (lookup_name array name param h).1, h⟩
  | none =>
    rw [get_user_property_absent array name h]
    exact ⟨⟨name, .unset⟩, by simp, rfl, lookup_after_append array name .unset h⟩

/-- Witness of C38: the name property is looked up in an array that has only
an id, and the id in the same array. -/
theorem get_user_property_lookup_or_create_witness :
    inf_session_lookup_user_property [⟨"id", .uint 1⟩] "name" = none
      ∧ inf_session_get_user_property [⟨"id", .uint 1⟩] "name"
        = ([⟨"id", .uint 1⟩] ++ [⟨"name", .unset⟩], [(⟨"id", .uint 1⟩ : GParameter)].length)
      ∧ inf_session_get_user_property
          (inf_session_get_user_property [⟨"id", .uint 1⟩] "name").1 "name"
        = inf_session_get_user_property [⟨"id", .uint 1⟩] "name" :=
  ⟨by decide,
    (get_user_property_lookup_or_create [⟨"id", .uint 1⟩] "name").2.1 (by decide),
    (get_user_property_lookup_or_create [⟨"id", .uint 1⟩] "name").2.2.1⟩

/-- C39: the base decoder gives an element with a status attribute the status
Available when the attribute is exactly "available" and Unavailable for every
other string; an element without a status attribute gets no status property.
The decoder has no error to report. -/
theorem status_decoding (priv : InfSessionPrivate) (c : InfXmlConnection) (xml : XmlNode) :
    (∀ v, xmlGetProp xml "status" = some v →
        inf_session_lookup_user_property
            (inf_session_get_xml_user_props_impl priv c xml) "status"
          = some ⟨"status", .status (if v = "available" then .AVAILABLE else .UNAVAILABLE)⟩)
      ∧ (xmlGetProp xml "status" = none →
        inf_session_lookup_user_property
            (inf_session_get_xml_user_props_impl priv c xml) "status" = none) := by
  constructor
  · intro v hv
    cases hid : xmlGetProp xml "id" <;> cases hn : xmlGetProp xml "name" <;>
    by_cases ha : v = "available" <;>
    simp [inf_session_get_xml_user_props_impl, hid, hn, hv, ha, inf_session_get_user_property,
      g_value_init_set, List.findIdx?, List.modify, inf_session_lookup_user_property]
  · intro hv
    cases hid : xmlGetProp xml "id" <;> cases hn : xmlGetProp xml "name" <;>
    simp [inf_session_get_xml_user_props_impl, hid, hn, hv, inf_session_get_user_property,
      g_value_init_set, List.findIdx?, List.modify, inf_session_lookup_user_property]

/-- Witness of C39: the status attribute "away" decodes to Unavailable. -/
theorem status_decoding_witness :
    xmlGetProp ⟨"sync-user", [("id", "1"), ("name", "Ann"), ("status", "away")]⟩ "status"
        = some "away"
      ∧ inf_session_lookup_user_property
          (inf_session_get_xml_user_props_impl example_running 7
            ⟨"sync-user", [("id", "1"), ("name", "Ann"), ("status", "away")]⟩) "status"
        = some ⟨"status", .status (if "away" = "available" then .AVAILABLE else .UNAVAILABLE)⟩ :=
  ⟨by decide,
    (status_decoding example_running 7
      ⟨"sync-user", [("id", "1"), ("name", "Ann"), ("status", "away")]⟩).1 "away" (by decide)⟩

/-- C40: for every error with a code in the `guint` range, the frame that
`inf_session_send_sync_error` enqueues is the sync-error frame of the error,
the error that the sender decodes from this frame has the same domain and the
same code, and the synchronization-failed of the sender carries exactly this
domain and code. -/
theorem sync_error_round_trip (e : GError) (he : e.code < 2 ^ 32) :
    (∀ (q : InfSessionPrivate) (c2 : InfXmlConnection) (g : InfConnectionManagerGroup),
        q.status = .SYNCHRONIZING → q.sync_conn = some c2 → q.sync_group = some g →
        inf_session_send_sync_error q e
          = q.log (.send_to_connection g c2 (sync_error_frame e)))
      ∧ remote_sync_error (sync_error_frame e)
        = ⟨e.domain, e.code, inf_session_get_sync_error_message e.domain e.code⟩
      ∧ (∀ (klass : InfSessionClass) (p : InfSessionPrivate) (c : InfXmlConnection)
          (sync : InfSessionSync),
        p.status = .RUNNING → inf_session_find_sync_by_connection p (some c) = some sync →
        inf_session_net_object_received klass p c (sync_error_frame e)
          = .ok (false, none, { p with
              run_syncs := p.run_syncs.eraseP (fun s => some s.conn == some c),
              trace := p.trace ++ [.clear_queue sync.group c,
                .emit (.synchronization_failed (some c)
                  ⟨e.domain, e.code, inf_session_get_sync_error_message e.domain e.code⟩),
                .group_unref sync.group, .signal_disconnect c, .object_unref c] })) := by
  have h1 : strtoul (sprintf_u e.code) 0 = e.code := by
    rw [sprintf_u_eq_repr e.code he]
    exact strtoul_repr e.code 0 he (Or.inl rfl)
  have h2 : guint e.code = e.code := Nat.mod_eq_of_lt he
  have hdec : remote_sync_error (sync_error_frame e)
      = ⟨e.domain, e.code, inf_session_get_sync_error_message e.domain e.code⟩ := by
    simp [remote_sync_error, sync_error_frame, xmlGetProp, h1, h2]
  refine ⟨?_, hdec, ?_⟩
  · intro q c2 g hs hc hg
    simp [inf_session_send_sync_error, hs, hc, hg, sync_error_frame, xmlNewProp, xmlNewNode,
      inf_connection_manager_group_send_to_connection, InfSessionPrivate.log]
  · intro klass p c sync hs hf
    rw [received_running_sync_error klass p c (sync_error_frame e) sync hs hf rfl, hdec]

/-- Witness of C40: IdInUse travels from the receiver to the sender. -/
theorem sync_error_round_trip_witness :
    (sync_error .ID_IN_USE).code < 2 ^ 32
      ∧ remote_sync_error (sync_error_frame (sync_error .ID_IN_USE)) = sync_error .ID_IN_USE
      ∧ remote_sync_error (sync_error_frame ⟨"OTHER_DOMAIN", 4294967295, "?"⟩)
        = ⟨"OTHER_DOMAIN", 4294967295,
            inf_session_get_sync_error_message "OTHER_DOMAIN" 4294967295⟩ :=
  ⟨by decide,
    (sync_error_round_trip (sync_error .ID_IN_USE) (by decide)).2.1.trans (by decide),
    (sync_error_round_trip ⟨"OTHER_DOMAIN", 4294967295, "?"⟩ (by decide)).2.1⟩

end Infinity
